import Mathlib

/-!
# cdvdGigaherz `IOCtlSrc`: disc geometry probe and raw sector reads

A shallow embedding of `plugins/cdvdGigaherz/src/Windows/IOCtlSrc.cpp`.

* Machine integers are natural numbers or integers with an explicit
  reduction modulo `2 ^ 32` at every operation the C++ code performs on a
  `u32`.
* The object state is the record `IOCtlSrc`; every member function takes the
  state and returns its result together with the new state.
* The operating system and the drive are the record `Drive`: one answer
  function per device operation, each applied to the list of all operations
  issued so far (the one being answered last).  A `Drive` therefore is an
  arbitrary deterministic device behaviour, and the ghost field
  `IOCtlSrc.trace` records which operations a run has issued.
-/

namespace CDVD

/-! ## Machine integers -/

/-- An unsigned 8-bit value (`UCHAR`, `u8`). -/
abbrev UCHAR := Fin 256

/-- Conversion of an integer to `u32`: reduction modulo `2 ^ 32`. -/
def toU32 (x : Int) : Nat := (x % 2 ^ 32).toNat

/-- Addition of two `u32` values. -/
def u32add (a b : Nat) : Nat := (a + b) % 2 ^ 32

/-- Subtraction of two `u32` values. -/
def u32sub (a b : Nat) : Nat := toU32 ((a : Int) - (b : Int))

/-- Bitwise complement of a `u32` value (`~x`). -/
def u32not (a : Nat) : Nat := 2 ^ 32 - 1 - a % 2 ^ 32

/-- A 32-bit field of a device response, as the four bytes the device wrote,
in memory order. -/
structure ULONG where
  b0 : UCHAR
  b1 : UCHAR
  b2 : UCHAR
  b3 : UCHAR
  deriving DecidableEq, Repr

/-- The value the (little-endian) host reads from a `ULONG` field. -/
def ULONG.load (f : ULONG) : Nat :=
  f.b0.val + f.b1.val * 2 ^ 8 + f.b2.val * 2 ^ 16 + f.b3.val * 2 ^ 24

/-- The big-endian decoding of the four bytes of a `ULONG` field. -/
def ULONG.bigEndian (f : ULONG) : Nat :=
  f.b0.val * 2 ^ 24 + f.b1.val * 2 ^ 16 + f.b2.val * 2 ^ 8 + f.b3.val

/-- The four bytes whose big-endian decoding is `x % 2 ^ 32`. -/
def ULONG.ofBigEndian (x : Nat) : ULONG :=
  { b0 := Fin.ofNat (x / 2 ^ 24), b1 := Fin.ofNat (x / 2 ^ 16),
    b2 := Fin.ofNat (x / 2 ^ 8), b3 := Fin.ofNat x }

/-- Modelled from the spec: the compiler intrinsic `_byteswap_ulong` is not
part of the source file; it reverses the order of the four bytes of a 32-bit
value ("byte-order-corrected before arithmetic"). -/
def _byteswap_ulong (x : Nat) : Nat :=
  (x % 2 ^ 8) * 2 ^ 24 + (x / 2 ^ 8 % 2 ^ 8) * 2 ^ 16
    + (x / 2 ^ 16 % 2 ^ 8) * 2 ^ 8 + (x / 2 ^ 24 % 2 ^ 8)

/-! ## Device structures -/

/-- The fields of `DVD_LAYER_DESCRIPTOR` (`ntddcdvd.h`) that `ReadDVDInfo`
reads: the one-bit `TrackPath`, the two-bit `NumberOfLayers` and the three
sector addresses. -/
structure DVD_LAYER_DESCRIPTOR where
  TrackPath : Fin 2
  NumberOfLayers : Fin 4
  StartingDataSector : ULONG
  EndDataSector : ULONG
  EndLayerZeroSector : ULONG
  deriving DecidableEq, Repr

/-- The fields of `TRACK_DATA` (`ntddcdrm.h`) that `ReadCDInfo` reads. -/
structure TRACK_DATA where
  Control : Fin 16
  Adr : Fin 16
  TrackNumber : UCHAR
  Address0 : UCHAR
  Address1 : UCHAR
  Address2 : UCHAR
  Address3 : UCHAR
  deriving DecidableEq, Repr

/-- The number of elements of `CDROM_TOC::TrackData`. -/
def MAXIMUM_NUMBER_TRACKS : Nat := 100

/-- The size in bytes of one `TRACK_DATA` record. -/
def sizeof_TRACK_DATA : Nat := 8

/-- The number of values of `size_t`: the plugin is a 32-bit Windows build.
The value matters only for a TOC block whose declared length is below 2. -/
def SIZE_T_RANGE : Nat := 2 ^ 32

/-- The structure `CDROM_TOC` (`ntddcdrm.h`): the two length bytes and the
fixed array of `MAXIMUM_NUMBER_TRACKS` track records. -/
structure CDROM_TOC where
  Length0 : UCHAR
  Length1 : UCHAR
  FirstTrack : UCHAR
  LastTrack : UCHAR
  TrackData : Fin MAXIMUM_NUMBER_TRACKS → TRACK_DATA

/-- One entry of the table of contents kept by `IOCtlSrc` (`m_toc`). -/
structure toc_entry where
  lba : Nat
  track : UCHAR
  adr : Fin 16
  control : Fin 16
  deriving DecidableEq, Repr

/-- The command block `ReadSectors2352` hands to the passthrough request: the
fields of `SCSI_PASS_THROUGH_DIRECT` that address the sector and the buffer
(the sense fields, `Length` and `DataIn` are left out). -/
structure SCSI_PASS_THROUGH_DIRECT where
  Cdb : List Nat
  CdbLength : Nat
  TimeOutValue : Nat
  DataTransferLength : Nat
  DataBuffer : Nat
  deriving DecidableEq, Repr

/-- The operations `IOCtlSrc` issues to the operating system, with the
arguments the code chooses. -/
inductive DeviceOp where
  | CloseHandle
  | CreateFile
  | ALLOW_EXTENDED_DASD
  | CDROM_SET_SPEED (ReadSpeed WriteSpeed : Nat)
  | SetFilePointer (DiskOffset : Nat)
  | ReadFile (nNumberOfBytesToRead : Nat)
  | SCSI_PASS_THROUGH (sptd : SCSI_PASS_THROUGH_DIRECT)
  | DVD_START_SESSION
  | DVD_READ_STRUCTURE (SessionId LayerNumber : Nat)
  | DVD_END_SESSION (SessionId : Nat)
  | CDROM_READ_TOC_EX (Format Msf SessionTrack : Nat)
  | DISK_GET_LENGTH_INFO
  | STORAGE_CHECK_VERIFY
  deriving DecidableEq, Repr

/-- The behaviour of the operating system and the drive.  Every answer is a
function of the operations issued so far (the answered one last).  `none`
and `false` stand for a failed call. -/
structure Drive where
  CreateFile : List DeviceOp → Bool
  CDROM_SET_SPEED : List DeviceOp → Bool
  SetFilePointer : List DeviceOp → Nat × Nat
  ReadFile : List DeviceOp → Option Nat
  SCSI_PASS_THROUGH : List DeviceOp → Option Nat
  DVD_START_SESSION : List DeviceOp → Option Nat
  DVD_READ_STRUCTURE : List DeviceOp → Option DVD_LAYER_DESCRIPTOR
  CDROM_READ_TOC_EX : List DeviceOp → Option CDROM_TOC
  DISK_GET_LENGTH_INFO : List DeviceOp → Option Int
  STORAGE_CHECK_VERIFY : List DeviceOp → Bool

/-! ## The object state -/

/-- The data members of `IOCtlSrc`, and the ghost list `trace` of the device
operations issued so far.  `m_device` is `true` when the handle is not
`INVALID_HANDLE_VALUE`. -/
structure IOCtlSrc where
  m_device : Bool
  OpenOK : Bool
  m_disc_ready : Bool
  m_media_type : Int
  m_layer_break : Nat
  m_sectors : Nat
  m_toc : List toc_entry
  trace : List DeviceOp
  deriving DecidableEq, Repr

/-- Record that the operation `op` is issued. -/
def IOCtlSrc.issue (s : IOCtlSrc) (op : DeviceOp) : IOCtlSrc :=
  { s with trace := s.trace ++ [op] }

/-! ## `IOCtlSrc::ReadDVDInfo` -/

/-- The body of `if (ret) { ... }` in `ReadDVDInfo`: the layer-0 descriptor
was read into `layer`. -/
def ReadDVDInfo_layer (d : Drive) (session_id : Nat) (layer : DVD_LAYER_DESCRIPTOR)
    (s : IOCtlSrc) : Bool × IOCtlSrc :=
  let start_sector := _byteswap_ulong layer.StartingDataSector.load
  let end_sector := _byteswap_ulong layer.EndDataSector.load
  if layer.NumberOfLayers = 0 then
    -- Single layer
    (true, { s with
      m_media_type := 0
      m_layer_break := 0
      m_sectors := u32add (u32sub end_sector start_sector) 1 })
  else if layer.TrackPath = 0 then
    -- Dual layer, Parallel Track Path
    let s := s.issue (.DVD_READ_STRUCTURE session_id 1)
    match d.DVD_READ_STRUCTURE s.trace with
    | some layer =>
      let layer1_start_sector := _byteswap_ulong layer.StartingDataSector.load
      let layer1_end_sector := _byteswap_ulong layer.EndDataSector.load
      (true, { s with
        m_media_type := 1
        m_layer_break := u32sub end_sector start_sector
        m_sectors :=
          u32add (u32sub (u32add (u32add (u32sub end_sector start_sector) 1)
            layer1_end_sector) layer1_start_sector) 1 })
    | none => (false, s)
  else
    -- Dual layer, Opposite Track Path
    let end_sector_layer0 := _byteswap_ulong layer.EndLayerZeroSector.load
    (true, { s with
      m_media_type := 2
      m_layer_break := u32sub end_sector_layer0 start_sector
      m_sectors :=
        u32add (u32sub (u32add (u32add (u32sub end_sector_layer0 start_sector) 1)
          end_sector) (u32not end_sector_layer0 &&& 0xFFFFFF)) 1 })

/-- The function `IOCtlSrc::ReadDVDInfo`. -/
def ReadDVDInfo (d : Drive) (s : IOCtlSrc) : Bool × IOCtlSrc :=
  let s := s.issue .DVD_START_SESSION
  match d.DVD_START_SESSION s.trace with
  | none => (false, s)
  | some session_id =>
    let s := s.issue (.DVD_READ_STRUCTURE session_id 0)
    let r :=
      match d.DVD_READ_STRUCTURE s.trace with
      | some layer => ReadDVDInfo_layer d session_id layer s
      | none => (false, s)
    (r.1, r.2.issue (.DVD_END_SESSION session_id))

/-! ## `IOCtlSrc::ReadCDInfo` -/

/-- The value of `((toc.Length[0] << 8) + toc.Length[1] - 2) / sizeof(TRACK_DATA)`:
the subtraction is done on `int`, the result is converted to `size_t` for the
division. -/
def track_count (toc : CDROM_TOC) : Nat :=
  ((((toc.Length0.val <<< 8 : Nat) : Int) + (toc.Length1.val : Int) - 2)
    % (SIZE_T_RANGE : Int)).toNat / sizeof_TRACK_DATA

/-- The entry `ReadCDInfo` pushes for a track record. -/
def toc_entry_of (track : TRACK_DATA) : toc_entry :=
  { lba := toU32 (((track.Address1.val <<< 16) + (track.Address2.val <<< 8)
      + track.Address3.val : Nat) : Int)
    track := track.TrackNumber
    adr := track.Adr
    control := track.Control }

/-- The loop `for (size_t n = 0; n < track_count; ++n)` of `ReadCDInfo`, with
`remaining = track_count - n` iterations to go.  The result is `none` when an
iteration indexes `toc.TrackData` outside its `MAXIMUM_NUMBER_TRACKS`
elements, which the C++ code does not check and leaves undefined. -/
def ReadCDInfo_loop (toc : CDROM_TOC) :
    Nat → Nat → List toc_entry → Option (List toc_entry)
  | 0, _, m_toc => some m_toc
  | remaining + 1, n, m_toc =>
    if h : n < MAXIMUM_NUMBER_TRACKS then
      let track := toc.TrackData ⟨n, h⟩
      -- Exclude the lead-out track descriptor.
      if track.TrackNumber = 0xAA then
        ReadCDInfo_loop toc remaining (n + 1) m_toc
      else
        ReadCDInfo_loop toc remaining (n + 1) (m_toc ++ [toc_entry_of track])
    else
      none

/-- The function `IOCtlSrc::ReadCDInfo`.  The first component is `none` when
the run reads `toc.TrackData` out of bounds (see `ReadCDInfo_loop`); the state
returned with it only records the operations issued up to that read. -/
def ReadCDInfo (d : Drive) (s : IOCtlSrc) : Option Bool × IOCtlSrc :=
  let s := s.issue (.CDROM_READ_TOC_EX 0 0 1)
  match d.CDROM_READ_TOC_EX s.trace with
  | none => (some false, s)
  | some toc =>
    let s := { s with m_toc := [] }
    match ReadCDInfo_loop toc (track_count toc) 0 s.m_toc with
    | none => (none, s)
    | some m_toc =>
      let s := { s with m_toc := m_toc }
      let s := s.issue .DISK_GET_LENGTH_INFO
      match d.DISK_GET_LENGTH_INFO s.trace with
      | none => (some false, s)
      | some Length =>
        (some true, { s with
          m_sectors := toU32 (Int.tdiv Length 2048)
          m_media_type := -1 })

/-! ## `IOCtlSrc::RefreshDiscInfo` and the accessors -/

/-- The function `IOCtlSrc::RefreshDiscInfo`. -/
def RefreshDiscInfo (d : Drive) (s : IOCtlSrc) : Option Bool × IOCtlSrc :=
  if s.m_disc_ready then
    (some true, s)
  else
    let s := { s with m_media_type := 0, m_layer_break := 0, m_sectors := 0 }
    if !s.OpenOK then
      (some false, s)
    else
      let dvd := ReadDVDInfo d s
      if dvd.1 then
        (some true, { dvd.2 with m_disc_ready := true })
      else
        match ReadCDInfo d dvd.2 with
        | (none, s) => (none, s)
        | (some true, s) => (some true, { s with m_disc_ready := true })
        | (some false, s) => (some s.m_disc_ready, s)

/-- The statement `if (!m_disc_ready) RefreshDiscInfo();` every accessor
starts with; the boolean result of the refresh is dropped. -/
def refreshIfNotReady (d : Drive) (s : IOCtlSrc) : Option Unit × IOCtlSrc :=
  if !s.m_disc_ready then
    match RefreshDiscInfo d s with
    | (none, s) => (none, s)
    | (some _, s) => (some (), s)
  else
    (some (), s)

/-- The function `IOCtlSrc::GetSectorCount`. -/
def GetSectorCount (d : Drive) (s : IOCtlSrc) : Option Nat × IOCtlSrc :=
  match refreshIfNotReady d s with
  | (none, s) => (none, s)
  | (some _, s) => (some s.m_sectors, s)

/-- The function `IOCtlSrc::GetMediaType`. -/
def GetMediaType (d : Drive) (s : IOCtlSrc) : Option Int × IOCtlSrc :=
  match refreshIfNotReady d s with
  | (none, s) => (none, s)
  | (some _, s) => (some s.m_media_type, s)

/-- The function `IOCtlSrc::GetLayerBreakAddress`. -/
def GetLayerBreakAddress (d : Drive) (s : IOCtlSrc) : Option Nat × IOCtlSrc :=
  match refreshIfNotReady d s with
  | (none, s) => (none, s)
  | (some _, s) =>
    match GetMediaType d s with
    | (none, s) => (none, s)
    | (some media_type, s) =>
      if media_type < 0 then (some 0, s) else (some s.m_layer_break, s)

/-- The function `IOCtlSrc::ReadTOC`. -/
def ReadTOC (d : Drive) (s : IOCtlSrc) : Option (List toc_entry) × IOCtlSrc :=
  match refreshIfNotReady d s with
  | (none, s) => (none, s)
  | (some _, s) => (some s.m_toc, s)

/-! ## `IOCtlSrc::DiscChanged` -/

/-- The function `IOCtlSrc::DiscChanged`. -/
def DiscChanged (d : Drive) (s : IOCtlSrc) : Int × IOCtlSrc :=
  if !s.OpenOK then
    (-1, s)
  else
    let s := s.issue .STORAGE_CHECK_VERIFY
    if d.STORAGE_CHECK_VERIFY s.trace = false then
      (1, { s with m_disc_ready := false })
    else
      (0, s)

/-! ## `IOCtlSrc::ReadSectors2352` -/

/-- The command block as `ReadSectors2352` sets it up before its loop
(`sptd{}` zero-initialised, then the constant fields assigned).  `Cdb` has 16
bytes of which `CdbLength` are the command. -/
def sptd_init : SCSI_PASS_THROUGH_DIRECT :=
  { Cdb := [0xBE, 0, 0, 0, 0, 0, 0, 0, 1, 0xF8, 0, 0, 0, 0, 0, 0]
    CdbLength := 12
    TimeOutValue := 5
    DataTransferLength := 0
    DataBuffer := 0 }

/-- The assignments to the command block at the start of iteration `n` of the
loop of `ReadSectors2352`: the four sector bytes of the CDB, the transfer
length, and the data pointer `buffer + 2352 * n`, kept as the offset from
`buffer`; the product `2352 * n` is an `unsigned int` product. -/
def ReadSectors2352_sptd (sector n : Nat) (sptd : SCSI_PASS_THROUGH_DIRECT) :
    SCSI_PASS_THROUGH_DIRECT :=
  let current_sector := u32add sector n
  { sptd with
    Cdb := (((sptd.Cdb.set 2 ((current_sector >>> 24) &&& 0xFF)).set 3
      ((current_sector >>> 16) &&& 0xFF)).set 4
      ((current_sector >>> 8) &&& 0xFF)).set 5 (current_sector &&& 0xFF)
    DataTransferLength := 2352
    DataBuffer := (2352 * n) % 2 ^ 32 }

/-- The loop `for (u32 n = 0; n < count; ++n)` of `ReadSectors2352`, with
`remaining = count - n` iterations to go.  A successful request answers with
the transfer length it stored back into the command block. -/
def ReadSectors2352_loop (d : Drive) (sector : Nat) :
    Nat → Nat → SCSI_PASS_THROUGH_DIRECT → IOCtlSrc → Int × IOCtlSrc
  | 0, _, _, s => (0, s)
  | remaining + 1, n, sptd, s =>
    let sptd := ReadSectors2352_sptd sector n sptd
    let s := s.issue (.SCSI_PASS_THROUGH sptd)
    match d.SCSI_PASS_THROUGH s.trace with
    | some DataTransferLength =>
      ReadSectors2352_loop d sector remaining (n + 1)
        { sptd with DataTransferLength := DataTransferLength } s
    | none => (-1, s)

/-- The function `IOCtlSrc::ReadSectors2352`. -/
def ReadSectors2352 (d : Drive) (sector count : Nat) (s : IOCtlSrc) : Int × IOCtlSrc :=
  if !s.OpenOK then
    (-1, s)
  else
    ReadSectors2352_loop d sector count 0 sptd_init s

/-! ## `IOCtlSrc::ReadSectors2048` -/

/-- The function `IOCtlSrc::ReadSectors2048`.  `SetFilePointer` answers with
its return value and the value of `GetLastError`. -/
def ReadSectors2048 (d : Drive) (sector count : Nat) (s : IOCtlSrc) : Int × IOCtlSrc :=
  if !s.OpenOK then
    (-1, s)
  else
    let DiskOffset := (sector * 2048) % 2 ^ 64
    let s := s.issue (.SetFilePointer DiskOffset)
    let r := d.SetFilePointer s.trace
    if r.1 = 0xFFFFFFFF ∧ r.2 ≠ 0 then
      (-1, s)
    else
      let s := s.issue (.ReadFile ((2048 * count) % 2 ^ 32))
      match d.ReadFile s.trace with
      | none => (-1, s)
      | some size =>
        if size ≠ (2048 * count) % 2 ^ 32 then (-1, s) else (0, s)

/-! ## `IOCtlSrc::Reopen` -/

/-- The function `IOCtlSrc::Reopen`. -/
def Reopen (d : Drive) (s : IOCtlSrc) : Int × IOCtlSrc :=
  let s := if s.m_device then s.issue .CloseHandle else s
  let s := { s with OpenOK := false }
  let s := s.issue .CreateFile
  let s := { s with m_device := d.CreateFile s.trace }
  if !s.m_device then
    (-1, s)
  else
    let s := s.issue .ALLOW_EXTENDED_DASD
    (0, { s with m_disc_ready := false, OpenOK := true })

/-! ## Sample drives and states, and the definitions the statements use -/

/-- A drive on which every operation fails. -/
def deadDrive : Drive :=
  { CreateFile := fun _ => false
    CDROM_SET_SPEED := fun _ => false
    SetFilePointer := fun _ => (0xFFFFFFFF, 1)
    ReadFile := fun _ => none
    SCSI_PASS_THROUGH := fun _ => none
    DVD_START_SESSION := fun _ => none
    DVD_READ_STRUCTURE := fun _ => none
    CDROM_READ_TOC_EX := fun _ => none
    DISK_GET_LENGTH_INFO := fun _ => none
    STORAGE_CHECK_VERIFY := fun _ => false }

/-- An open session whose cache is not ready and which has issued nothing. -/
def openSession : IOCtlSrc :=
  { m_device := true, OpenOK := true, m_disc_ready := false, m_media_type := 0,
    m_layer_break := 0, m_sectors := 0, m_toc := [], trace := [] }

/-- A layer descriptor given by its fields, the sectors by their values. -/
def mkLayer (TrackPath : Fin 2) (NumberOfLayers : Fin 4) (start end_ endLayerZero : Nat) :
    DVD_LAYER_DESCRIPTOR :=
  { TrackPath := TrackPath, NumberOfLayers := NumberOfLayers
    StartingDataSector := ULONG.ofBigEndian start
    EndDataSector := ULONG.ofBigEndian end_
    EndLayerZeroSector := ULONG.ofBigEndian endLayerZero }

/-- A drive holding a DVD: the session starts with identifier 7, the
descriptor of layer 0 is `layer0` and that of any other layer is `layer1`. -/
def dvdDrive (layer0 : DVD_LAYER_DESCRIPTOR) (layer1 : Option DVD_LAYER_DESCRIPTOR) : Drive :=
  { deadDrive with
    CreateFile := fun _ => true
    STORAGE_CHECK_VERIFY := fun _ => true
    DVD_START_SESSION := fun _ => some 7
    DVD_READ_STRUCTURE := fun tr =>
      match tr.getLast? with
      | some (.DVD_READ_STRUCTURE _ 0) => some layer0
      | _ => layer1 }

/-- A track record with the given track number and address bytes. -/
def mkTrack (TrackNumber Address1 Address2 Address3 : UCHAR) : TRACK_DATA :=
  { Control := 4, Adr := 1, TrackNumber := TrackNumber, Address0 := 0,
    Address1 := Address1, Address2 := Address2, Address3 := Address3 }

/-- A TOC block with the given length bytes whose record `n` is track
`n + 1` at address `n * 256`, except that record 1 is the lead-out. -/
def sampleToc (Length0 Length1 : UCHAR) : CDROM_TOC :=
  { Length0 := Length0, Length1 := Length1, FirstTrack := 1, LastTrack := 1
    TrackData := fun n =>
      if n.val = 1 then mkTrack 0xAA 0 0x12 0x34
      else mkTrack (Fin.ofNat (n.val + 1)) 0 (Fin.ofNat n.val) 0 }

/-- A drive holding a CD: the DVD probe fails, the TOC query answers `toc`
and the length query answers `length`. -/
def cdDrive (toc : CDROM_TOC) (length : Option Int) : Drive :=
  { deadDrive with
    CreateFile := fun _ => true
    STORAGE_CHECK_VERIFY := fun _ => true
    CDROM_READ_TOC_EX := fun _ => some toc
    DISK_GET_LENGTH_INFO := fun _ => length }

/-- The declared length of a TOC block: its two length bytes, big-endian. -/
def declaredLength (toc : CDROM_TOC) : Nat :=
  toc.Length0.val * 256 + toc.Length1.val

/-- The lead-out test of `ReadCDInfo`. -/
def isLeadOut (track : TRACK_DATA) : Bool := track.TrackNumber = 0xAA

/-- The table of contents the specification describes for a TOC block: the
first `(declaredLength - 2) / recordSize` records in device order, without
the lead-out records, each mapped to its entry. -/
def specToc (toc : CDROM_TOC) : List toc_entry :=
  (((List.ofFn toc.TrackData).take ((declaredLength toc - 2) / sizeof_TRACK_DATA)).filter
    (fun track => !isLeadOut track)).map
    (fun track =>
      { lba := track.Address1.val * 65536 + track.Address2.val * 256 + track.Address3.val
        track := track.TrackNumber
        adr := track.Adr
        control := track.Control })

/-- The command block of iteration `n` of a `ReadSectors2352` run for the
start sector `sector`. -/
def issuedSptd (sector n : Nat) : SCSI_PASS_THROUGH_DIRECT :=
  ReadSectors2352_sptd sector n sptd_init

/-- The passthrough requests of the iterations `0 .. m - 1`, in order. -/
def issuedRequests (sector m : Nat) : List DeviceOp :=
  (List.range m).map (fun n => DeviceOp.SCSI_PASS_THROUGH (issuedSptd sector n))

/-- A drive whose passthrough request succeeds, with transfer length `len`,
except for the sector `bad`. -/
def rawDrive (len : Nat) (bad : Nat) : Drive :=
  { deadDrive with
    CreateFile := fun _ => true
    STORAGE_CHECK_VERIFY := fun _ => true
    SCSI_PASS_THROUGH := fun tr =>
      match tr.getLast? with
      | some (.SCSI_PASS_THROUGH sptd) =>
        if sptd.Cdb.take 6 = [0xBE, 0, bad / 2 ^ 24 % 256, bad / 2 ^ 16 % 256,
          bad / 2 ^ 8 % 256, bad % 256] then none else some len
      | _ => none }

/-- The fields of the command block the loop of `ReadSectors2352` never
assigns have the values set before the loop. -/
def sptdInvariant (sptd : SCSI_PASS_THROUGH_DIRECT) : Prop :=
  (∃ a b c e : Nat, sptd.Cdb = [0xBE, 0, a, b, c, e, 0, 0, 1, 0xF8, 0, 0, 0, 0, 0, 0])
    ∧ sptd.CdbLength = 12 ∧ sptd.TimeOutValue = 5

/-- The sector address a READ CD command block carries: bytes 2 to 5 of the
CDB, big-endian. -/
def cdbSector (sptd : SCSI_PASS_THROUGH_DIRECT) : Nat :=
  sptd.Cdb.getD 2 0 * 2 ^ 24 + sptd.Cdb.getD 3 0 * 2 ^ 16 + sptd.Cdb.getD 4 0 * 2 ^ 8
    + sptd.Cdb.getD 5 0

/-- The number of sectors a READ CD command block asks for: bytes 6 to 8 of
the CDB, big-endian. -/
def cdbSectorCount (sptd : SCSI_PASS_THROUGH_DIRECT) : Nat :=
  sptd.Cdb.getD 6 0 * 2 ^ 16 + sptd.Cdb.getD 7 0 * 2 ^ 8 + sptd.Cdb.getD 8 0

/-- A drive whose passthrough request always succeeds with transfer length
2352. -/
def steadyDrive : Drive :=
  { deadDrive with
    CreateFile := fun _ => true
    STORAGE_CHECK_VERIFY := fun _ => true
    SCSI_PASS_THROUGH := fun _ => some 2352 }

/-- A drive holding the single-layer DVD of `dvdDrive` whose first session
start fails: the session starts only once two operations were issued before. -/
def flakyDrive : Drive :=
  { dvdDrive (mkLayer 0 0 0x30000 0x180000 0) none with
    DVD_START_SESSION := fun tr => if tr.length ≤ 2 then none else some 7 }

/-- A session whose cache is ready and holds the geometry of a CD. -/
def cachedCdSession : IOCtlSrc :=
  { openSession with
    m_disc_ready := true, m_media_type := -1, m_sectors := 333000
    m_toc := [{ lba := 0, track := 1, adr := 1, control := 4 }] }

/-- A drive whose media check fails (the disc was changed) and which now
holds the single-layer DVD of `dvdDrive`. -/
def swappedDrive : Drive :=
  { dvdDrive (mkLayer 0 0 0x30000 0x180000 0) none with
    STORAGE_CHECK_VERIFY := fun _ => false }

/-- The session `cachedCdSession` after its cache was invalidated: not ready,
the geometry and the TOC entry of the previous CD still stored. -/
def staleCdSession : IOCtlSrc :=
  { cachedCdSession with m_disc_ready := false }

/-- A session that is not open: no handle, nothing cached, nothing issued. -/
def closedSession : IOCtlSrc :=
  { openSession with m_device := false, OpenOK := false }

/-- The states of a session on the drive `d` that are reachable from a freshly
reopened session (a `Reopen` that returned 0) through `Reopen`, `DiscChanged`
and the geometry accessors. -/
inductive Reachable (d : Drive) : IOCtlSrc → Prop where
  | fresh (s : IOCtlSrc) : (Reopen d s).1 = 0 → Reachable d (Reopen d s).2
  | reopen {s : IOCtlSrc} : Reachable d s → Reachable d (Reopen d s).2
  | discChanged {s : IOCtlSrc} : Reachable d s → Reachable d (DiscChanged d s).2
  | getSectorCount {s : IOCtlSrc} : Reachable d s → Reachable d (GetSectorCount d s).2
  | getLayerBreakAddress {s : IOCtlSrc} :
      Reachable d s → Reachable d (GetLayerBreakAddress d s).2
  | getMediaType {s : IOCtlSrc} : Reachable d s → Reachable d (GetMediaType d s).2
  | readTOC {s : IOCtlSrc} : Reachable d s → Reachable d (ReadTOC d s).2

/-- The layer-break invariant of the cache: when the cache is ready the media
type is -1, 0, 1 or 2, and the layer break is 0 for the media types -1 and 0. -/
def cacheInvariant (s : IOCtlSrc) : Prop :=
  s.m_disc_ready = true →
    (s.m_media_type = -1 ∨ s.m_media_type = 0 ∨ s.m_media_type = 1 ∨ s.m_media_type = 2)
      ∧ (s.m_media_type = -1 ∨ s.m_media_type = 0 → s.m_layer_break = 0)

/-- A drive on which positioning succeeds and every linear read returns
`size` bytes (`none`: the read fails). -/
def readDrive (size : Option Nat) : Drive :=
  { deadDrive with
    CreateFile := fun _ => true
    STORAGE_CHECK_VERIFY := fun _ => true
    SetFilePointer := fun _ => (0, 0)
    ReadFile := fun _ => size }

/-- A drive whose media check fails (the disc was changed) and which now
holds a CD: `cdDrive` with a failing media check. -/
def swappedCdDrive (toc : CDROM_TOC) (length : Option Int) : Drive :=
  { cdDrive toc length with STORAGE_CHECK_VERIFY := fun _ => false }

/-! ## Machine arithmetic lemmas -/

theorem toU32_cast (x : Int) : ((toU32 x : Nat) : Int) = x % 2 ^ 32 := by
  unfold toU32
  exact Int.toNat_of_nonneg (Int.emod_nonneg _ (by norm_num))

theorem u32add_cast (a b : Nat) : ((u32add a b : Nat) : Int) = ((a : Int) + b) % 2 ^ 32 := by
  unfold u32add
  push_cast
  rfl

theorem u32sub_cast (a b : Nat) : ((u32sub a b : Nat) : Int) = ((a : Int) - b) % 2 ^ 32 := by
  unfold u32sub
  exact toU32_cast _

theorem toU32_lt (x : Int) : toU32 x < 2 ^ 32 := by
  have h := toU32_cast x
  have h2 : x % 2 ^ 32 < 2 ^ 32 := Int.emod_lt_of_pos _ (by norm_num)
  omega

theorem byteswap_load (f : ULONG) : _byteswap_ulong f.load = f.bigEndian := by
  obtain ⟨b0, b1, b2, b3⟩ := f
  have h0 := b0.isLt
  have h1 := b1.isLt
  have h2 := b2.isLt
  have h3 := b3.isLt
  simp only [_byteswap_ulong, ULONG.load, ULONG.bigEndian]
  omega

theorem bigEndian_lt (f : ULONG) : f.bigEndian < 2 ^ 32 := by
  obtain ⟨b0, b1, b2, b3⟩ := f
  have h0 := b0.isLt
  have h1 := b1.isLt
  have h2 := b2.isLt
  have h3 := b3.isLt
  simp only [ULONG.bigEndian]
  omega

theorem bigEndian_ofBigEndian (x : Nat) : (ULONG.ofBigEndian x).bigEndian = x % 2 ^ 32 := by
  simp only [ULONG.ofBigEndian, ULONG.bigEndian, Fin.ofNat, Fin.val_mk]
  omega

/-! ## The DVD probe -/

/-- C1. When the session starts and the layer-0 descriptor is read and reports
no additional layer, `ReadDVDInfo` succeeds with media type 0, layer break 0
and sector count `endSector - startSector + 1` modulo `2 ^ 32`, the sectors
being the big-endian decodings of the descriptor fields; for `0x30000` and
`0x180000` the sector count is `0x150001`. -/
theorem ReadDVDInfo_single_layer (d : Drive) (s : IOCtlSrc) (session_id : Nat)
    (layer : DVD_LAYER_DESCRIPTOR)
    (hstart : d.DVD_START_SESSION (s.trace ++ [.DVD_START_SESSION]) = some session_id)
    (hread : d.DVD_READ_STRUCTURE
      (s.trace ++ [.DVD_START_SESSION, .DVD_READ_STRUCTURE session_id 0]) = some layer)
    (hsingle : layer.NumberOfLayers = 0) :
    (ReadDVDInfo d s).1 = true
      ∧ (ReadDVDInfo d s).2.m_media_type = 0
      ∧ (ReadDVDInfo d s).2.m_layer_break = 0
      ∧ (((ReadDVDInfo d s).2.m_sectors : Nat) : Int)
          = ((layer.EndDataSector.bigEndian : Int)
              - layer.StartingDataSector.bigEndian + 1) % 2 ^ 32
      ∧ (layer.StartingDataSector.bigEndian = 0x30000 →
          layer.EndDataSector.bigEndian = 0x180000 →
          (ReadDVDInfo d s).2.m_sectors = 0x150001) := by
  have hrun : ReadDVDInfo d s
      = (true, ({ (s.issue .DVD_START_SESSION).issue (.DVD_READ_STRUCTURE session_id 0) with
          m_media_type := 0
          m_layer_break := 0
          m_sectors := u32add (u32sub layer.EndDataSector.bigEndian
            layer.StartingDataSector.bigEndian) 1 } : IOCtlSrc).issue
            (.DVD_END_SESSION session_id)) := by
    simp [ReadDVDInfo, ReadDVDInfo_layer, IOCtlSrc.issue, hstart, hread, hsingle,
      byteswap_load]
  rw [hrun]
  have hs : (((u32add (u32sub layer.EndDataSector.bigEndian
      layer.StartingDataSector.bigEndian) 1 : Nat) : Int))
      = ((layer.EndDataSector.bigEndian : Int)
              - layer.StartingDataSector.bigEndian + 1) % 2 ^ 32 := by
    rw [u32add_cast, u32sub_cast]
    omega
  refine ⟨rfl, rfl, rfl, hs, ?_⟩
  intro h0 h1
  show u32add (u32sub layer.EndDataSector.bigEndian layer.StartingDataSector.bigEndian) 1
    = 0x150001
  omega

/-- C1, at the single-layer disc with start sector `0x30000` and end sector
`0x180000`. -/
theorem ReadDVDInfo_single_layer_witness :
    (ReadDVDInfo (dvdDrive (mkLayer 0 0 0x30000 0x180000 0) none) openSession).1 = true
      ∧ (ReadDVDInfo (dvdDrive (mkLayer 0 0 0x30000 0x180000 0) none) openSession).2.m_sectors
          = 0x150001 :=
  have h := ReadDVDInfo_single_layer (dvdDrive (mkLayer 0 0 0x30000 0x180000 0) none)
    openSession 7 (mkLayer 0 0 0x30000 0x180000 0) rfl rfl rfl
  ⟨h.1, h.2.2.2.2 (by decide) (by decide)⟩

theorem u32not_and_24 (x : Nat) :
    u32not x &&& 0xFFFFFF = 0xFFFFFF - x % 2 ^ 24 := by
  have h := Nat.and_pow_two_sub_one_eq_mod (u32not x) 24
  norm_num at h
  rw [h]
  unfold u32not
  omega

/-- C2. On a dual-layer disc whose layer-0 descriptor reports Parallel Track
Path and whose layer-1 descriptor read succeeds, `ReadDVDInfo` succeeds with
media type 1, layer break `endSector0 - startSector0` (which is the layer-0
sector count minus one) and sector count
`(endSector0 - startSector0 + 1) + (endSector1 - startSector1 + 1)`, modulo
`2 ^ 32`; the layer-1 sectors are those of the descriptor answered to the
second request, issued for layer number 1. -/
theorem ReadDVDInfo_parallel_track_path (d : Drive) (s : IOCtlSrc) (session_id : Nat)
    (layer0 layer1 : DVD_LAYER_DESCRIPTOR)
    (hstart : d.DVD_START_SESSION (s.trace ++ [.DVD_START_SESSION]) = some session_id)
    (hread0 : d.DVD_READ_STRUCTURE
      (s.trace ++ [.DVD_START_SESSION, .DVD_READ_STRUCTURE session_id 0]) = some layer0)
    (hdual : layer0.NumberOfLayers ≠ 0)
    (hptp : layer0.TrackPath = 0)
    (hread1 : d.DVD_READ_STRUCTURE
      (s.trace ++ [.DVD_START_SESSION, .DVD_READ_STRUCTURE session_id 0,
        .DVD_READ_STRUCTURE session_id 1]) = some layer1) :
    (ReadDVDInfo d s).1 = true
      ∧ (ReadDVDInfo d s).2.m_media_type = 1
      ∧ (((ReadDVDInfo d s).2.m_layer_break : Nat) : Int)
          = ((layer0.EndDataSector.bigEndian : Int)
              - layer0.StartingDataSector.bigEndian) % 2 ^ 32
      ∧ (((ReadDVDInfo d s).2.m_layer_break : Nat) : Int)
          = (((layer0.EndDataSector.bigEndian : Int)
              - layer0.StartingDataSector.bigEndian + 1) % 2 ^ 32 - 1) % 2 ^ 32
      ∧ (((ReadDVDInfo d s).2.m_sectors : Nat) : Int)
          = (((layer0.EndDataSector.bigEndian : Int)
                - layer0.StartingDataSector.bigEndian + 1)
              + ((layer1.EndDataSector.bigEndian : Int)
                - layer1.StartingDataSector.bigEndian + 1)) % 2 ^ 32
      ∧ (ReadDVDInfo d s).2.trace
          = s.trace ++ [.DVD_START_SESSION, .DVD_READ_STRUCTURE session_id 0,
              .DVD_READ_STRUCTURE session_id 1, .DVD_END_SESSION session_id] := by
  have hrun : ReadDVDInfo d s
      = (true, ({ ((s.issue .DVD_START_SESSION).issue
            (.DVD_READ_STRUCTURE session_id 0)).issue (.DVD_READ_STRUCTURE session_id 1) with
          m_media_type := 1
          m_layer_break := u32sub layer0.EndDataSector.bigEndian
            layer0.StartingDataSector.bigEndian
          m_sectors := u32add (u32sub (u32add (u32add (u32sub layer0.EndDataSector.bigEndian
            layer0.StartingDataSector.bigEndian) 1) layer1.EndDataSector.bigEndian)
            layer1.StartingDataSector.bigEndian) 1 } : IOCtlSrc).issue
            (.DVD_END_SESSION session_id)) := by
    simp [ReadDVDInfo, ReadDVDInfo_layer, IOCtlSrc.issue, hstart, hread0, hread1, hdual, hptp,
      byteswap_load]
  rw [hrun]
  refine ⟨rfl, rfl, ?_, ?_, ?_, ?_⟩
  · show ((u32sub _ _ : Nat) : Int) = _
    rw [u32sub_cast]
  · show ((u32sub _ _ : Nat) : Int) = _
    rw [u32sub_cast]
    omega
  · show ((u32add _ _ : Nat) : Int) = _
    rw [u32add_cast, u32sub_cast, u32add_cast, u32add_cast, u32sub_cast]
    omega
  · simp [IOCtlSrc.issue]

/-- C2, at a disc with layers `0x30000 .. 0x22FFFF` and `0x30000 .. 0x1FFFFF`. -/
theorem ReadDVDInfo_parallel_track_path_witness :
    (ReadDVDInfo (dvdDrive (mkLayer 0 1 0x30000 0x22FFFF 0)
        (some (mkLayer 0 1 0x30000 0x1FFFFF 0))) openSession).2.m_media_type = 1
      ∧ (ReadDVDInfo (dvdDrive (mkLayer 0 1 0x30000 0x22FFFF 0)
        (some (mkLayer 0 1 0x30000 0x1FFFFF 0))) openSession).2.trace
          = [.DVD_START_SESSION, .DVD_READ_STRUCTURE 7 0, .DVD_READ_STRUCTURE 7 1,
              .DVD_END_SESSION 7] :=
  have h := ReadDVDInfo_parallel_track_path (dvdDrive (mkLayer 0 1 0x30000 0x22FFFF 0)
    (some (mkLayer 0 1 0x30000 0x1FFFFF 0))) openSession 7 (mkLayer 0 1 0x30000 0x22FFFF 0)
    (mkLayer 0 1 0x30000 0x1FFFFF 0) rfl rfl (by decide) rfl rfl
  ⟨h.2.1, h.2.2.2.2.2⟩

/-- C3. On a dual-layer disc whose layer-0 descriptor reports Opposite Track
Path, `ReadDVDInfo` succeeds with media type 2, layer break
`endLayerZeroSector - startSector0` and sector count
`(endLayerZeroSector - startSector0 + 1) + (endSector - c + 1)`, modulo
`2 ^ 32`, where `c = ~endLayerZeroSector & 0xFFFFFF` is the 24-bit complement
`0xFFFFFF - endLayerZeroSector % 2 ^ 24`; no second descriptor is requested. -/
theorem ReadDVDInfo_opposite_track_path (d : Drive) (s : IOCtlSrc) (session_id : Nat)
    (layer : DVD_LAYER_DESCRIPTOR)
    (hstart : d.DVD_START_SESSION (s.trace ++ [.DVD_START_SESSION]) = some session_id)
    (hread : d.DVD_READ_STRUCTURE
      (s.trace ++ [.DVD_START_SESSION, .DVD_READ_STRUCTURE session_id 0]) = some layer)
    (hdual : layer.NumberOfLayers ≠ 0)
    (hotp : layer.TrackPath ≠ 0) :
    (ReadDVDInfo d s).1 = true
      ∧ (ReadDVDInfo d s).2.m_media_type = 2
      ∧ (((ReadDVDInfo d s).2.m_layer_break : Nat) : Int)
          = ((layer.EndLayerZeroSector.bigEndian : Int)
              - layer.StartingDataSector.bigEndian) % 2 ^ 32
      ∧ (((ReadDVDInfo d s).2.m_sectors : Nat) : Int)
          = (((layer.EndLayerZeroSector.bigEndian : Int)
                - layer.StartingDataSector.bigEndian + 1)
              + ((layer.EndDataSector.bigEndian : Int)
                - ((u32not layer.EndLayerZeroSector.bigEndian &&& 0xFFFFFF : Nat) : Int) + 1))
              % 2 ^ 32
      ∧ u32not layer.EndLayerZeroSector.bigEndian &&& 0xFFFFFF
          = 0xFFFFFF - layer.EndLayerZeroSector.bigEndian % 2 ^ 24
      ∧ (ReadDVDInfo d s).2.trace
          = s.trace ++ [.DVD_START_SESSION, .DVD_READ_STRUCTURE session_id 0,
              .DVD_END_SESSION session_id] := by
  have hrun : ReadDVDInfo d s
      = (true, ({ (s.issue .DVD_START_SESSION).issue (.DVD_READ_STRUCTURE session_id 0) with
          m_media_type := 2
          m_layer_break := u32sub layer.EndLayerZeroSector.bigEndian
            layer.StartingDataSector.bigEndian
          m_sectors := u32add (u32sub (u32add (u32add (u32sub layer.EndLayerZeroSector.bigEndian
            layer.StartingDataSector.bigEndian) 1) layer.EndDataSector.bigEndian)
            (u32not layer.EndLayerZeroSector.bigEndian &&& 0xFFFFFF)) 1 } : IOCtlSrc).issue
            (.DVD_END_SESSION session_id)) := by
    simp [ReadDVDInfo, ReadDVDInfo_layer, IOCtlSrc.issue, hstart, hread, hdual, hotp,
      byteswap_load]
  rw [hrun]
  refine ⟨rfl, rfl, ?_, ?_, u32not_and_24 _, ?_⟩
  · show ((u32sub _ _ : Nat) : Int) = _
    rw [u32sub_cast]
  · show ((u32add _ _ : Nat) : Int) = _
    rw [u32add_cast, u32sub_cast, u32add_cast, u32add_cast, u32sub_cast]
    omega
  · simp [IOCtlSrc.issue]

/-- C3, at a disc with start `0x30000`, layer-0 end `0x20FFFF` and end
`0xFCFFFF`: 3932160 sectors, layer break at 1966079. -/
theorem ReadDVDInfo_opposite_track_path_witness :
    (ReadDVDInfo (dvdDrive (mkLayer 1 1 0x30000 0xFCFFFF 0x20FFFF) none)
        openSession).2.m_media_type = 2
      ∧ (ReadDVDInfo (dvdDrive (mkLayer 1 1 0x30000 0xFCFFFF 0x20FFFF) none)
        openSession).2.m_layer_break = 1966079
      ∧ (ReadDVDInfo (dvdDrive (mkLayer 1 1 0x30000 0xFCFFFF 0x20FFFF) none)
        openSession).2.m_sectors = 3932160 :=
  have h := ReadDVDInfo_opposite_track_path (dvdDrive (mkLayer 1 1 0x30000 0xFCFFFF 0x20FFFF)
    none) openSession 7 (mkLayer 1 1 0x30000 0xFCFFFF 0x20FFFF) rfl rfl (by decide) (by decide)
  ⟨h.2.1, by decide, by decide⟩

/-! ## The CD probe -/

theorem toc_entry_of_eq (track : TRACK_DATA) :
    toc_entry_of track =
      { lba := track.Address1.val * 65536 + track.Address2.val * 256 + track.Address3.val
        track := track.TrackNumber
        adr := track.Adr
        control := track.Control } := by
  have h1 := track.Address1.isLt
  have h2 := track.Address2.isLt
  have h3 := track.Address3.isLt
  have hc := toU32_cast (((track.Address1.val <<< 16) + (track.Address2.val <<< 8)
      + track.Address3.val : Nat) : Int)
  simp only [toc_entry_of, Nat.shiftLeft_eq] at hc ⊢
  congr 1
  omega

theorem track_count_of_two_le (toc : CDROM_TOC) (h : 2 ≤ declaredLength toc) :
    track_count toc = (declaredLength toc - 2) / sizeof_TRACK_DATA := by
  have h0 := toc.Length0.isLt
  have h1 := toc.Length1.isLt
  unfold declaredLength at h
  simp only [track_count, declaredLength, SIZE_T_RANGE, Nat.shiftLeft_eq]
  congr 1
  omega

theorem track_count_of_lt_two (toc : CDROM_TOC) (h : declaredLength toc < 2) :
    track_count toc = (2 ^ 32 - 2 + declaredLength toc) / sizeof_TRACK_DATA := by
  have h0 := toc.Length0.isLt
  have h1 := toc.Length1.isLt
  unfold declaredLength at h
  simp only [track_count, declaredLength, SIZE_T_RANGE, Nat.shiftLeft_eq]
  congr 1
  omega

theorem two_le_of_track_count_le (toc : CDROM_TOC)
    (h : track_count toc ≤ MAXIMUM_NUMBER_TRACKS) : 2 ≤ declaredLength toc := by
  by_contra hlt
  rw [track_count_of_lt_two toc (by omega)] at h
  simp only [MAXIMUM_NUMBER_TRACKS, sizeof_TRACK_DATA] at h
  omega

theorem ofFn_drop_cons (toc : CDROM_TOC) (n : Nat) (hlt : n < MAXIMUM_NUMBER_TRACKS) :
    (List.ofFn toc.TrackData).drop n
      = toc.TrackData ⟨n, hlt⟩ :: (List.ofFn toc.TrackData).drop (n + 1) := by
  have hlen : n < (List.ofFn toc.TrackData).length := by
    rw [List.length_ofFn]; exact hlt
  rw [List.drop_eq_getElem_cons hlen, List.getElem_ofFn]

theorem ReadCDInfo_loop_in_bounds (toc : CDROM_TOC) (remaining : Nat) :
    ∀ (n : Nat) (m_toc : List toc_entry), n + remaining ≤ MAXIMUM_NUMBER_TRACKS →
      ReadCDInfo_loop toc remaining n m_toc
        = some (m_toc ++ ((((List.ofFn toc.TrackData).drop n).take remaining).filter
            (fun track => !isLeadOut track)).map toc_entry_of) := by
  induction remaining with
  | zero =>
    intro n m_toc _
    simp only [ReadCDInfo_loop, List.take_zero, List.filter_nil, List.map_nil, List.append_nil]
  | succ r ih =>
    intro n m_toc hn
    have hlt : n < MAXIMUM_NUMBER_TRACKS := by omega
    rw [ofFn_drop_cons toc n hlt, ReadCDInfo_loop, dif_pos hlt, List.take_succ_cons,
      List.filter_cons]
    by_cases hlead : (toc.TrackData ⟨n, hlt⟩).TrackNumber = 0xAA
    · have hb : (!isLeadOut (toc.TrackData ⟨n, hlt⟩)) = false := by
        simp only [isLeadOut, hlead, decide_True, Bool.not_true]
      simp only [hlead, if_true, hb, ih (n + 1) m_toc (by omega)]
      rfl
    · have hb : (!isLeadOut (toc.TrackData ⟨n, hlt⟩)) = true := by
        simp only [isLeadOut, hlead, decide_False, Bool.not_false]
      simp only [hlead, if_false, hb, if_true, ih (n + 1) _ (by omega), List.map_cons,
        List.append_assoc, List.singleton_append]

theorem ReadCDInfo_loop_out_of_bounds (toc : CDROM_TOC) (remaining : Nat) :
    ∀ (n : Nat) (m_toc : List toc_entry), n ≤ MAXIMUM_NUMBER_TRACKS →
      MAXIMUM_NUMBER_TRACKS < n + remaining →
      ReadCDInfo_loop toc remaining n m_toc = none := by
  induction remaining with
  | zero => intro n m_toc h1 h2; omega
  | succ r ih =>
    intro n m_toc h1 h2
    rw [ReadCDInfo_loop]
    by_cases hlt : n < MAXIMUM_NUMBER_TRACKS
    · rw [dif_pos hlt]
      by_cases hlead : (toc.TrackData ⟨n, hlt⟩).TrackNumber = 0xAA
      · simp only [hlead, if_true, ih (n + 1) m_toc (by omega) (by omega)]
      · simp only [hlead, if_false, ih (n + 1) _ (by omega) (by omega)]
    · rw [dif_neg hlt]

theorem ReadCDInfo_toc_in_bounds (d : Drive) (s : IOCtlSrc) (toc : CDROM_TOC)
    (hread : d.CDROM_READ_TOC_EX (s.trace ++ [.CDROM_READ_TOC_EX 0 0 1]) = some toc)
    (hcount : track_count toc ≤ MAXIMUM_NUMBER_TRACKS) :
    (ReadCDInfo d s).1 ≠ none ∧ (ReadCDInfo d s).2.m_toc = specToc toc := by
  have hloop := ReadCDInfo_loop_in_bounds toc (track_count toc) 0 [] (by omega)
  have hspec : (([] : List toc_entry) ++ ((((List.ofFn toc.TrackData).drop 0).take
      (track_count toc)).filter (fun track => !isLeadOut track)).map toc_entry_of)
      = specToc toc := by
    rw [track_count_of_two_le toc (two_le_of_track_count_le toc hcount)]
    simp only [List.nil_append, List.drop_zero, specToc]
    apply List.map_congr_left
    intro track _
    exact toc_entry_of_eq track
  rw [hspec] at hloop
  unfold ReadCDInfo
  simp only [IOCtlSrc.issue, hread, hloop]
  cases d.DISK_GET_LENGTH_INFO (s.trace ++ [.CDROM_READ_TOC_EX 0 0 1] ++ [.DISK_GET_LENGTH_INFO])
    <;> simp

theorem ReadCDInfo_toc_out_of_bounds (d : Drive) (s : IOCtlSrc) (toc : CDROM_TOC)
    (hread : d.CDROM_READ_TOC_EX (s.trace ++ [.CDROM_READ_TOC_EX 0 0 1]) = some toc)
    (hcount : MAXIMUM_NUMBER_TRACKS < track_count toc) :
    (ReadCDInfo d s).1 = none := by
  have hloop := ReadCDInfo_loop_out_of_bounds toc (track_count toc) 0 [] (by omega) (by omega)
  unfold ReadCDInfo
  simp only [IOCtlSrc.issue, hread, hloop]

theorem specToc_no_lead_out (toc : CDROM_TOC) : ∀ e ∈ specToc toc, e.track ≠ 0xAA := by
  intro e he
  simp only [specToc, List.mem_map, List.mem_filter] at he
  obtain ⟨track, ⟨_, hkeep⟩, rfl⟩ := he
  simpa [isLeadOut] using hkeep

theorem specToc_order (toc : CDROM_TOC) :
    ((specToc toc).map (fun e => e.track)).Sublist
      ((List.ofFn toc.TrackData).map (fun track => track.TrackNumber)) := by
  simp only [specToc, List.map_map]
  exact (((List.filter_sublist _).trans (List.take_sublist _ _)).map _)

/-- C4 as amended. After a successful TOC read whose declared length gives at
most `MAXIMUM_NUMBER_TRACKS` records (the declared length is then between 2
and 809), `ReadCDInfo` does not read outside the array and leaves as TOC the first `(declaredLength - 2) / 8` records in device
order, without those whose track number is `0xAA`, each mapped to
`{lba = Address[1]*65536 + Address[2]*256 + Address[3], track, adr, control}`:
no entry has track number `0xAA`, the order is the device order, and the
result does not depend on the entries held before. -/
theorem ReadCDInfo_toc (d : Drive) (s : IOCtlSrc) (toc : CDROM_TOC)
    (hread : d.CDROM_READ_TOC_EX (s.trace ++ [.CDROM_READ_TOC_EX 0 0 1]) = some toc)
    (hcount : track_count toc ≤ MAXIMUM_NUMBER_TRACKS) :
    (ReadCDInfo d s).1 ≠ none
      ∧ (2 ≤ declaredLength toc ∧ declaredLength toc ≤ 809)
      ∧ track_count toc = (declaredLength toc - 2) / sizeof_TRACK_DATA
      ∧ (ReadCDInfo d s).2.m_toc = specToc toc
      ∧ (∀ e ∈ (ReadCDInfo d s).2.m_toc, e.track ≠ 0xAA)
      ∧ (((ReadCDInfo d s).2.m_toc).map (fun e => e.track)).Sublist
          ((List.ofFn toc.TrackData).map (fun track => track.TrackNumber))
      ∧ (∀ old : List toc_entry,
          (ReadCDInfo d { s with m_toc := old }).2.m_toc = (ReadCDInfo d s).2.m_toc) := by
  have h := ReadCDInfo_toc_in_bounds d s toc hread hcount
  have h2 := two_le_of_track_count_le toc hcount
  have hc := track_count_of_two_le toc h2
  have h809 : declaredLength toc ≤ 809 := by
    rw [hc] at hcount
    simp only [MAXIMUM_NUMBER_TRACKS, sizeof_TRACK_DATA] at hcount
    omega
  refine ⟨h.1, ⟨h2, h809⟩, hc, h.2, ?_, ?_, ?_⟩
  · rw [h.2]; exact specToc_no_lead_out toc
  · rw [h.2]; exact specToc_order toc
  · intro old
    rw [h.2, (ReadCDInfo_toc_in_bounds d { s with m_toc := old } toc hread hcount).2]

/-- C4 as amended, at a TOC block of declared length 26: three records, the
second one the lead-out. -/
theorem ReadCDInfo_toc_witness :
    (ReadCDInfo (cdDrive (sampleToc 0 26) (some 0))
        { openSession with m_toc := [toc_entry_of (mkTrack 9 9 9 9)] }).2.m_toc
      = [{ lba := 0, track := 1, adr := 1, control := 4 },
         { lba := 512, track := 3, adr := 1, control := 4 }] :=
  (ReadCDInfo_toc (cdDrive (sampleToc 0 26) (some 0))
    { openSession with m_toc := [toc_entry_of (mkTrack 9 9 9 9)] } (sampleToc 0 26) rfl
    (by decide)).2.2.2.1.trans (by decide)

/-- C4 as stated fails. For the TOC block of declared length 818 the TOC read
succeeds, the track count is 102, and `ReadCDInfo` indexes `TrackData` at 100,
outside the array: the run has no defined result. -/
theorem ReadCDInfo_toc_counterexample :
    ((cdDrive (sampleToc 3 50) (some 0)).CDROM_READ_TOC_EX
        (openSession.trace ++ [.CDROM_READ_TOC_EX 0 0 1])).isSome = true
      ∧ track_count (sampleToc 3 50) = 102
      ∧ (ReadCDInfo (cdDrive (sampleToc 3 50) (some 0)) openSession).1 = none := by
  refine ⟨rfl, by decide, ?_⟩
  exact ReadCDInfo_toc_out_of_bounds _ _ (sampleToc 3 50) rfl (by decide)

theorem specToc_length (toc : CDROM_TOC) (k : Nat) (hk : k ≤ MAXIMUM_NUMBER_TRACKS)
    (hlen : declaredLength toc = 2 + k * 8) :
    (specToc toc).length + ((List.ofFn toc.TrackData).take k).countP isLeadOut = k := by
  have hk2 : (declaredLength toc - 2) / sizeof_TRACK_DATA = k := by
    rw [hlen]; simp only [sizeof_TRACK_DATA]; omega
  have htake : ((List.ofFn toc.TrackData).take k).length = k := by
    rw [List.length_take, List.length_ofFn]; omega
  have hsplit := List.length_eq_countP_add_countP (p := isLeadOut)
    ((List.ofFn toc.TrackData).take k)
  have hfilter : (specToc toc).length
      = ((List.ofFn toc.TrackData).take k).countP (fun a => !isLeadOut a) := by
    simp only [specToc, hk2, List.length_map, List.countP_eq_length_filter]
  have hcongr : ((List.ofFn toc.TrackData).take k).countP (fun a => decide (¬isLeadOut a = true))
      = ((List.ofFn toc.TrackData).take k).countP (fun a => !isLeadOut a) := by
    congr 1
    funext a
    cases isLeadOut a <;> rfl
  omega

/-- C5 as amended. For a TOC block of declared length `2 + k * 8` with
`k ≤ 100` the track count of `ReadCDInfo` is `k`, and when exactly one of
those `k` records carries the lead-out marker the resulting TOC has length
`k - 1`.  So the declared length `2 + 2 * 8` gives track count 2 and TOC
length 1; track count 8 and TOC length 7 belong to the declared length
`2 + 8 * 8`. -/
theorem ReadCDInfo_track_count_scenario (d : Drive) (s : IOCtlSrc) (toc : CDROM_TOC) (k : Nat)
    (hread : d.CDROM_READ_TOC_EX (s.trace ++ [.CDROM_READ_TOC_EX 0 0 1]) = some toc)
    (hk : k ≤ MAXIMUM_NUMBER_TRACKS)
    (hlen : declaredLength toc = 2 + k * 8)
    (hone : ((List.ofFn toc.TrackData).take k).countP isLeadOut = 1) :
    track_count toc = k
      ∧ (ReadCDInfo d s).1 ≠ none
      ∧ (ReadCDInfo d s).2.m_toc.length = k - 1
      ∧ (k = 2 → track_count toc = 2 ∧ (ReadCDInfo d s).2.m_toc.length = 1)
      ∧ (k = 8 → track_count toc = 8 ∧ (ReadCDInfo d s).2.m_toc.length = 7) := by
  have hcount : track_count toc = k := by
    rw [track_count_of_two_le toc (by omega), hlen]
    simp only [sizeof_TRACK_DATA]
    omega
  have h := ReadCDInfo_toc_in_bounds d s toc hread (by omega)
  have hl := specToc_length toc k hk hlen
  have hlength : (ReadCDInfo d s).2.m_toc.length = k - 1 := by
    rw [h.2]; omega
  refine ⟨hcount, h.1, hlength, ?_, ?_⟩
  · intro h2; subst h2; exact ⟨hcount, hlength⟩
  · intro h8; subst h8; exact ⟨hcount, hlength⟩

/-- C5 as amended, at a TOC block of declared length `2 + 2 * 8` whose second
record is the lead-out. -/
theorem ReadCDInfo_track_count_scenario_witness :
    declaredLength (sampleToc 0 18) = 2 + 2 * 8
      ∧ track_count (sampleToc 0 18) = 2
      ∧ (ReadCDInfo (cdDrive (sampleToc 0 18) (some 0)) openSession).2.m_toc.length = 1 :=
  have h := ReadCDInfo_track_count_scenario (cdDrive (sampleToc 0 18) (some 0)) openSession
    (sampleToc 0 18) 2 rfl (by decide) (by decide) (by decide)
  ⟨by decide, h.1, h.2.2.1⟩

/-- C5 as stated fails. The TOC block of declared length `2 + 2 * 8` with
exactly one lead-out record (among its first two records and among its first
eight) has track count 2, not 8, and yields a TOC of length 1, not 7. -/
theorem ReadCDInfo_track_count_scenario_counterexample :
    declaredLength (sampleToc 0 18) = 2 + 2 * 8
      ∧ ((List.ofFn (sampleToc 0 18).TrackData).take 2).countP isLeadOut = 1
      ∧ ((List.ofFn (sampleToc 0 18).TrackData).take 8).countP isLeadOut = 1
      ∧ track_count (sampleToc 0 18) ≠ 8
      ∧ (ReadCDInfo (cdDrive (sampleToc 0 18) (some 0)) openSession).1 = some true
      ∧ (ReadCDInfo (cdDrive (sampleToc 0 18) (some 0)) openSession).2.m_toc.length ≠ 7 := by
  refine ⟨by decide, by decide, by decide, by decide, by decide, by decide⟩

/-! ## Raw sector reads -/

theorem sptd_init_invariant : sptdInvariant sptd_init :=
  ⟨⟨0, 0, 0, 0, rfl⟩, rfl, rfl⟩

theorem ReadSectors2352_sptd_eq (sector n : Nat) (sptd : SCSI_PASS_THROUGH_DIRECT)
    (h : sptdInvariant sptd) : ReadSectors2352_sptd sector n sptd = issuedSptd sector n := by
  obtain ⟨⟨a, b, c, e, hcdb⟩, hlen, htime⟩ := h
  obtain ⟨Cdb, CdbLength, TimeOutValue, DataTransferLength, DataBuffer⟩ := sptd
  simp only at hcdb hlen htime
  subst hcdb hlen htime
  simp [ReadSectors2352_sptd, issuedSptd, sptd_init, List.set]

theorem and_0xFF (x : Nat) : x &&& 0xFF = x % 256 := by
  have h := Nat.and_pow_two_sub_one_eq_mod x 8
  norm_num at h
  exact h

theorem issuedSptd_fields (sector n : Nat) :
    issuedSptd sector n =
      { Cdb := [0xBE, 0, (sector + n) % 2 ^ 32 / 2 ^ 24 % 256, (sector + n) % 2 ^ 32 / 2 ^ 16 % 256,
          (sector + n) % 2 ^ 32 / 2 ^ 8 % 256, (sector + n) % 2 ^ 32 % 256,
          0, 0, 1, 0xF8, 0, 0, 0, 0, 0, 0]
        CdbLength := 12
        TimeOutValue := 5
        DataTransferLength := 2352
        DataBuffer := (2352 * n) % 2 ^ 32 } := by
  simp only [issuedSptd, ReadSectors2352_sptd, sptd_init, List.set, u32add, and_0xFF,
    Nat.shiftRight_eq_div_pow]

theorem issuedSptd_invariant (sector n len : Nat) :
    sptdInvariant { issuedSptd sector n with DataTransferLength := len } := by
  rw [issuedSptd_fields]
  exact ⟨⟨_, _, _, _, rfl⟩, rfl, rfl⟩

theorem issuedRequests_succ (sector m : Nat) :
    issuedRequests sector (m + 1)
      = issuedRequests sector m ++ [DeviceOp.SCSI_PASS_THROUGH (issuedSptd sector m)] := by
  simp only [issuedRequests, List.range_succ, List.map_append, List.map_cons, List.map_nil]

theorem issuedRequests_length (sector m : Nat) : (issuedRequests sector m).length = m := by
  simp only [issuedRequests, List.length_map, List.length_range]

theorem issuedRequests_getElem (sector m n : Nat) (h : n < m) :
    (issuedRequests sector m)[n]? = some (DeviceOp.SCSI_PASS_THROUGH (issuedSptd sector n)) := by
  simp only [issuedRequests, List.getElem?_map, List.getElem?_range h, Option.map_some']

theorem ReadSectors2352_loop_success (d : Drive) (sector : Nat) (t0 : List DeviceOp)
    (remaining : Nat) :
    ∀ (n : Nat) (sptd : SCSI_PASS_THROUGH_DIRECT) (s : IOCtlSrc), sptdInvariant sptd →
      s.trace = t0 ++ issuedRequests sector n →
      (∀ m, n ≤ m → m < n + remaining →
        (d.SCSI_PASS_THROUGH (t0 ++ issuedRequests sector (m + 1))).isSome = true) →
      ReadSectors2352_loop d sector remaining n sptd s
        = (0, { s with trace := t0 ++ issuedRequests sector (n + remaining) }) := by
  induction remaining with
  | zero =>
    intro n sptd s _ htr _
    simp only [ReadSectors2352_loop, Nat.add_zero, ← htr]
  | succ r ih =>
    intro n sptd s hinv htr hall
    have hsome := hall n (Nat.le_refl n) (by omega)
    rw [issuedRequests_succ, ← List.append_assoc, ← htr] at hsome
    obtain ⟨len, hlen⟩ := Option.isSome_iff_exists.mp hsome
    rw [ReadSectors2352_loop]
    simp only [ReadSectors2352_sptd_eq sector n sptd hinv, IOCtlSrc.issue, hlen]
    rw [ih (n + 1) _ _ (issuedSptd_invariant sector n len)
      (by simp only [htr, issuedRequests_succ, List.append_assoc])
      (fun m h1 h2 => hall m (by omega) (by omega))]
    simp only [Nat.add_assoc, Nat.add_comm 1 r]

theorem ReadSectors2352_loop_failure (d : Drive) (sector : Nat) (t0 : List DeviceOp)
    (k : Nat) (remaining : Nat) :
    ∀ (n : Nat) (sptd : SCSI_PASS_THROUGH_DIRECT) (s : IOCtlSrc), sptdInvariant sptd →
      s.trace = t0 ++ issuedRequests sector n →
      n ≤ k → k < n + remaining →
      (∀ m, n ≤ m → m < k →
        (d.SCSI_PASS_THROUGH (t0 ++ issuedRequests sector (m + 1))).isSome = true) →
      d.SCSI_PASS_THROUGH (t0 ++ issuedRequests sector (k + 1)) = none →
      ReadSectors2352_loop d sector remaining n sptd s
        = (-1, { s with trace := t0 ++ issuedRequests sector (k + 1) }) := by
  induction remaining with
  | zero => intro n sptd s _ _ h1 h2; omega
  | succ r ih =>
    intro n sptd s hinv htr hnk hk hall hfail
    rw [ReadSectors2352_loop]
    simp only [ReadSectors2352_sptd_eq sector n sptd hinv, IOCtlSrc.issue]
    by_cases hkn : k = n
    · subst hkn
      rw [issuedRequests_succ, ← List.append_assoc, ← htr] at hfail
      simp only [hfail]
      rw [issuedRequests_succ, ← List.append_assoc, ← htr]
    · have hsome := hall n (Nat.le_refl n) (by omega)
      rw [issuedRequests_succ, ← List.append_assoc, ← htr] at hsome
      obtain ⟨len, hlen⟩ := Option.isSome_iff_exists.mp hsome
      simp only [hlen]
      exact ih (n + 1) _ _ (issuedSptd_invariant sector n len)
        (by simp only [htr, issuedRequests_succ, List.append_assoc])
        (by omega) (by omega) (fun m h1 h2 => hall m (by omega) h2) hfail

theorem ReadSectors2352_loop_congr (d d' : Drive) (sector : Nat)
    (hd : ∀ tr, (d'.SCSI_PASS_THROUGH tr).isSome = (d.SCSI_PASS_THROUGH tr).isSome)
    (remaining : Nat) :
    ∀ (n : Nat) (sptd sptd' : SCSI_PASS_THROUGH_DIRECT) (s : IOCtlSrc),
      sptdInvariant sptd → sptdInvariant sptd' →
      ReadSectors2352_loop d' sector remaining n sptd' s
        = ReadSectors2352_loop d sector remaining n sptd s := by
  induction remaining with
  | zero => intro n sptd sptd' s _ _; simp only [ReadSectors2352_loop]
  | succ r ih =>
    intro n sptd sptd' s hinv hinv'
    rw [ReadSectors2352_loop, ReadSectors2352_loop]
    simp only [ReadSectors2352_sptd_eq sector n sptd hinv,
      ReadSectors2352_sptd_eq sector n sptd' hinv']
    have h := hd ((s.issue (.SCSI_PASS_THROUGH (issuedSptd sector n))).trace)
    cases h1 : d.SCSI_PASS_THROUGH (s.issue (.SCSI_PASS_THROUGH (issuedSptd sector n))).trace
      <;> cases h2 : d'.SCSI_PASS_THROUGH
        (s.issue (.SCSI_PASS_THROUGH (issuedSptd sector n))).trace
      <;> rw [h1, h2] at h <;> simp at h
    · exact ih (n + 1) _ _ _ (issuedSptd_invariant sector n _) (issuedSptd_invariant sector n _)

theorem cdbSector_issuedSptd (sector n : Nat) :
    cdbSector (issuedSptd sector n) = (sector + n) % 2 ^ 32 := by
  rw [issuedSptd_fields]
  simp only [cdbSector, List.getD_cons_succ, List.getD_cons_zero]
  omega

theorem cdbSectorCount_issuedSptd (sector n : Nat) :
    cdbSectorCount (issuedSptd sector n) = 1 := by
  rw [issuedSptd_fields]
  simp [cdbSectorCount]

theorem ReadSectors2352_trace (d : Drive) (s : IOCtlSrc) (sector count : Nat)
    (hopen : s.OpenOK = true) (k : Nat) (hk : k < count)
    (hprev : ∀ n, n < k →
      (d.SCSI_PASS_THROUGH (s.trace ++ issuedRequests sector (n + 1))).isSome = true) :
    (ReadSectors2352 d sector count s).2.trace[s.trace.length + k]?
      = some (DeviceOp.SCSI_PASS_THROUGH (issuedSptd sector k)) := by
  classical
  have hrun : ReadSectors2352 d sector count s
      = ReadSectors2352_loop d sector count 0 sptd_init s := by
    simp only [ReadSectors2352, hopen, Bool.not_true, Bool.false_eq_true, if_false]
  have htr : s.trace = s.trace ++ issuedRequests sector 0 := by
    simp only [issuedRequests, List.range_zero, List.map_nil, List.append_nil]
  by_cases hall : ∀ n, n < count →
      (d.SCSI_PASS_THROUGH (s.trace ++ issuedRequests sector (n + 1))).isSome = true
  · rw [hrun, ReadSectors2352_loop_success d sector s.trace count 0 sptd_init s
      sptd_init_invariant htr (fun m _ h => hall m (by omega))]
    simp only [Nat.zero_add]
    rw [List.getElem?_append_right (Nat.le_add_right _ _), Nat.add_sub_cancel_left]
    exact issuedRequests_getElem sector count k hk
  · have hex : ∃ j, j < count ∧
        d.SCSI_PASS_THROUGH (s.trace ++ issuedRequests sector (j + 1)) = none := by
      by_contra hno
      apply hall
      intro n hn
      cases hsome : d.SCSI_PASS_THROUGH (s.trace ++ issuedRequests sector (n + 1)) with
      | none => exact absurd ⟨n, hn, hsome⟩ hno
      | some _ => rfl
    have hj := Nat.find_spec hex
    have hmin : ∀ m, m < Nat.find hex →
        (d.SCSI_PASS_THROUGH (s.trace ++ issuedRequests sector (m + 1))).isSome = true := by
      intro m hm
      cases hsome : d.SCSI_PASS_THROUGH (s.trace ++ issuedRequests sector (m + 1)) with
      | none => exact absurd ⟨by omega, hsome⟩ (Nat.find_min hex hm)
      | some _ => rfl
    have hkj : k ≤ Nat.find hex := by
      by_contra hlt
      have h1 := hprev (Nat.find hex) (by omega)
      rw [hj.2] at h1
      exact absurd h1 (by simp)
    rw [hrun, ReadSectors2352_loop_failure d sector s.trace (Nat.find hex) count 0 sptd_init s
      sptd_init_invariant htr (Nat.zero_le _) (by omega) (fun m _ h => hmin m h) hj.2]
    show (s.trace ++ issuedRequests sector (Nat.find hex + 1))[s.trace.length + k]? = _
    rw [List.getElem?_append_right (Nat.le_add_right _ _), Nat.add_sub_cancel_left]
    exact issuedRequests_getElem sector _ k (by omega)

/-- C8. On an open session `ReadSectors2352` issues its single-sector
passthrough requests one at a time for the sectors `s`, `s + 1`, ... in order.
When all `count` requests succeed it has issued exactly those `count` requests
and returns 0; when the request of index `k` is the first to fail it has
issued exactly the requests `0 .. k` and returns -1.  Nothing but the list of
issued requests changes, and the result depends only on which requests
succeed, not on the transfer lengths they return. -/
theorem ReadSectors2352_requests (d : Drive) (s : IOCtlSrc) (sector count : Nat)
    (hopen : s.OpenOK = true) :
    ((∀ n, n < count →
        (d.SCSI_PASS_THROUGH (s.trace ++ issuedRequests sector (n + 1))).isSome = true) →
      ReadSectors2352 d sector count s
        = (0, { s with trace := s.trace ++ issuedRequests sector count }))
    ∧ (∀ k, k < count →
        (∀ n, n < k →
          (d.SCSI_PASS_THROUGH (s.trace ++ issuedRequests sector (n + 1))).isSome = true) →
        d.SCSI_PASS_THROUGH (s.trace ++ issuedRequests sector (k + 1)) = none →
        ReadSectors2352 d sector count s
          = (-1, { s with trace := s.trace ++ issuedRequests sector (k + 1) }))
    ∧ (∀ m, (issuedRequests sector m).length = m
        ∧ ∀ n, n < m → ∃ sptd,
            (issuedRequests sector m)[n]? = some (DeviceOp.SCSI_PASS_THROUGH sptd)
              ∧ cdbSector sptd = (sector + n) % 2 ^ 32 ∧ cdbSectorCount sptd = 1)
    ∧ (∀ d' : Drive,
        (∀ tr, (d'.SCSI_PASS_THROUGH tr).isSome = (d.SCSI_PASS_THROUGH tr).isSome) →
        ReadSectors2352 d' sector count s = ReadSectors2352 d sector count s) := by
  have hrun : ∀ d0 : Drive, ReadSectors2352 d0 sector count s
      = ReadSectors2352_loop d0 sector count 0 sptd_init s := by
    intro d0
    simp only [ReadSectors2352, hopen, Bool.not_true, Bool.false_eq_true, if_false]
  have htr : s.trace = s.trace ++ issuedRequests sector 0 := by
    simp only [issuedRequests, List.range_zero, List.map_nil, List.append_nil]
  refine ⟨?_, ?_, ?_, ?_⟩
  · intro hall
    rw [hrun, ReadSectors2352_loop_success d sector s.trace count 0 sptd_init s
      sptd_init_invariant htr (fun m _ h => hall m (by omega))]
    simp only [Nat.zero_add]
  · intro k hk hprev hfail
    rw [hrun, ReadSectors2352_loop_failure d sector s.trace k count 0 sptd_init s
      sptd_init_invariant htr (Nat.zero_le _) (by omega) (fun m _ h => hprev m h) hfail]
  · intro m
    refine ⟨issuedRequests_length sector m, ?_⟩
    intro n hn
    exact ⟨issuedSptd sector n, issuedRequests_getElem sector m n hn,
      cdbSector_issuedSptd sector n, cdbSectorCount_issuedSptd sector n⟩
  · intro d' hd
    rw [hrun, hrun]
    exact ReadSectors2352_loop_congr d d' sector hd count 0 sptd_init sptd_init s
      sptd_init_invariant sptd_init_invariant

/-- C8, at a read of two sectors that succeeds with short transfers and at a
read of five sectors from sector 10 whose third request fails. -/
theorem ReadSectors2352_requests_witness :
    ReadSectors2352 (rawDrive 2000 12) 10 2 openSession
        = (0, { openSession with trace := openSession.trace ++ issuedRequests 10 2 })
      ∧ ReadSectors2352 (rawDrive 2000 12) 10 5 openSession
        = (-1, { openSession with trace := openSession.trace ++ issuedRequests 10 3 }) :=
  ⟨(ReadSectors2352_requests (rawDrive 2000 12) openSession 10 2 rfl).1 (by decide),
   (ReadSectors2352_requests (rawDrive 2000 12) openSession 10 5 rfl).2.1 2 (by decide)
     (by decide) (by decide)⟩

/-- C9 as amended. The request of index `k` of a `ReadSectors2352` run (built
when the requests before it succeed) carries the 12-byte CDB
`[0xBE, 0, b3, b2, b1, b0, 0, 0, 1, 0xF8, 0, 0]` with `b3 .. b0` the big-endian
bytes of `(s + k) mod 2 ^ 32`, timeout 5 and transfer length 2352; its data
offset is the 32-bit product `(2352 * k) mod 2 ^ 32`, which is `2352 * k`
whenever `2352 * k < 2 ^ 32`. -/
theorem ReadSectors2352_command_block (d : Drive) (s : IOCtlSrc) (sector count k : Nat)
    (hopen : s.OpenOK = true) (hk : k < count)
    (hprev : ∀ n, n < k →
      (d.SCSI_PASS_THROUGH (s.trace ++ issuedRequests sector (n + 1))).isSome = true) :
    ∃ (sptd : SCSI_PASS_THROUGH_DIRECT) (b3 b2 b1 b0 : Nat),
      (ReadSectors2352 d sector count s).2.trace[s.trace.length + k]?
          = some (DeviceOp.SCSI_PASS_THROUGH sptd)
        ∧ sptd.CdbLength = 12
        ∧ sptd.Cdb.take sptd.CdbLength = [0xBE, 0, b3, b2, b1, b0, 0, 0, 1, 0xF8, 0, 0]
        ∧ b3 < 256 ∧ b2 < 256 ∧ b1 < 256 ∧ b0 < 256
        ∧ b3 * 2 ^ 24 + b2 * 2 ^ 16 + b1 * 2 ^ 8 + b0 = (sector + k) % 2 ^ 32
        ∧ sptd.TimeOutValue = 5
        ∧ sptd.DataTransferLength = 2352
        ∧ sptd.DataBuffer = (2352 * k) % 2 ^ 32
        ∧ (2352 * k < 2 ^ 32 → sptd.DataBuffer = 2352 * k) := by
  refine ⟨issuedSptd sector k, (sector + k) % 2 ^ 32 / 2 ^ 24 % 256,
    (sector + k) % 2 ^ 32 / 2 ^ 16 % 256, (sector + k) % 2 ^ 32 / 2 ^ 8 % 256,
    (sector + k) % 2 ^ 32 % 256, ReadSectors2352_trace d s sector count hopen k hk hprev, ?_⟩
  rw [issuedSptd_fields]
  refine ⟨rfl, rfl, ?_, ?_, ?_, ?_, ?_, rfl, rfl, rfl, ?_⟩
  · omega
  · omega
  · omega
  · omega
  · omega
  · intro h
    exact Nat.mod_eq_of_lt h

/-- C9 as amended, at the third request of a read of five sectors from sector
`0x01020304`. -/
theorem ReadSectors2352_command_block_witness :
    ∃ (sptd : SCSI_PASS_THROUGH_DIRECT) (b3 b2 b1 b0 : Nat),
      (ReadSectors2352 steadyDrive 0x01020304 5 openSession).2.trace[openSession.trace.length + 2]?
          = some (DeviceOp.SCSI_PASS_THROUGH sptd)
        ∧ sptd.CdbLength = 12
        ∧ sptd.Cdb.take sptd.CdbLength = [0xBE, 0, b3, b2, b1, b0, 0, 0, 1, 0xF8, 0, 0]
        ∧ b3 < 256 ∧ b2 < 256 ∧ b1 < 256 ∧ b0 < 256
        ∧ b3 * 2 ^ 24 + b2 * 2 ^ 16 + b1 * 2 ^ 8 + b0 = (0x01020304 + 2) % 2 ^ 32
        ∧ sptd.TimeOutValue = 5
        ∧ sptd.DataTransferLength = 2352
        ∧ sptd.DataBuffer = (2352 * 2) % 2 ^ 32
        ∧ (2352 * 2 < 2 ^ 32 → sptd.DataBuffer = 2352 * 2) :=
  ReadSectors2352_command_block steadyDrive openSession 0x01020304 5 2 rfl (by decide)
    (fun _ _ => rfl)

/-- C9 as stated fails. In a read of 1826093 sectors all of whose requests
succeed, the request of index 1826092 has data offset 1088, not
`2352 * 1826092 = 4294968384`: the product is taken modulo `2 ^ 32`. -/
theorem ReadSectors2352_command_block_counterexample :
    (ReadSectors2352 steadyDrive 0 1826093 openSession).2.trace[1826092]?
        = some (DeviceOp.SCSI_PASS_THROUGH (issuedSptd 0 1826092))
      ∧ (issuedSptd 0 1826092).DataBuffer = 1088
      ∧ (issuedSptd 0 1826092).DataBuffer ≠ 2352 * 1826092 := by
  refine ⟨?_, ?_, ?_⟩
  · have h := ReadSectors2352_trace steadyDrive openSession 0 1826093 rfl 1826092
      (by norm_num) (fun _ _ => rfl)
    have e : openSession.trace.length + 1826092 = 1826092 := Nat.zero_add _
    rw [e] at h
    exact h
  · rw [issuedSptd_fields]
    show 2352 * 1826092 % 2 ^ 32 = 1088
    norm_num
  · rw [issuedSptd_fields]
    show 2352 * 1826092 % 2 ^ 32 ≠ 2352 * 1826092
    norm_num

/-! ## The geometry cache -/

theorem ReadDVDInfo_frame (d : Drive) (s : IOCtlSrc) :
    (ReadDVDInfo d s).2.m_disc_ready = s.m_disc_ready
      ∧ (ReadDVDInfo d s).2.OpenOK = s.OpenOK
      ∧ (ReadDVDInfo d s).2.m_device = s.m_device
      ∧ (ReadDVDInfo d s).2.m_toc = s.m_toc
      ∧ ∃ rest, (ReadDVDInfo d s).2.trace = s.trace ++ DeviceOp.DVD_START_SESSION :: rest := by
  unfold ReadDVDInfo ReadDVDInfo_layer
  simp only [IOCtlSrc.issue]
  repeat' split
  all_goals simp

theorem ReadDVDInfo_failure (d : Drive) (s : IOCtlSrc) (h : (ReadDVDInfo d s).1 = false) :
    (ReadDVDInfo d s).2.m_media_type = s.m_media_type
      ∧ (ReadDVDInfo d s).2.m_layer_break = s.m_layer_break
      ∧ (ReadDVDInfo d s).2.m_sectors = s.m_sectors := by
  revert h
  unfold ReadDVDInfo ReadDVDInfo_layer
  simp only [IOCtlSrc.issue]
  repeat' split
  all_goals simp

theorem ReadDVDInfo_success (d : Drive) (s : IOCtlSrc) (h : (ReadDVDInfo d s).1 = true) :
    ((ReadDVDInfo d s).2.m_media_type = 0 ∧ (ReadDVDInfo d s).2.m_layer_break = 0)
      ∨ (ReadDVDInfo d s).2.m_media_type = 1
      ∨ (ReadDVDInfo d s).2.m_media_type = 2 := by
  revert h
  unfold ReadDVDInfo ReadDVDInfo_layer
  simp only [IOCtlSrc.issue]
  repeat' split
  all_goals simp

theorem ReadCDInfo_frame (d : Drive) (s : IOCtlSrc) :
    (ReadCDInfo d s).2.m_disc_ready = s.m_disc_ready
      ∧ (ReadCDInfo d s).2.OpenOK = s.OpenOK
      ∧ (ReadCDInfo d s).2.m_device = s.m_device
      ∧ (ReadCDInfo d s).2.m_layer_break = s.m_layer_break
      ∧ ∃ rest, (ReadCDInfo d s).2.trace = s.trace ++ DeviceOp.CDROM_READ_TOC_EX 0 0 1 :: rest := by
  unfold ReadCDInfo
  simp only [IOCtlSrc.issue]
  repeat' split
  all_goals simp

theorem ReadCDInfo_failure (d : Drive) (s : IOCtlSrc) (h : (ReadCDInfo d s).1 = some false) :
    (ReadCDInfo d s).2.m_media_type = s.m_media_type
      ∧ (ReadCDInfo d s).2.m_sectors = s.m_sectors := by
  revert h
  unfold ReadCDInfo
  simp only [IOCtlSrc.issue]
  repeat' split
  all_goals simp

theorem ReadCDInfo_success (d : Drive) (s : IOCtlSrc) (h : (ReadCDInfo d s).1 = some true) :
    (ReadCDInfo d s).2.m_media_type = -1
      ∧ ∃ (toc : CDROM_TOC) (Length : Int),
          d.CDROM_READ_TOC_EX (s.trace ++ [.CDROM_READ_TOC_EX 0 0 1]) = some toc
            ∧ track_count toc ≤ MAXIMUM_NUMBER_TRACKS
            ∧ d.DISK_GET_LENGTH_INFO
                (s.trace ++ [.CDROM_READ_TOC_EX 0 0 1, .DISK_GET_LENGTH_INFO]) = some Length
            ∧ (ReadCDInfo d s).2.m_sectors = toU32 (Int.tdiv Length 2048)
            ∧ (ReadCDInfo d s).2.m_toc = specToc toc := by
  cases hread : d.CDROM_READ_TOC_EX (s.trace ++ [.CDROM_READ_TOC_EX 0 0 1]) with
  | none =>
    exfalso
    revert h
    unfold ReadCDInfo
    simp [IOCtlSrc.issue, hread]
  | some toc =>
    by_cases hcount : track_count toc ≤ MAXIMUM_NUMBER_TRACKS
    · have htoc := (ReadCDInfo_toc_in_bounds d s toc hread hcount).2
      have hloop := ReadCDInfo_loop_in_bounds toc (track_count toc) 0 [] (by omega)
      revert h htoc
      unfold ReadCDInfo
      simp only [IOCtlSrc.issue, hread, hloop]
      cases hlen : d.DISK_GET_LENGTH_INFO
          (s.trace ++ [.CDROM_READ_TOC_EX 0 0 1] ++ [.DISK_GET_LENGTH_INFO]) with
      | none =>
        intro h
        simp only [Option.some.injEq, Bool.false_eq_true] at h
      | some Length =>
        intro _ htoc
        refine ⟨rfl, toc, Length, rfl, hcount, ?_, rfl, htoc⟩
        simpa using hlen
    · exfalso
      have hnone := ReadCDInfo_toc_out_of_bounds d s toc hread (by omega)
      rw [hnone] at h
      exact absurd h (by simp)

theorem RefreshDiscInfo_ready (d : Drive) (s : IOCtlSrc) (h : s.m_disc_ready = true) :
    RefreshDiscInfo d s = (some true, s) := by
  simp only [RefreshDiscInfo, h, if_true]

theorem RefreshDiscInfo_closed (d : Drive) (s : IOCtlSrc) (hnr : s.m_disc_ready = false)
    (hopen : s.OpenOK = false) :
    RefreshDiscInfo d s
      = (some false, { s with m_media_type := 0, m_layer_break := 0, m_sectors := 0 }) := by
  simp [RefreshDiscInfo, hnr, hopen]

theorem RefreshDiscInfo_not_ready (d : Drive) (s : IOCtlSrc) (hnr : s.m_disc_ready = false)
    (hopen : s.OpenOK = true) :
    RefreshDiscInfo d s
      = if (ReadDVDInfo d { s with m_media_type := 0, m_layer_break := 0, m_sectors := 0 }).1
            = true then
          (some true, { (ReadDVDInfo d
            { s with m_media_type := 0, m_layer_break := 0, m_sectors := 0 }).2 with
            m_disc_ready := true })
        else
          match ReadCDInfo d (ReadDVDInfo d
            { s with m_media_type := 0, m_layer_break := 0, m_sectors := 0 }).2 with
          | (none, s') => (none, s')
          | (some true, s') => (some true, { s' with m_disc_ready := true })
          | (some false, s') => (some false, s') := by
  have hready : (ReadCDInfo d (ReadDVDInfo d
      { s with m_media_type := 0, m_layer_break := 0, m_sectors := 0 }).2).2.m_disc_ready
      = false := by
    rw [(ReadCDInfo_frame d _).1, (ReadDVDInfo_frame d _).1]
    exact hnr
  simp only [hnr, hopen] at hready
  simp only [RefreshDiscInfo, hnr, hopen, Bool.false_eq_true, if_false, Bool.not_true]
  split
  · rfl
  · split
    · rfl
    · rfl
    · rename_i heq
      rw [heq] at hready
      simp only at hready
      rw [hready]

theorem RefreshDiscInfo_none (d : Drive) (s : IOCtlSrc) (h : (RefreshDiscInfo d s).1 = none) :
    (RefreshDiscInfo d s).2.m_disc_ready = false := by
  cases hr : s.m_disc_ready with
  | true => rw [RefreshDiscInfo_ready d s hr] at h; exact absurd h (by simp)
  | false =>
    cases ho : s.OpenOK with
    | false => rw [RefreshDiscInfo_closed d s hr ho] at h; exact absurd h (by simp)
    | true =>
      have hready : (ReadCDInfo d (ReadDVDInfo d
          { s with m_media_type := 0, m_layer_break := 0, m_sectors := 0 }).2).2.m_disc_ready
          = false := by
        rw [(ReadCDInfo_frame d _).1, (ReadDVDInfo_frame d _).1]
        exact hr
      rw [RefreshDiscInfo_not_ready d s hr ho] at h ⊢
      split at h
      · exact absurd h (by simp)
      · split at h
        · rename_i hdvd _ s' heq
          rw [heq] at hready
          rw [if_neg hdvd]
          exact hready
        · exact absurd h (by simp)
        · exact absurd h (by simp)

theorem refreshIfNotReady_ready (d : Drive) (s : IOCtlSrc) (h : s.m_disc_ready = true) :
    refreshIfNotReady d s = (some (), s) := by
  simp only [refreshIfNotReady, h, Bool.not_true, Bool.false_eq_true, if_false]

theorem refreshIfNotReady_not_ready (d : Drive) (s : IOCtlSrc) (h : s.m_disc_ready = false) :
    refreshIfNotReady d s
      = ((RefreshDiscInfo d s).1.map (fun _ => ()), (RefreshDiscInfo d s).2) := by
  simp only [refreshIfNotReady, h, Bool.not_false, if_true]
  split
  · rename_i heq; rw [heq]; rfl
  · rename_i heq; rw [heq]; rfl

theorem refreshIfNotReady_none (d : Drive) (s : IOCtlSrc)
    (h : (refreshIfNotReady d s).1 = none) : (refreshIfNotReady d s).2.m_disc_ready = false := by
  cases hr : s.m_disc_ready with
  | true => rw [refreshIfNotReady_ready d s hr] at h; exact absurd h (by simp)
  | false =>
    rw [refreshIfNotReady_not_ready d s hr] at h ⊢
    apply RefreshDiscInfo_none
    simpa using h

theorem GetSectorCount_ready (d : Drive) (s : IOCtlSrc) (h : s.m_disc_ready = true) :
    GetSectorCount d s = (some s.m_sectors, s) := by
  simp only [GetSectorCount, refreshIfNotReady_ready d s h]

theorem GetMediaType_ready (d : Drive) (s : IOCtlSrc) (h : s.m_disc_ready = true) :
    GetMediaType d s = (some s.m_media_type, s) := by
  simp only [GetMediaType, refreshIfNotReady_ready d s h]

theorem ReadTOC_ready (d : Drive) (s : IOCtlSrc) (h : s.m_disc_ready = true) :
    ReadTOC d s = (some s.m_toc, s) := by
  simp only [ReadTOC, refreshIfNotReady_ready d s h]

theorem GetLayerBreakAddress_ready (d : Drive) (s : IOCtlSrc) (h : s.m_disc_ready = true) :
    GetLayerBreakAddress d s
      = (some (if s.m_media_type < 0 then 0 else s.m_layer_break), s) := by
  simp only [GetLayerBreakAddress, refreshIfNotReady_ready d s h, GetMediaType_ready d s h]
  split <;> rfl

theorem GetSectorCount_stable (d : Drive) (s : IOCtlSrc)
    (h : (GetSectorCount d s).2.m_disc_ready = true) :
    GetSectorCount d s = (some (GetSectorCount d s).2.m_sectors, (GetSectorCount d s).2) := by
  have hnone := refreshIfNotReady_none d s
  unfold GetSectorCount at h ⊢
  cases hr : refreshIfNotReady d s with
  | mk o s' =>
    rw [hr] at h hnone
    cases o with
    | none => simp only at h; rw [hnone rfl] at h; exact absurd h (by simp)
    | some u => rfl

theorem GetMediaType_stable (d : Drive) (s : IOCtlSrc)
    (h : (GetMediaType d s).2.m_disc_ready = true) :
    GetMediaType d s = (some (GetMediaType d s).2.m_media_type, (GetMediaType d s).2) := by
  have hnone := refreshIfNotReady_none d s
  unfold GetMediaType at h ⊢
  cases hr : refreshIfNotReady d s with
  | mk o s' =>
    rw [hr] at h hnone
    cases o with
    | none => simp only at h; rw [hnone rfl] at h; exact absurd h (by simp)
    | some u => rfl

theorem ReadTOC_stable (d : Drive) (s : IOCtlSrc)
    (h : (ReadTOC d s).2.m_disc_ready = true) :
    ReadTOC d s = (some (ReadTOC d s).2.m_toc, (ReadTOC d s).2) := by
  have hnone := refreshIfNotReady_none d s
  unfold ReadTOC at h ⊢
  cases hr : refreshIfNotReady d s with
  | mk o s' =>
    rw [hr] at h hnone
    cases o with
    | none => simp only at h; rw [hnone rfl] at h; exact absurd h (by simp)
    | some u => rfl

theorem GetLayerBreakAddress_stable (d : Drive) (s : IOCtlSrc)
    (h : (GetLayerBreakAddress d s).2.m_disc_ready = true) :
    GetLayerBreakAddress d s
      = (some (if (GetLayerBreakAddress d s).2.m_media_type < 0 then 0
          else (GetLayerBreakAddress d s).2.m_layer_break), (GetLayerBreakAddress d s).2) := by
  have hnone := refreshIfNotReady_none d s
  unfold GetLayerBreakAddress at h ⊢
  cases hr : refreshIfNotReady d s with
  | mk o s' =>
    rw [hr] at h hnone
    cases o with
    | none => simp only at h; rw [hnone rfl] at h; exact absurd h (by simp)
    | some u =>
      simp only at h ⊢
      have hnone2 := refreshIfNotReady_none d s'
      have hstable := GetMediaType_stable d s'
      cases hm : GetMediaType d s' with
      | mk o2 s'' =>
        rw [hm] at h hstable
        cases o2 with
        | none =>
          simp only at h
          have h2 := hstable h
          simp at h2
        | some media_type =>
          simp only at h ⊢
          have hr : s''.m_disc_ready = true := by
            split at h <;> exact h
          have h2 := hstable hr
          simp only [Prod.mk.injEq, Option.some.injEq, and_true] at h2
          subst h2
          split <;> rfl

theorem RefreshDiscInfo_independent (d : Drive) (s : IOCtlSrc) (hnr : s.m_disc_ready = false)
    (m : Int) (l n : Nat) :
    RefreshDiscInfo d { s with m_media_type := m, m_layer_break := l, m_sectors := n }
      = RefreshDiscInfo d s := by
  simp only [RefreshDiscInfo, hnr, Bool.false_eq_true, if_false]

theorem refreshIfNotReady_independent (d : Drive) (s : IOCtlSrc)
    (hnr : s.m_disc_ready = false) (m : Int) (l n : Nat) :
    refreshIfNotReady d { s with m_media_type := m, m_layer_break := l, m_sectors := n }
      = refreshIfNotReady d s := by
  rw [refreshIfNotReady_not_ready d s hnr,
    refreshIfNotReady_not_ready d
      { s with m_media_type := m, m_layer_break := l, m_sectors := n } hnr,
    RefreshDiscInfo_independent d s hnr]

theorem RefreshDiscInfo_trace (d : Drive) (s : IOCtlSrc) (hnr : s.m_disc_ready = false)
    (hopen : s.OpenOK = true) :
    ∃ rest, (RefreshDiscInfo d s).2.trace = s.trace ++ DeviceOp.DVD_START_SESSION :: rest := by
  obtain ⟨rest, hrest⟩ := (ReadDVDInfo_frame d
    { s with m_media_type := 0, m_layer_break := 0, m_sectors := 0 }).2.2.2.2
  obtain ⟨rest2, hrest2⟩ := (ReadCDInfo_frame d (ReadDVDInfo d
    { s with m_media_type := 0, m_layer_break := 0, m_sectors := 0 }).2).2.2.2.2
  rw [hrest] at hrest2
  rw [RefreshDiscInfo_not_ready d s hnr hopen]
  split
  · exact ⟨rest, hrest⟩
  · split
    all_goals
      rename_i heq
      rw [heq] at hrest2
      exact ⟨rest ++ DeviceOp.CDROM_READ_TOC_EX 0 0 1 :: rest2, by
        simpa [List.append_assoc] using hrest2⟩

theorem refreshIfNotReady_extends (d : Drive) (s : IOCtlSrc) :
    ∃ rest, (refreshIfNotReady d s).2.trace = s.trace ++ rest := by
  cases hr : s.m_disc_ready with
  | true => rw [refreshIfNotReady_ready d s hr]; exact ⟨[], by simp⟩
  | false =>
    rw [refreshIfNotReady_not_ready d s hr]
    cases ho : s.OpenOK with
    | false => rw [RefreshDiscInfo_closed d s hr ho]; exact ⟨[], by simp⟩
    | true =>
      obtain ⟨rest, h⟩ := RefreshDiscInfo_trace d s hr ho
      exact ⟨_, h⟩

theorem GetSectorCount_not_ready (d : Drive) (s : IOCtlSrc) (hnr : s.m_disc_ready = false) :
    GetSectorCount d s
      = ((RefreshDiscInfo d s).1.map (fun _ => (RefreshDiscInfo d s).2.m_sectors),
          (RefreshDiscInfo d s).2) := by
  rw [GetSectorCount, refreshIfNotReady_not_ready d s hnr]
  cases (RefreshDiscInfo d s).1 <;> rfl

theorem GetMediaType_not_ready (d : Drive) (s : IOCtlSrc) (hnr : s.m_disc_ready = false) :
    GetMediaType d s
      = ((RefreshDiscInfo d s).1.map (fun _ => (RefreshDiscInfo d s).2.m_media_type),
          (RefreshDiscInfo d s).2) := by
  rw [GetMediaType, refreshIfNotReady_not_ready d s hnr]
  cases (RefreshDiscInfo d s).1 <;> rfl

theorem ReadTOC_not_ready (d : Drive) (s : IOCtlSrc) (hnr : s.m_disc_ready = false) :
    ReadTOC d s
      = ((RefreshDiscInfo d s).1.map (fun _ => (RefreshDiscInfo d s).2.m_toc),
          (RefreshDiscInfo d s).2) := by
  rw [ReadTOC, refreshIfNotReady_not_ready d s hnr]
  cases (RefreshDiscInfo d s).1 <;> rfl

theorem GetLayerBreakAddress_not_ready (d : Drive) (s : IOCtlSrc)
    (hnr : s.m_disc_ready = false) :
    GetLayerBreakAddress d s
      = if (RefreshDiscInfo d s).1 = none then (none, (RefreshDiscInfo d s).2)
        else
          ((GetMediaType d (RefreshDiscInfo d s).2).1.map (fun media_type =>
              if media_type < 0 then 0
              else (GetMediaType d (RefreshDiscInfo d s).2).2.m_layer_break),
            (GetMediaType d (RefreshDiscInfo d s).2).2) := by
  rw [GetLayerBreakAddress, refreshIfNotReady_not_ready d s hnr]
  cases hr : (RefreshDiscInfo d s).1 with
  | none => rfl
  | some b =>
    simp only [Option.map_some', reduceCtorEq, if_false]
    cases hm : GetMediaType d (RefreshDiscInfo d s).2 with
    | mk o s'' =>
      cases o with
      | none => rfl
      | some media_type =>
        simp only [Option.map_some']
        split <;> rfl

theorem GetMediaType_extends (d : Drive) (s : IOCtlSrc) :
    ∃ rest, (GetMediaType d s).2.trace = s.trace ++ rest := by
  obtain ⟨rest, h⟩ := refreshIfNotReady_extends d s
  refine ⟨rest, ?_⟩
  rw [GetMediaType]
  cases hr : refreshIfNotReady d s with
  | mk o s' =>
    rw [hr] at h
    cases o <;> exact h

theorem GetSectorCount_closed (d : Drive) (s : IOCtlSrc) (hnr : s.m_disc_ready = false)
    (hclosed : s.OpenOK = false) :
    GetSectorCount d s
      = (some 0, { s with m_media_type := 0, m_layer_break := 0, m_sectors := 0 }) := by
  rw [GetSectorCount_not_ready d s hnr, RefreshDiscInfo_closed d s hnr hclosed]
  rfl

theorem GetMediaType_closed (d : Drive) (s : IOCtlSrc) (hnr : s.m_disc_ready = false)
    (hclosed : s.OpenOK = false) :
    GetMediaType d s
      = (some 0, { s with m_media_type := 0, m_layer_break := 0, m_sectors := 0 }) := by
  rw [GetMediaType_not_ready d s hnr, RefreshDiscInfo_closed d s hnr hclosed]
  rfl

theorem ReadTOC_closed (d : Drive) (s : IOCtlSrc) (hnr : s.m_disc_ready = false)
    (hclosed : s.OpenOK = false) :
    ReadTOC d s
      = (some s.m_toc, { s with m_media_type := 0, m_layer_break := 0, m_sectors := 0 }) := by
  rw [ReadTOC_not_ready d s hnr, RefreshDiscInfo_closed d s hnr hclosed]
  rfl

theorem GetLayerBreakAddress_closed (d : Drive) (s : IOCtlSrc) (hnr : s.m_disc_ready = false)
    (hclosed : s.OpenOK = false) :
    GetLayerBreakAddress d s
      = (some 0, { s with m_media_type := 0, m_layer_break := 0, m_sectors := 0 }) := by
  rw [GetLayerBreakAddress_not_ready d s hnr, RefreshDiscInfo_closed d s hnr hclosed]
  simp only [reduceCtorEq, if_false]
  rw [GetMediaType_closed d
    { s with m_media_type := 0, m_layer_break := 0, m_sectors := 0 } hnr hclosed]
  rfl

theorem DiscChanged_unchanged (d : Drive) (s : IOCtlSrc) (h : (DiscChanged d s).1 ≠ 1) :
    (DiscChanged d s).2.m_disc_ready = s.m_disc_ready
      ∧ (DiscChanged d s).2.m_media_type = s.m_media_type
      ∧ (DiscChanged d s).2.m_layer_break = s.m_layer_break
      ∧ (DiscChanged d s).2.m_sectors = s.m_sectors
      ∧ (DiscChanged d s).2.m_toc = s.m_toc := by
  revert h
  unfold DiscChanged
  simp only [IOCtlSrc.issue]
  repeat' split
  all_goals simp

theorem DiscChanged_changed (d : Drive) (s s1 : IOCtlSrc) (h : DiscChanged d s = (1, s1)) :
    s.OpenOK = true
      ∧ s1 = { s.issue .STORAGE_CHECK_VERIFY with m_disc_ready := false } := by
  unfold DiscChanged at h
  cases ho : s.OpenOK with
  | false =>
    simp only [ho, Bool.not_false, if_true, Prod.mk.injEq] at h
    exact absurd h.1 (by decide)
  | true =>
    simp only [ho, Bool.not_true, Bool.false_eq_true, if_false] at h
    split at h
    · simp only [Prod.mk.injEq, true_and] at h
      exact ⟨rfl, h.symm⟩
    · simp only [Prod.mk.injEq] at h
      exact absurd h.1 (by decide)

theorem ReadCDInfo_none_iff (d : Drive) (s : IOCtlSrc) :
    (ReadCDInfo d s).1 = none
      ↔ ∃ toc, d.CDROM_READ_TOC_EX (s.trace ++ [.CDROM_READ_TOC_EX 0 0 1]) = some toc
          ∧ MAXIMUM_NUMBER_TRACKS < track_count toc := by
  cases hread : d.CDROM_READ_TOC_EX (s.trace ++ [.CDROM_READ_TOC_EX 0 0 1]) with
  | none =>
    have h : (ReadCDInfo d s).1 = some false := by
      unfold ReadCDInfo
      simp only [IOCtlSrc.issue, hread]
    rw [h]
    simp
  | some toc =>
    by_cases hcount : track_count toc ≤ MAXIMUM_NUMBER_TRACKS
    · have h := (ReadCDInfo_toc_in_bounds d s toc hread hcount).1
      constructor
      · intro hn; exact absurd hn h
      · rintro ⟨toc', htoc', hlt⟩
        simp only [Option.some.injEq] at htoc'
        subst htoc'
        omega
    · constructor
      · intro _; exact ⟨toc, rfl, by omega⟩
      · intro _; exact ReadCDInfo_toc_out_of_bounds d s toc hread (by omega)

/-- C10 as amended. One run of `RefreshDiscInfo` on a not-ready cache that
completes either succeeds, marks the cache ready and leaves
media type, sector count and layer break all taken from the new probe (those
the DVD probe computed, or -1, `totalBytes / 2048` and 0 with the TOC of the
new TOC block after the CD probe), or fails, leaves the cache not ready and
media type, sector count and layer break all reset to 0.  In both cases the
outcome does not depend on the three values stored before.  The run fails to
complete only when the TOC block declares more records than the array holds.
What the TOC holds after a failed probe or a DVD probe is left open. -/
theorem RefreshDiscInfo_atomic (d : Drive) (s : IOCtlSrc) (hnr : s.m_disc_ready = false) :
    (∀ s', RefreshDiscInfo d s = (some true, s') →
        s'.m_disc_ready = true
          ∧ (((ReadDVDInfo d
                  { s with m_media_type := 0, m_layer_break := 0, m_sectors := 0 }).1 = true
                ∧ s'.m_media_type = (ReadDVDInfo d
                    { s with m_media_type := 0, m_layer_break := 0, m_sectors := 0 }).2.m_media_type
                ∧ s'.m_sectors = (ReadDVDInfo d
                    { s with m_media_type := 0, m_layer_break := 0, m_sectors := 0 }).2.m_sectors
                ∧ s'.m_layer_break = (ReadDVDInfo d
                    { s with m_media_type := 0, m_layer_break := 0, m_sectors := 0 }).2.m_layer_break
                ∧ ((s'.m_media_type = 0 ∧ s'.m_layer_break = 0) ∨ s'.m_media_type = 1
                    ∨ s'.m_media_type = 2))
            ∨ ((ReadDVDInfo d
                  { s with m_media_type := 0, m_layer_break := 0, m_sectors := 0 }).1 = false
                ∧ s'.m_media_type = -1 ∧ s'.m_layer_break = 0
                ∧ ∃ (toc : CDROM_TOC) (Length : Int),
                    d.CDROM_READ_TOC_EX ((ReadDVDInfo d
                        { s with m_media_type := 0, m_layer_break := 0, m_sectors := 0 }).2.trace
                        ++ [.CDROM_READ_TOC_EX 0 0 1]) = some toc
                      ∧ d.DISK_GET_LENGTH_INFO ((ReadDVDInfo d
                        { s with m_media_type := 0, m_layer_break := 0, m_sectors := 0 }).2.trace
                        ++ [.CDROM_READ_TOC_EX 0 0 1, .DISK_GET_LENGTH_INFO]) = some Length
                      ∧ s'.m_sectors = toU32 (Int.tdiv Length 2048)
                      ∧ s'.m_toc = specToc toc)))
      ∧ (∀ s', RefreshDiscInfo d s = (some false, s') →
          s'.m_disc_ready = false ∧ s'.m_media_type = 0 ∧ s'.m_layer_break = 0
            ∧ s'.m_sectors = 0)
      ∧ (∀ (m : Int) (l n : Nat),
          RefreshDiscInfo d { s with m_media_type := m, m_layer_break := l, m_sectors := n }
            = RefreshDiscInfo d s)
      ∧ ((RefreshDiscInfo d s).1 = none
          ↔ s.OpenOK = true
              ∧ (ReadDVDInfo d
                { s with m_media_type := 0, m_layer_break := 0, m_sectors := 0 }).1 = false
              ∧ ∃ toc, d.CDROM_READ_TOC_EX ((ReadDVDInfo d
                    { s with m_media_type := 0, m_layer_break := 0, m_sectors := 0 }).2.trace
                    ++ [.CDROM_READ_TOC_EX 0 0 1]) = some toc
                  ∧ MAXIMUM_NUMBER_TRACKS < track_count toc) := by
  by_cases hopen : s.OpenOK = true
  swap
  · have hclosed : s.OpenOK = false := by simpa using hopen
    have hrun := RefreshDiscInfo_closed d s hnr hclosed
    refine ⟨?_, ?_, fun m l n => RefreshDiscInfo_independent d s hnr m l n, ?_⟩
    · intro s' hs'
      rw [hrun] at hs'
      simp at hs'
    · intro s' hs'
      rw [hrun] at hs'
      simp only [Prod.mk.injEq, true_and] at hs'
      subst hs'
      exact ⟨hnr, rfl, rfl, rfl⟩
    · rw [hrun]
      simp [hclosed]
  have hrun := RefreshDiscInfo_not_ready d s hnr hopen
  have hdvdFrame := ReadDVDInfo_frame d
    { s with m_media_type := 0, m_layer_break := 0, m_sectors := 0 }
  have hcdFrame := ReadCDInfo_frame d (ReadDVDInfo d
    { s with m_media_type := 0, m_layer_break := 0, m_sectors := 0 }).2
  have hcdNone := ReadCDInfo_none_iff d (ReadDVDInfo d
    { s with m_media_type := 0, m_layer_break := 0, m_sectors := 0 }).2
  cases hdvd : (ReadDVDInfo d
      { s with m_media_type := 0, m_layer_break := 0, m_sectors := 0 }).1 with
  | true =>
    rw [hdvd, if_pos rfl] at hrun
    have hsucc := ReadDVDInfo_success d _ hdvd
    refine ⟨?_, ?_, fun m l n => RefreshDiscInfo_independent d s hnr m l n, ?_⟩
    · intro s' hs'
      rw [hrun] at hs'
      simp only [Prod.mk.injEq, true_and] at hs'
      subst hs'
      exact ⟨rfl, Or.inl ⟨rfl, rfl, rfl, rfl, hsucc⟩⟩
    · intro s' hs'
      rw [hrun] at hs'
      simp at hs'
    · rw [hrun]
      simp
  | false =>
    rw [hdvd, if_neg (by simp)] at hrun
    have hfail := ReadDVDInfo_failure d _ hdvd
    refine ⟨?_, ?_, fun m l n => RefreshDiscInfo_independent d s hnr m l n, ?_⟩
    · intro s' hs'
      rw [hrun] at hs'
      split at hs'
      · simp at hs'
      · rename_i s'' heq
        simp only [Prod.mk.injEq, true_and] at hs'
        subst hs'
        have hcd : (ReadCDInfo d (ReadDVDInfo d
            { s with m_media_type := 0, m_layer_break := 0, m_sectors := 0 }).2).1
            = some true := by rw [heq]
        obtain ⟨hm, toc, Length, h1, _, h3, h4, h5⟩ := ReadCDInfo_success d _ hcd
        rw [heq] at hm h4 h5 hcdFrame
        refine ⟨rfl, Or.inr ⟨rfl, hm, ?_, toc, Length, h1, h3, h4, h5⟩⟩
        show s''.m_layer_break = 0
        rw [hcdFrame.2.2.2.1, hfail.2.1]
      · simp at hs'
    · intro s' hs'
      rw [hrun] at hs'
      split at hs'
      · simp at hs'
      · simp at hs'
      · rename_i s'' heq
        simp only [Prod.mk.injEq, true_and] at hs'
        subst hs'
        have hcd : (ReadCDInfo d (ReadDVDInfo d
            { s with m_media_type := 0, m_layer_break := 0, m_sectors := 0 }).2).1
            = some false := by rw [heq]
        have hf := ReadCDInfo_failure d _ hcd
        rw [heq] at hf hcdFrame
        refine ⟨?_, ?_, ?_, ?_⟩
        · rw [hcdFrame.1, hdvdFrame.1]; exact hnr
        · rw [hf.1, hfail.1]
        · rw [hcdFrame.2.2.2.1, hfail.2.1]
        · rw [hf.2, hfail.2.2]
    · rw [hrun, ← hcdNone]
      simp only [hopen, true_and]
      split
      · rename_i heq; rw [heq]
      · rename_i heq; rw [heq]
      · rename_i heq; rw [heq]

/-- C10 as amended, at the replacement of a CD by the single-layer DVD of C1
and at a drive on which both probes fail. -/
theorem RefreshDiscInfo_atomic_witness :
    ((RefreshDiscInfo (dvdDrive (mkLayer 0 0 0x30000 0x180000 0) none) staleCdSession).2.m_disc_ready
          = true
        ∧ (RefreshDiscInfo (dvdDrive (mkLayer 0 0 0x30000 0x180000 0) none)
            staleCdSession).2.m_sectors = 0x150001)
      ∧ ((RefreshDiscInfo deadDrive staleCdSession).2.m_disc_ready = false
        ∧ (RefreshDiscInfo deadDrive staleCdSession).2.m_media_type = 0
        ∧ (RefreshDiscInfo deadDrive staleCdSession).2.m_layer_break = 0
        ∧ (RefreshDiscInfo deadDrive staleCdSession).2.m_sectors = 0) :=
  ⟨⟨((RefreshDiscInfo_atomic (dvdDrive (mkLayer 0 0 0x30000 0x180000 0) none) staleCdSession
        rfl).1 _ (by decide)).1, by decide⟩,
   (RefreshDiscInfo_atomic deadDrive staleCdSession rfl).2.1 _ (by decide)⟩

/-- C10 as stated fails. A probe that fails at the length query has already
replaced the TOC of the previous disc and has reset the stored sector count;
a probe that succeeds on a DVD leaves the TOC entry of the previous CD in the
cache. -/
theorem RefreshDiscInfo_atomic_counterexample :
    ((RefreshDiscInfo (cdDrive (sampleToc 0 26) none) staleCdSession).1 = some false
        ∧ (RefreshDiscInfo (cdDrive (sampleToc 0 26) none) staleCdSession).2.m_toc
            = [{ lba := 0, track := 1, adr := 1, control := 4 },
               { lba := 512, track := 3, adr := 1, control := 4 }]
        ∧ (RefreshDiscInfo (cdDrive (sampleToc 0 26) none) staleCdSession).2.m_toc
            ≠ staleCdSession.m_toc
        ∧ (RefreshDiscInfo (cdDrive (sampleToc 0 26) none) staleCdSession).2.m_sectors
            ≠ staleCdSession.m_sectors)
      ∧ ((RefreshDiscInfo (dvdDrive (mkLayer 0 0 0x30000 0x180000 0) none) staleCdSession).1
            = some true
        ∧ (RefreshDiscInfo (dvdDrive (mkLayer 0 0 0x30000 0x180000 0) none)
            staleCdSession).2.m_media_type = 0
        ∧ (RefreshDiscInfo (dvdDrive (mkLayer 0 0 0x30000 0x180000 0) none)
            staleCdSession).2.m_toc = staleCdSession.m_toc
        ∧ staleCdSession.m_toc ≠ []) := by
  decide

/-! ## Reopen, the disc-change check and the failed refresh -/

theorem Reopen_frame (d : Drive) (s : IOCtlSrc) :
    (Reopen d s).2.m_media_type = s.m_media_type
      ∧ (Reopen d s).2.m_layer_break = s.m_layer_break
      ∧ (Reopen d s).2.m_sectors = s.m_sectors
      ∧ (Reopen d s).2.m_toc = s.m_toc := by
  unfold Reopen
  simp only [IOCtlSrc.issue]
  repeat' split
  all_goals simp

theorem Reopen_success (d : Drive) (s : IOCtlSrc) (h : (Reopen d s).1 = 0) :
    (Reopen d s).2.m_disc_ready = false ∧ (Reopen d s).2.OpenOK = true := by
  revert h
  unfold Reopen
  simp only [IOCtlSrc.issue]
  repeat' split
  all_goals simp

theorem Reopen_failure (d : Drive) (s : IOCtlSrc) (h : (Reopen d s).1 ≠ 0) :
    (Reopen d s).1 = -1 ∧ (Reopen d s).2.m_disc_ready = s.m_disc_ready
      ∧ (Reopen d s).2.OpenOK = false := by
  revert h
  unfold Reopen
  simp only [IOCtlSrc.issue]
  repeat' split
  all_goals simp

/-- C11 fails on the code. When `CreateFile` fails, `Reopen` returns -1 before
it reaches `m_disc_ready = false`: on a session whose cache is ready the cache
stays ready, and the next accessors return the sector count and the TOC cached
before the reopen without issuing any device operation. -/
theorem Reopen_failure_keeps_cache :
    (Reopen deadDrive cachedCdSession).1 = -1
      ∧ (Reopen deadDrive cachedCdSession).2.OpenOK = false
      ∧ (Reopen deadDrive cachedCdSession).2.m_disc_ready = true
      ∧ GetSectorCount deadDrive (Reopen deadDrive cachedCdSession).2
          = (some 333000, (Reopen deadDrive cachedCdSession).2)
      ∧ GetMediaType deadDrive (Reopen deadDrive cachedCdSession).2
          = (some (-1), (Reopen deadDrive cachedCdSession).2)
      ∧ ReadTOC deadDrive (Reopen deadDrive cachedCdSession).2
          = (some [{ lba := 0, track := 1, adr := 1, control := 4 }],
              (Reopen deadDrive cachedCdSession).2) := by
  decide

/-- C15. `DiscChanged` on a session that is not open returns -1 and changes
nothing.  On an open session it issues the media check; when the check fails
it clears `m_disc_ready` and returns 1, otherwise it returns 0 and leaves
`m_disc_ready` as it was.  It never changes media type, sector count, layer
break or TOC. -/
theorem DiscChanged_result_and_frame (d : Drive) (s : IOCtlSrc) :
    (s.OpenOK = false → DiscChanged d s = (-1, s))
      ∧ (s.OpenOK = true →
          d.STORAGE_CHECK_VERIFY (s.trace ++ [.STORAGE_CHECK_VERIFY]) = false →
          DiscChanged d s
            = (1, { s.issue .STORAGE_CHECK_VERIFY with m_disc_ready := false }))
      ∧ (s.OpenOK = true →
          d.STORAGE_CHECK_VERIFY (s.trace ++ [.STORAGE_CHECK_VERIFY]) = true →
          DiscChanged d s = (0, s.issue .STORAGE_CHECK_VERIFY)
            ∧ (DiscChanged d s).2.m_disc_ready = s.m_disc_ready)
      ∧ ((DiscChanged d s).2.m_media_type = s.m_media_type
          ∧ (DiscChanged d s).2.m_sectors = s.m_sectors
          ∧ (DiscChanged d s).2.m_layer_break = s.m_layer_break
          ∧ (DiscChanged d s).2.m_toc = s.m_toc) := by
  refine ⟨?_, ?_, ?_, ?_⟩
  · intro h
    simp only [DiscChanged, h, Bool.not_false, if_true]
  · intro h hv
    simp only [DiscChanged, h, Bool.not_true, Bool.false_eq_true, if_false, IOCtlSrc.issue, hv,
      if_true]
  · intro h hv
    simp only [DiscChanged, h, Bool.not_true, Bool.false_eq_true, if_false, IOCtlSrc.issue, hv,
      Bool.true_eq_false, and_self]
  · unfold DiscChanged
    simp only [IOCtlSrc.issue]
    repeat' split
    all_goals simp

/-- C15, at a session that is not open, at a changed disc and at an unchanged
disc. -/
theorem DiscChanged_result_and_frame_witness :
    DiscChanged deadDrive closedSession = (-1, closedSession)
      ∧ DiscChanged swappedDrive cachedCdSession
          = (1, { cachedCdSession.issue .STORAGE_CHECK_VERIFY with m_disc_ready := false })
      ∧ DiscChanged steadyDrive cachedCdSession
          = (0, cachedCdSession.issue .STORAGE_CHECK_VERIFY) :=
  ⟨(DiscChanged_result_and_frame deadDrive closedSession).1 rfl,
   (DiscChanged_result_and_frame swappedDrive cachedCdSession).2.1 rfl rfl,
   ((DiscChanged_result_and_frame steadyDrive cachedCdSession).2.2.1 rfl rfl).1⟩

/-- C16. On a cache that is not ready, when the session is not open, or when
the DVD probe and the CD probe both fail, `RefreshDiscInfo` returns false,
`m_disc_ready` stays false and sector count, layer break and media type are
0, whatever they were before. -/
theorem RefreshDiscInfo_failure_resets (d : Drive) (s : IOCtlSrc)
    (hnr : s.m_disc_ready = false) :
    (s.OpenOK = false →
        RefreshDiscInfo d s
          = (some false, { s with m_media_type := 0, m_layer_break := 0, m_sectors := 0 }))
      ∧ (s.OpenOK = true →
          (ReadDVDInfo d
            { s with m_media_type := 0, m_layer_break := 0, m_sectors := 0 }).1 = false →
          (ReadCDInfo d (ReadDVDInfo d
            { s with m_media_type := 0, m_layer_break := 0, m_sectors := 0 }).2).1
            = some false →
          (RefreshDiscInfo d s).1 = some false
            ∧ (RefreshDiscInfo d s).2.m_disc_ready = false
            ∧ (RefreshDiscInfo d s).2.m_sectors = 0
            ∧ (RefreshDiscInfo d s).2.m_layer_break = 0
            ∧ (RefreshDiscInfo d s).2.m_media_type = 0) := by
  refine ⟨fun h => RefreshDiscInfo_closed d s hnr h, ?_⟩
  intro hopen hdvd hcd
  have hfail := ReadDVDInfo_failure d _ hdvd
  have hdvdFrame := ReadDVDInfo_frame d
    { s with m_media_type := 0, m_layer_break := 0, m_sectors := 0 }
  have hcdFrame := ReadCDInfo_frame d (ReadDVDInfo d
    { s with m_media_type := 0, m_layer_break := 0, m_sectors := 0 }).2
  have hf := ReadCDInfo_failure d _ hcd
  rw [RefreshDiscInfo_not_ready d s hnr hopen, hdvd, if_neg (by simp)]
  cases hr : ReadCDInfo d (ReadDVDInfo d
      { s with m_media_type := 0, m_layer_break := 0, m_sectors := 0 }).2 with
  | mk o s' =>
    rw [hr] at hcd hf hcdFrame
    simp only at hcd
    subst hcd
    refine ⟨rfl, ?_, ?_, ?_, ?_⟩
    · show s'.m_disc_ready = false
      rw [hcdFrame.1, hdvdFrame.1]; exact hnr
    · show s'.m_sectors = 0
      rw [hf.2, hfail.2.2]
    · show s'.m_layer_break = 0
      rw [hcdFrame.2.2.2.1, hfail.2.1]
    · show s'.m_media_type = 0
      rw [hf.1, hfail.1]

/-- C16, at a session that is not open and at a drive on which both probes
fail, the cache holding the numbers of a previous CD. -/
theorem RefreshDiscInfo_failure_resets_witness :
    (RefreshDiscInfo deadDrive { staleCdSession with OpenOK := false }).1 = some false
      ∧ (RefreshDiscInfo deadDrive staleCdSession).1 = some false
      ∧ (RefreshDiscInfo deadDrive staleCdSession).2.m_sectors = 0
      ∧ (RefreshDiscInfo deadDrive staleCdSession).2.m_media_type = 0 :=
  have h1 := (RefreshDiscInfo_failure_resets deadDrive { staleCdSession with OpenOK := false }
    rfl).1 rfl
  have h2 := (RefreshDiscInfo_failure_resets deadDrive staleCdSession rfl).2 rfl rfl rfl
  ⟨by rw [h1], h2.1, h2.2.2.1, h2.2.2.2.2⟩

/-! ## Probe order and the CD geometry -/

theorem ReadDVDInfo_issues (d : Drive) (s : IOCtlSrc) :
    ∃ rest, (ReadDVDInfo d s).2.trace = s.trace ++ DeviceOp.DVD_START_SESSION :: rest
      ∧ DeviceOp.CDROM_READ_TOC_EX 0 0 1 ∉ rest := by
  unfold ReadDVDInfo ReadDVDInfo_layer
  simp only [IOCtlSrc.issue]
  repeat' split
  all_goals simp

theorem ReadDVDInfo_failure_iff (d : Drive) (s : IOCtlSrc) :
    (ReadDVDInfo d s).1 = false
      ↔ d.DVD_START_SESSION (s.trace ++ [.DVD_START_SESSION]) = none
        ∨ (∃ session_id,
            d.DVD_START_SESSION (s.trace ++ [.DVD_START_SESSION]) = some session_id
              ∧ d.DVD_READ_STRUCTURE
                  (s.trace ++ [.DVD_START_SESSION, .DVD_READ_STRUCTURE session_id 0]) = none)
        ∨ (∃ session_id layer,
            d.DVD_START_SESSION (s.trace ++ [.DVD_START_SESSION]) = some session_id
              ∧ d.DVD_READ_STRUCTURE
                  (s.trace ++ [.DVD_START_SESSION, .DVD_READ_STRUCTURE session_id 0])
                  = some layer
              ∧ layer.NumberOfLayers ≠ 0 ∧ layer.TrackPath = 0
              ∧ d.DVD_READ_STRUCTURE
                  (s.trace ++ [.DVD_START_SESSION, .DVD_READ_STRUCTURE session_id 0,
                    .DVD_READ_STRUCTURE session_id 1]) = none) := by
  unfold ReadDVDInfo ReadDVDInfo_layer
  simp only [IOCtlSrc.issue]
  cases hstart : d.DVD_START_SESSION (s.trace ++ [.DVD_START_SESSION]) with
  | none => simp
  | some session_id =>
    simp only [List.append_assoc, List.singleton_append]
    cases hread0 : d.DVD_READ_STRUCTURE
        (s.trace ++ [.DVD_START_SESSION, .DVD_READ_STRUCTURE session_id 0]) with
    | none => simp [hread0]
    | some layer =>
      by_cases hsingle : layer.NumberOfLayers = 0
      · simp [hread0, hsingle]
      · by_cases hptp : layer.TrackPath = 0
        · cases hread1 : d.DVD_READ_STRUCTURE
              (s.trace ++ [.DVD_START_SESSION, .DVD_READ_STRUCTURE session_id 0,
                .DVD_READ_STRUCTURE session_id 1]) with
          | none => simp [hread0, hsingle, hptp, hread1]
          | some layer1 => simp [hread0, hsingle, hptp, hread1]
        · simp [hread0, hsingle, hptp]

theorem RefreshDiscInfo_success_source (d : Drive) (s s' : IOCtlSrc)
    (hnr : s.m_disc_ready = false) (hopen : s.OpenOK = true)
    (h : RefreshDiscInfo d s = (some true, s')) :
    ((ReadDVDInfo d { s with m_media_type := 0, m_layer_break := 0, m_sectors := 0 }).1 = true
        ∧ s' = { (ReadDVDInfo d
            { s with m_media_type := 0, m_layer_break := 0, m_sectors := 0 }).2 with
            m_disc_ready := true })
      ∨ ((ReadDVDInfo d { s with m_media_type := 0, m_layer_break := 0, m_sectors := 0 }).1
          = false
        ∧ (ReadCDInfo d (ReadDVDInfo d
            { s with m_media_type := 0, m_layer_break := 0, m_sectors := 0 }).2).1 = some true
        ∧ s' = { (ReadCDInfo d (ReadDVDInfo d
            { s with m_media_type := 0, m_layer_break := 0, m_sectors := 0 }).2).2 with
            m_disc_ready := true }) := by
  rw [RefreshDiscInfo_not_ready d s hnr hopen] at h
  split at h
  · rename_i hdvd
    simp only [Prod.mk.injEq, true_and] at h
    exact Or.inl ⟨hdvd, h.symm⟩
  · rename_i hdvd
    have hdvd' : (ReadDVDInfo d
        { s with m_media_type := 0, m_layer_break := 0, m_sectors := 0 }).1 = false := by
      simpa using hdvd
    split at h
    · simp at h
    · rename_i s'' heq
      simp only [Prod.mk.injEq, true_and] at h
      refine Or.inr ⟨hdvd', by rw [heq], ?_⟩
      rw [heq]
      exact h.symm
    · simp at h

theorem ReadCDInfo_in_bounds_eq (d : Drive) (s : IOCtlSrc) (toc : CDROM_TOC)
    (hread : d.CDROM_READ_TOC_EX (s.trace ++ [.CDROM_READ_TOC_EX 0 0 1]) = some toc)
    (hcount : track_count toc ≤ MAXIMUM_NUMBER_TRACKS) :
    ReadCDInfo d s
      = match d.DISK_GET_LENGTH_INFO
            (s.trace ++ [.CDROM_READ_TOC_EX 0 0 1, .DISK_GET_LENGTH_INFO]) with
        | none =>
          (some false, { s with
            m_toc := specToc toc
            trace := s.trace ++ [.CDROM_READ_TOC_EX 0 0 1, .DISK_GET_LENGTH_INFO] })
        | some Length =>
          (some true, { s with
            m_toc := specToc toc
            trace := s.trace ++ [.CDROM_READ_TOC_EX 0 0 1, .DISK_GET_LENGTH_INFO]
            m_sectors := toU32 (Int.tdiv Length 2048)
            m_media_type := -1 }) := by
  have hloop := ReadCDInfo_loop_in_bounds toc (track_count toc) 0 [] (by omega)
  have hspec : (([] : List toc_entry) ++ ((((List.ofFn toc.TrackData).drop 0).take
      (track_count toc)).filter (fun track => !isLeadOut track)).map toc_entry_of)
      = specToc toc := by
    rw [track_count_of_two_le toc (two_le_of_track_count_le toc hcount)]
    simp only [List.nil_append, List.drop_zero, specToc]
    apply List.map_congr_left
    intro track _
    exact toc_entry_of_eq track
  rw [hspec] at hloop
  unfold ReadCDInfo
  simp only [IOCtlSrc.issue, hread, hloop, List.append_assoc, List.singleton_append]

theorem ReadCDInfo_length_query_issued (d : Drive) (s : IOCtlSrc) :
    (ReadCDInfo d s).2.trace = s.trace ++ [.CDROM_READ_TOC_EX 0 0 1, .DISK_GET_LENGTH_INFO]
      ↔ ∃ toc, d.CDROM_READ_TOC_EX (s.trace ++ [.CDROM_READ_TOC_EX 0 0 1]) = some toc
          ∧ track_count toc ≤ MAXIMUM_NUMBER_TRACKS := by
  cases hread : d.CDROM_READ_TOC_EX (s.trace ++ [.CDROM_READ_TOC_EX 0 0 1]) with
  | none =>
    have h : (ReadCDInfo d s).2.trace = s.trace ++ [.CDROM_READ_TOC_EX 0 0 1] := by
      unfold ReadCDInfo
      simp only [IOCtlSrc.issue, hread]
    rw [h]
    simp
  | some toc =>
    by_cases hcount : track_count toc ≤ MAXIMUM_NUMBER_TRACKS
    · rw [ReadCDInfo_in_bounds_eq d s toc hread hcount]
      constructor
      · intro _; exact ⟨toc, rfl, hcount⟩
      · intro _
        cases d.DISK_GET_LENGTH_INFO
          (s.trace ++ [.CDROM_READ_TOC_EX 0 0 1, .DISK_GET_LENGTH_INFO]) <;> rfl
    · have hloop := ReadCDInfo_loop_out_of_bounds toc (track_count toc) 0 [] (by omega)
        (by omega)
      have h : (ReadCDInfo d s).2.trace = s.trace ++ [.CDROM_READ_TOC_EX 0 0 1] := by
        unfold ReadCDInfo
        simp only [IOCtlSrc.issue, hread, hloop]
      rw [h]
      constructor
      · intro habs
        have := congrArg List.length habs
        simp at this
      · rintro ⟨toc', htoc', hle⟩
        simp only [Option.some.injEq] at htoc'
        subst htoc'
        exact absurd hle hcount

/-- C12. In `RefreshDiscInfo` on an open session whose cache is not ready the
first operation issued is the DVD session start; the TOC query of the CD probe
is issued if and only if the DVD probe failed; the DVD probe fails exactly
when the session start, the layer-0 descriptor read, or the layer-1 descriptor
read of a Parallel Track Path disc fails, and then leaves media type, sector
count and layer break at 0; after a successful refresh the media type is -1
exactly when the DVD probe failed (the result is the CD probe's) and is 0, 1
or 2 exactly when the DVD probe succeeded. -/
theorem RefreshDiscInfo_probe_order (d : Drive) (s : IOCtlSrc)
    (hnr : s.m_disc_ready = false) (hopen : s.OpenOK = true) :
    (∃ rest, (RefreshDiscInfo d s).2.trace = s.trace ++ DeviceOp.DVD_START_SESSION :: rest)
      ∧ (DeviceOp.CDROM_READ_TOC_EX 0 0 1 ∈ (RefreshDiscInfo d s).2.trace.drop s.trace.length
          ↔ (ReadDVDInfo d
              { s with m_media_type := 0, m_layer_break := 0, m_sectors := 0 }).1 = false)
      ∧ ((ReadDVDInfo d
            { s with m_media_type := 0, m_layer_break := 0, m_sectors := 0 }).1 = false
          ↔ d.DVD_START_SESSION (s.trace ++ [.DVD_START_SESSION]) = none
            ∨ (∃ session_id,
                d.DVD_START_SESSION (s.trace ++ [.DVD_START_SESSION]) = some session_id
                  ∧ d.DVD_READ_STRUCTURE
                      (s.trace ++ [.DVD_START_SESSION, .DVD_READ_STRUCTURE session_id 0])
                      = none)
            ∨ (∃ session_id layer,
                d.DVD_START_SESSION (s.trace ++ [.DVD_START_SESSION]) = some session_id
                  ∧ d.DVD_READ_STRUCTURE
                      (s.trace ++ [.DVD_START_SESSION, .DVD_READ_STRUCTURE session_id 0])
                      = some layer
                  ∧ layer.NumberOfLayers ≠ 0 ∧ layer.TrackPath = 0
                  ∧ d.DVD_READ_STRUCTURE
                      (s.trace ++ [.DVD_START_SESSION, .DVD_READ_STRUCTURE session_id 0,
                        .DVD_READ_STRUCTURE session_id 1]) = none))
      ∧ ((ReadDVDInfo d
            { s with m_media_type := 0, m_layer_break := 0, m_sectors := 0 }).1 = false →
          (ReadDVDInfo d
            { s with m_media_type := 0, m_layer_break := 0, m_sectors := 0 }).2.m_media_type = 0
            ∧ (ReadDVDInfo d
              { s with m_media_type := 0, m_layer_break := 0, m_sectors := 0 }).2.m_sectors = 0
            ∧ (ReadDVDInfo d
              { s with m_media_type := 0, m_layer_break := 0, m_sectors := 0 }).2.m_layer_break
              = 0)
      ∧ (∀ s', RefreshDiscInfo d s = (some true, s') →
          (s'.m_media_type = -1
              ↔ (ReadDVDInfo d
                  { s with m_media_type := 0, m_layer_break := 0, m_sectors := 0 }).1 = false)
            ∧ ((s'.m_media_type = 0 ∨ s'.m_media_type = 1 ∨ s'.m_media_type = 2)
              ↔ (ReadDVDInfo d
                  { s with m_media_type := 0, m_layer_break := 0, m_sectors := 0 }).1 = true))
    := by
  refine ⟨RefreshDiscInfo_trace d s hnr hopen, ?_,
    ReadDVDInfo_failure_iff d { s with m_media_type := 0, m_layer_break := 0, m_sectors := 0 },
    ?_, ?_⟩
  · obtain ⟨rest, hrest, hno⟩ := ReadDVDInfo_issues d
      { s with m_media_type := 0, m_layer_break := 0, m_sectors := 0 }
    obtain ⟨rest2, hrest2⟩ := (ReadCDInfo_frame d (ReadDVDInfo d
      { s with m_media_type := 0, m_layer_break := 0, m_sectors := 0 }).2).2.2.2.2
    rw [hrest] at hrest2
    rw [RefreshDiscInfo_not_ready d s hnr hopen]
    cases hdvd : (ReadDVDInfo d
        { s with m_media_type := 0, m_layer_break := 0, m_sectors := 0 }).1 with
    | true =>
      rw [if_pos rfl]
      show _ ∈ List.drop s.trace.length (ReadDVDInfo d
        { s with m_media_type := 0, m_layer_break := 0, m_sectors := 0 }).2.trace ↔ _
      rw [hrest]
      show _ ∈ List.drop s.trace.length (s.trace ++ _) ↔ _
      rw [List.drop_left]
      simp [hno]
    | false =>
      rw [if_neg (by simp)]
      have hmem : DeviceOp.CDROM_READ_TOC_EX 0 0 1 ∈ List.drop s.trace.length
          (ReadCDInfo d (ReadDVDInfo d
            { s with m_media_type := 0, m_layer_break := 0, m_sectors := 0 }).2).2.trace := by
        rw [hrest2]
        show _ ∈ List.drop s.trace.length ((s.trace ++ _) ++ _)
        rw [List.append_assoc, List.drop_left]
        simp
      simp only [iff_true]
      split
      all_goals
        rename_i heq
        rw [heq] at hmem
        exact hmem
  · intro hdvd
    obtain ⟨h1, h2, h3⟩ := ReadDVDInfo_failure d _ hdvd
    exact ⟨h1, h3, h2⟩
  · intro s' hs'
    rcases RefreshDiscInfo_success_source d s s' hnr hopen hs' with ⟨hdvd, rfl⟩ | ⟨hdvd, hcd, rfl⟩
    · have hm := ReadDVDInfo_success d _ hdvd
      rw [hdvd]
      simp only [Bool.true_eq_false, iff_false, iff_true]
      rcases hm with ⟨h0, _⟩ | h1 | h2
      · exact ⟨by rw [h0]; decide, Or.inl h0⟩
      · exact ⟨by rw [h1]; decide, Or.inr (Or.inl h1)⟩
      · exact ⟨by rw [h2]; decide, Or.inr (Or.inr h2)⟩
    · have hm := (ReadCDInfo_success d _ hcd).1
      rw [hdvd]
      simp only [Bool.false_eq_true, iff_false, iff_true]
      refine ⟨hm, ?_⟩
      show ¬((ReadCDInfo d _).2.m_media_type = 0 ∨ (ReadCDInfo d _).2.m_media_type = 1
        ∨ (ReadCDInfo d _).2.m_media_type = 2)
      rw [hm]
      decide

/-- C12, at a CD: the DVD session start fails, the CD probe runs and the
media type is -1. -/
theorem RefreshDiscInfo_probe_order_witness :
    (DeviceOp.CDROM_READ_TOC_EX 0 0 1
        ∈ (RefreshDiscInfo (cdDrive (sampleToc 0 26) (some 0x2000000)) openSession).2.trace.drop
            openSession.trace.length)
      ∧ (RefreshDiscInfo (cdDrive (sampleToc 0 26) (some 0x2000000))
          openSession).2.m_media_type = -1 :=
  have h := RefreshDiscInfo_probe_order (cdDrive (sampleToc 0 26) (some 0x2000000))
    openSession rfl rfl
  ⟨h.2.1.2 (by decide), ((h.2.2.2.2 _ (by decide)).1).2 (by decide)⟩

/-! ## The layer-break invariant -/

theorem RefreshDiscInfo_invariant (d : Drive) (s : IOCtlSrc) (h : cacheInvariant s) :
    cacheInvariant (RefreshDiscInfo d s).2 := by
  rcases Bool.eq_false_or_eq_true s.m_disc_ready with hr | hnr
  · rw [RefreshDiscInfo_ready d s hr]; exact h
  · rcases Bool.eq_false_or_eq_true s.OpenOK with hopen | hclosed
    · intro hready
      cases hres : (RefreshDiscInfo d s).1 with
      | none =>
        rw [RefreshDiscInfo_none d s hres] at hready
        exact absurd hready (by simp)
      | some b =>
        cases b with
        | false =>
          exfalso
          have hdvdFrame := ReadDVDInfo_frame d
            { s with m_media_type := 0, m_layer_break := 0, m_sectors := 0 }
          have hcdFrame := ReadCDInfo_frame d (ReadDVDInfo d
            { s with m_media_type := 0, m_layer_break := 0, m_sectors := 0 }).2
          rw [RefreshDiscInfo_not_ready d s hnr hopen] at hres hready
          split at hres
          · simp at hres
          · rename_i hdvd
            rw [if_neg hdvd] at hready
            split at hres
            · simp at hres
            · simp at hres
            · rename_i s'' heq
              rw [heq] at hready hcdFrame
              simp only at hready
              rw [hcdFrame.1, hdvdFrame.1] at hready
              rw [hnr] at hready
              exact absurd hready (by simp)
        | true =>
          have hpair : RefreshDiscInfo d s = (some true, (RefreshDiscInfo d s).2) := by
            rw [← hres]
          rcases RefreshDiscInfo_success_source d s _ hnr hopen hpair with
            ⟨hdvd, hs'⟩ | ⟨hdvd, hcd, hs'⟩
          · rw [hs']
            rcases ReadDVDInfo_success d _ hdvd with ⟨h0, hl⟩ | h1 | h2
            · exact ⟨Or.inr (Or.inl h0), fun _ => hl⟩
            · refine ⟨Or.inr (Or.inr (Or.inl h1)), ?_⟩
              intro hm
              rcases hm with hm | hm <;>
                · have : (ReadDVDInfo d
                    { s with m_media_type := 0, m_layer_break := 0, m_sectors := 0 }).2.m_media_type
                    = _ := hm
                  rw [h1] at this
                  exact absurd this (by decide)
            · refine ⟨Or.inr (Or.inr (Or.inr h2)), ?_⟩
              intro hm
              rcases hm with hm | hm <;>
                · have : (ReadDVDInfo d
                    { s with m_media_type := 0, m_layer_break := 0, m_sectors := 0 }).2.m_media_type
                    = _ := hm
                  rw [h2] at this
                  exact absurd this (by decide)
          · rw [hs']
            have hm := (ReadCDInfo_success d _ hcd).1
            have hlb : (ReadCDInfo d (ReadDVDInfo d
                { s with m_media_type := 0, m_layer_break := 0, m_sectors := 0 }).2).2.m_layer_break
                = 0 := by
              rw [(ReadCDInfo_frame d _).2.2.2.1, (ReadDVDInfo_failure d _ hdvd).2.1]
            exact ⟨Or.inl hm, fun _ => hlb⟩
    · rw [RefreshDiscInfo_closed d s hnr hclosed]
      intro hready
      exact absurd (hnr ▸ hready : false = true) (by simp)

theorem refreshIfNotReady_invariant (d : Drive) (s : IOCtlSrc) (h : cacheInvariant s) :
    cacheInvariant (refreshIfNotReady d s).2 := by
  rcases Bool.eq_false_or_eq_true s.m_disc_ready with hr | hnr
  · rw [refreshIfNotReady_ready d s hr]; exact h
  · rw [refreshIfNotReady_not_ready d s hnr]
    exact RefreshDiscInfo_invariant d s h

theorem GetSectorCount_state (d : Drive) (s : IOCtlSrc) :
    (GetSectorCount d s).2 = (refreshIfNotReady d s).2 := by
  unfold GetSectorCount
  split <;> (rename_i heq; rw [heq])

theorem GetMediaType_state (d : Drive) (s : IOCtlSrc) :
    (GetMediaType d s).2 = (refreshIfNotReady d s).2 := by
  unfold GetMediaType
  split <;> (rename_i heq; rw [heq])

theorem ReadTOC_state (d : Drive) (s : IOCtlSrc) :
    (ReadTOC d s).2 = (refreshIfNotReady d s).2 := by
  unfold ReadTOC
  split <;> (rename_i heq; rw [heq])

theorem GetMediaType_value (d : Drive) (s s' : IOCtlSrc) (media_type : Int)
    (h : GetMediaType d s = (some media_type, s')) : media_type = s'.m_media_type := by
  unfold GetMediaType at h
  split at h
  · simp at h
  · simp only [Prod.mk.injEq, Option.some.injEq] at h
    rw [← h.1, ← h.2]

theorem GetLayerBreakAddress_invariant (d : Drive) (s : IOCtlSrc) (h : cacheInvariant s) :
    cacheInvariant (GetLayerBreakAddress d s).2 := by
  have h1 := refreshIfNotReady_invariant d s h
  unfold GetLayerBreakAddress
  split
  · rename_i heq; rw [heq] at h1; exact h1
  · rename_i s2 heq
    rw [heq] at h1
    have h2 := refreshIfNotReady_invariant d s2 h1
    rw [← GetMediaType_state d s2] at h2
    split
    · rename_i heq2; rw [heq2] at h2; exact h2
    · rename_i heq2
      rw [heq2] at h2
      split <;> exact h2

theorem GetLayerBreakAddress_negative (d : Drive) (s s' : IOCtlSrc) (v : Nat)
    (h : GetLayerBreakAddress d s = (some v, s')) (hneg : s'.m_media_type < 0) : v = 0 := by
  unfold GetLayerBreakAddress at h
  split at h
  · simp at h
  · split at h
    · simp at h
    · rename_i media_type s3 heq2
      have hv := GetMediaType_value d _ s3 media_type heq2
      split at h
      · simp only [Prod.mk.injEq, Option.some.injEq] at h
        exact h.1.symm
      · rename_i hge
        simp only [Prod.mk.injEq, Option.some.injEq] at h
        rw [← h.2, ← hv] at hneg
        exact absurd hneg hge

theorem DiscChanged_ready_frame (d : Drive) (s : IOCtlSrc) :
    ((DiscChanged d s).2.m_disc_ready = true → s.m_disc_ready = true)
      ∧ (DiscChanged d s).2.m_media_type = s.m_media_type
      ∧ (DiscChanged d s).2.m_layer_break = s.m_layer_break := by
  unfold DiscChanged
  simp only [IOCtlSrc.issue]
  repeat' split
  all_goals simp

theorem Reachable_invariant (d : Drive) (s : IOCtlSrc) (h : Reachable d s) :
    cacheInvariant s := by
  induction h with
  | fresh s0 hok =>
    intro hready
    rw [(Reopen_success d s0 hok).1] at hready
    exact absurd hready (by simp)
  | @reopen s0 _ ih =>
    intro hready
    by_cases hok : (Reopen d s0).1 = 0
    · rw [(Reopen_success d s0 hok).1] at hready
      exact absurd hready (by simp)
    · obtain ⟨h1, h2, _, _⟩ := Reopen_frame d s0
      rw [(Reopen_failure d s0 hok).2.1] at hready
      rw [h1, h2]
      exact ih hready
  | @discChanged s0 _ ih =>
    intro hready
    have hframe := (DiscChanged_ready_frame d s0)
    rw [hframe.2.1, hframe.2.2]
    exact ih (hframe.1 hready)
  | @getSectorCount s0 _ ih =>
    rw [GetSectorCount_state]; exact refreshIfNotReady_invariant d s0 ih
  | @getLayerBreakAddress s0 _ ih => exact GetLayerBreakAddress_invariant d s0 ih
  | @getMediaType s0 _ ih =>
    rw [GetMediaType_state]; exact refreshIfNotReady_invariant d s0 ih
  | @readTOC s0 _ ih =>
    rw [ReadTOC_state]; exact refreshIfNotReady_invariant d s0 ih

/-- C17. In every state reachable from a freshly reopened session through
`Reopen`, `DiscChanged` and the geometry accessors, a ready cache holds a
media type among -1, 0, 1, 2 and the layer break 0 for the media types -1 and
0.  From any state at all, `GetLayerBreakAddress` returns 0 whenever the media
type it finds is negative, whatever layer break is stored. -/
theorem layer_break_invariant (d : Drive) (s : IOCtlSrc) (h : Reachable d s) :
    (s.m_disc_ready = true →
        (s.m_media_type = -1 ∨ s.m_media_type = 0 ∨ s.m_media_type = 1 ∨ s.m_media_type = 2)
          ∧ (s.m_media_type = -1 ∨ s.m_media_type = 0 → s.m_layer_break = 0))
      ∧ (∀ (s0 s' : IOCtlSrc) (v : Nat),
          GetLayerBreakAddress d s0 = (some v, s') → s'.m_media_type < 0 → v = 0)
      ∧ (∀ (s0 : IOCtlSrc) (l : Nat), s0.m_disc_ready = true → s0.m_media_type < 0 →
          GetLayerBreakAddress d { s0 with m_layer_break := l }
            = (some 0, { s0 with m_layer_break := l })) := by
  refine ⟨Reachable_invariant d s h, fun s0 s' v => GetLayerBreakAddress_negative d s0 s' v, ?_⟩
  intro s0 l hr hneg
  rw [GetLayerBreakAddress_ready d { s0 with m_layer_break := l } hr]
  simp only [hneg, if_true]

/-- C17, at the state after a reopen and a `GetLayerBreakAddress` on a drive
holding a CD: the cache is ready with media type -1 and layer break 0. -/
theorem layer_break_invariant_witness :
    (GetLayerBreakAddress (cdDrive (sampleToc 0 26) (some 0x2000000))
        (Reopen (cdDrive (sampleToc 0 26) (some 0x2000000)) closedSession).2).2.m_disc_ready
        = true
      ∧ (GetLayerBreakAddress (cdDrive (sampleToc 0 26) (some 0x2000000))
          (Reopen (cdDrive (sampleToc 0 26) (some 0x2000000)) closedSession).2).2.m_media_type
          = -1
      ∧ (GetLayerBreakAddress (cdDrive (sampleToc 0 26) (some 0x2000000))
          (Reopen (cdDrive (sampleToc 0 26) (some 0x2000000)) closedSession).2).2.m_layer_break
          = 0 :=
  have h := (layer_break_invariant (cdDrive (sampleToc 0 26) (some 0x2000000)) _
    (Reachable.getLayerBreakAddress (Reachable.fresh closedSession (by decide)))).1
    (by decide)
  ⟨by decide, by decide, h.2 (Or.inl (by decide))⟩

/-! ## Cooked sector reads -/

/-- C14 as amended. On a session that is not open `ReadSectors2048` returns -1
and issues nothing.  On an open session with a 32-bit start sector it first
positions the device at the byte offset `sector * 2048`, exactly; when the
positioning fails it returns -1 without reading; otherwise it requests one
linear read of `(2048 * count) mod 2 ^ 32` bytes, which is `2048 * count`
whenever `2048 * count < 2 ^ 32`.  It returns 0 exactly when the positioning
did not fail and the read succeeded with that many bytes, and -1 otherwise. -/
theorem ReadSectors2048_result (d : Drive) (s : IOCtlSrc) (sector count : Nat)
    (hsector : sector < 2 ^ 32) :
    (s.OpenOK = false → ReadSectors2048 d sector count s = (-1, s))
      ∧ (s.OpenOK = true →
          (∃ rest, (ReadSectors2048 d sector count s).2.trace
              = s.trace ++ DeviceOp.SetFilePointer (sector * 2048) :: rest)
            ∧ (((d.SetFilePointer (s.trace ++ [.SetFilePointer (sector * 2048)])).1 = 0xFFFFFFFF
                  ∧ (d.SetFilePointer (s.trace ++ [.SetFilePointer (sector * 2048)])).2 ≠ 0) →
                ReadSectors2048 d sector count s
                  = (-1, s.issue (.SetFilePointer (sector * 2048))))
            ∧ (¬((d.SetFilePointer (s.trace ++ [.SetFilePointer (sector * 2048)])).1
                    = 0xFFFFFFFF
                  ∧ (d.SetFilePointer (s.trace ++ [.SetFilePointer (sector * 2048)])).2 ≠ 0) →
                (ReadSectors2048 d sector count s).2.trace
                  = s.trace ++ [.SetFilePointer (sector * 2048),
                      .ReadFile ((2048 * count) % 2 ^ 32)])
            ∧ ((ReadSectors2048 d sector count s).1 = 0
                ↔ ¬((d.SetFilePointer (s.trace ++ [.SetFilePointer (sector * 2048)])).1
                      = 0xFFFFFFFF
                    ∧ (d.SetFilePointer (s.trace ++ [.SetFilePointer (sector * 2048)])).2 ≠ 0)
                  ∧ d.ReadFile (s.trace ++ [.SetFilePointer (sector * 2048),
                      .ReadFile ((2048 * count) % 2 ^ 32)]) = some ((2048 * count) % 2 ^ 32))
            ∧ ((ReadSectors2048 d sector count s).1 = 0
                ∨ (ReadSectors2048 d sector count s).1 = -1)
            ∧ (2048 * count < 2 ^ 32 → (2048 * count) % 2 ^ 32 = 2048 * count)) := by
  have hoff : sector * 2048 % 2 ^ 64 = sector * 2048 := by omega
  have hneg : ¬((-1 : Int) = 0) := by decide
  refine ⟨?_, ?_⟩
  · intro h
    simp only [ReadSectors2048, h, Bool.not_false, if_true]
  · intro h
    have hmod : 2048 * count < 2 ^ 32 → (2048 * count) % 2 ^ 32 = 2048 * count :=
      fun h => Nat.mod_eq_of_lt h
    by_cases hpos : (d.SetFilePointer (s.trace ++ [.SetFilePointer (sector * 2048)])).1
        = 0xFFFFFFFF
        ∧ (d.SetFilePointer (s.trace ++ [.SetFilePointer (sector * 2048)])).2 ≠ 0
    · have hrun : ReadSectors2048 d sector count s
          = (-1, s.issue (.SetFilePointer (sector * 2048))) := by
        simp only [ReadSectors2048, h, Bool.not_true, Bool.false_eq_true, if_false, hoff,
          IOCtlSrc.issue, hpos, ne_eq, not_false_eq_true, and_self, if_true]
      rw [hrun]
      refine ⟨⟨[], rfl⟩, fun _ => rfl, fun hn => absurd hpos hn, ?_, Or.inr rfl, hmod⟩
      constructor
      · intro h0
        exact absurd h0 hneg
      · intro h0
        exact absurd hpos h0.1
    · cases hread : d.ReadFile (s.trace ++ [.SetFilePointer (sector * 2048),
          .ReadFile ((2048 * count) % 2 ^ 32)]) with
      | none =>
        have hrun : ReadSectors2048 d sector count s
            = (-1, (s.issue (.SetFilePointer (sector * 2048))).issue
                (.ReadFile ((2048 * count) % 2 ^ 32))) := by
          simp only [ReadSectors2048, h, Bool.not_true, Bool.false_eq_true, if_false, hoff,
            IOCtlSrc.issue, hpos, List.append_assoc, List.singleton_append, hread]
        rw [hrun]
        refine ⟨⟨[DeviceOp.ReadFile ((2048 * count) % 2 ^ 32)], by simp [IOCtlSrc.issue]⟩,
          fun hp => absurd hp hpos, fun _ => by simp [IOCtlSrc.issue], ?_, Or.inr rfl, hmod⟩
        constructor
        · intro h0
          exact absurd h0 hneg
        · intro h0
          exact absurd h0.2 (by simp)
      | some size =>
        by_cases hsize : size = (2048 * count) % 2 ^ 32
        · have hrun : ReadSectors2048 d sector count s
              = (0, (s.issue (.SetFilePointer (sector * 2048))).issue
                  (.ReadFile ((2048 * count) % 2 ^ 32))) := by
            simp only [ReadSectors2048, h, Bool.not_true, Bool.false_eq_true, if_false, hoff,
              IOCtlSrc.issue, hpos, List.append_assoc, List.singleton_append, hread, hsize,
              ne_eq, not_true_eq_false]
          rw [hrun]
          refine ⟨⟨[DeviceOp.ReadFile ((2048 * count) % 2 ^ 32)], by simp [IOCtlSrc.issue]⟩,
            fun hp => absurd hp hpos, fun _ => by simp [IOCtlSrc.issue], ?_, Or.inl rfl, hmod⟩
          constructor
          · intro _
            exact ⟨hpos, by rw [hsize]⟩
          · intro _
            rfl
        · have hrun : ReadSectors2048 d sector count s
              = (-1, (s.issue (.SetFilePointer (sector * 2048))).issue
                  (.ReadFile ((2048 * count) % 2 ^ 32))) := by
            simp only [ReadSectors2048, h, Bool.not_true, Bool.false_eq_true, if_false, hoff,
              IOCtlSrc.issue, hpos, List.append_assoc, List.singleton_append, hread, hsize,
              ne_eq, not_false_eq_true, if_true]
          rw [hrun]
          refine ⟨⟨[DeviceOp.ReadFile ((2048 * count) % 2 ^ 32)], by simp [IOCtlSrc.issue]⟩,
            fun hp => absurd hp hpos, fun _ => by simp [IOCtlSrc.issue], ?_, Or.inr rfl, hmod⟩
          constructor
          · intro h0
            exact absurd h0 hneg
          · intro h0
            have hsome := h0.2
            simp only [Option.some.injEq] at hsome
            exact absurd hsome hsize

/-- C14 as amended, at a read of four sectors from sector 3 that returns 8192
bytes and at a session that is not open. -/
theorem ReadSectors2048_result_witness :
    ReadSectors2048 (readDrive (some 8192)) 3 4 closedSession = (-1, closedSession)
      ∧ (ReadSectors2048 (readDrive (some 8192)) 3 4 openSession).1 = 0
      ∧ (ReadSectors2048 (readDrive (some 8192)) 3 4 openSession).2.trace
          = [.SetFilePointer 6144, .ReadFile 8192] :=
  have h := ReadSectors2048_result (readDrive (some 8192)) openSession 3 4 (by decide)
  ⟨(ReadSectors2048_result (readDrive (some 8192)) closedSession 3 4 (by decide)).1 rfl,
   (h.2 rfl).2.2.2.1.2 ⟨by decide, rfl⟩,
   (h.2 rfl).2.2.1 (by decide)⟩

/-- C14 as stated fails. A read of `2 ^ 21` sectors requests
`(2048 * 2 ^ 21) mod 2 ^ 32 = 0` bytes and returns 0 when the read returns 0
bytes, not the `2048 * 2 ^ 21` bytes of the sectors. -/
theorem ReadSectors2048_result_counterexample :
    ReadSectors2048 (readDrive (some 0)) 0 2097152 openSession
        = (0, { openSession with trace := [.SetFilePointer 0, .ReadFile 0] })
      ∧ (0 : Nat) ≠ 2048 * 2097152 := by
  decide

/-! ## Bounds of the TOC loop and the dual-layer geometry -/

theorem track_count_le_iff (toc : CDROM_TOC) :
    track_count toc ≤ MAXIMUM_NUMBER_TRACKS
      ↔ 2 ≤ declaredLength toc ∧ declaredLength toc ≤ 809 := by
  constructor
  · intro h
    have h2 := two_le_of_track_count_le toc h
    rw [track_count_of_two_le toc h2] at h
    simp only [MAXIMUM_NUMBER_TRACKS, sizeof_TRACK_DATA] at h
    exact ⟨h2, by omega⟩
  · rintro ⟨h2, h809⟩
    rw [track_count_of_two_le toc h2]
    simp only [MAXIMUM_NUMBER_TRACKS, sizeof_TRACK_DATA]
    omega

theorem dual_layer_sum_cast (a b c e : Nat) :
    ((u32add (u32sub (u32add (u32add (u32sub a b) 1) c) e) 1 : Nat) : Int)
      = (((a : Int) - b + 1) + ((c : Int) - e + 1)) % 2 ^ 32 := by
  rw [u32add_cast, u32sub_cast, u32add_cast, u32add_cast, u32sub_cast]
  omega

/-- C18 fails on the code. The track count is not bounded by the 100 records
of `TrackData`: the declared length 818 gives 102, the declared length 65535
gives 8191, and the declared lengths 0 and 1, for which the subtraction of 2
is negative before the conversion to `size_t`, give 536870911.  With the
declared length 818 the loop of `ReadCDInfo` indexes `TrackData` at 100. -/
theorem track_count_exceeds_TrackData :
    track_count (sampleToc 3 50) = 102
      ∧ track_count (sampleToc 255 255) = 8191
      ∧ track_count (sampleToc 0 0) = 536870911
      ∧ track_count (sampleToc 0 1) = 536870911
      ∧ MAXIMUM_NUMBER_TRACKS < track_count (sampleToc 3 50)
      ∧ ReadCDInfo_loop (sampleToc 3 50) (track_count (sampleToc 3 50)) 0 [] = none
      ∧ (ReadCDInfo (cdDrive (sampleToc 3 50) (some 0)) openSession).1 = none := by
  refine ⟨by decide, by decide, by decide, by decide, by decide, ?_, ?_⟩
  · exact ReadCDInfo_loop_out_of_bounds (sampleToc 3 50) _ 0 [] (by decide) (by decide)
  · exact ReadCDInfo_toc_out_of_bounds _ _ (sampleToc 3 50) rfl (by decide)

/-- C19. On a dual-layer disc whose descriptor fields are well ordered and
whose sector total does not overflow 32 bits, the geometry `ReadDVDInfo`
computes has its layer break below the sector count, and the sector count
minus the layer break plus one is the number of sectors of layer 1:
`endSector1 - startSector1 + 1` for Parallel Track Path, and
`endSector - c + 1` with `c = ~endLayerZeroSector & 0xFFFFFF` for Opposite
Track Path. -/
theorem ReadDVDInfo_layer_break_lt (d : Drive) (s : IOCtlSrc) (session_id : Nat)
    (layer0 : DVD_LAYER_DESCRIPTOR)
    (hstart : d.DVD_START_SESSION (s.trace ++ [.DVD_START_SESSION]) = some session_id)
    (hread0 : d.DVD_READ_STRUCTURE
      (s.trace ++ [.DVD_START_SESSION, .DVD_READ_STRUCTURE session_id 0]) = some layer0)
    (hdual : layer0.NumberOfLayers ≠ 0) :
    (layer0.TrackPath = 0 →
        ∀ layer1 : DVD_LAYER_DESCRIPTOR,
          d.DVD_READ_STRUCTURE
            (s.trace ++ [.DVD_START_SESSION, .DVD_READ_STRUCTURE session_id 0,
              .DVD_READ_STRUCTURE session_id 1]) = some layer1 →
          layer0.StartingDataSector.bigEndian ≤ layer0.EndDataSector.bigEndian →
          layer1.StartingDataSector.bigEndian ≤ layer1.EndDataSector.bigEndian →
          (layer0.EndDataSector.bigEndian - layer0.StartingDataSector.bigEndian + 1)
              + (layer1.EndDataSector.bigEndian - layer1.StartingDataSector.bigEndian + 1)
            < 2 ^ 32 →
          (ReadDVDInfo d s).2.m_layer_break < (ReadDVDInfo d s).2.m_sectors
            ∧ (ReadDVDInfo d s).2.m_sectors - ((ReadDVDInfo d s).2.m_layer_break + 1)
                = layer1.EndDataSector.bigEndian - layer1.StartingDataSector.bigEndian + 1)
      ∧ (layer0.TrackPath ≠ 0 →
          layer0.StartingDataSector.bigEndian ≤ layer0.EndLayerZeroSector.bigEndian →
          layer0.EndLayerZeroSector.bigEndian < 2 ^ 24 →
          (u32not layer0.EndLayerZeroSector.bigEndian &&& 0xFFFFFF)
            ≤ layer0.EndDataSector.bigEndian →
          (layer0.EndLayerZeroSector.bigEndian - layer0.StartingDataSector.bigEndian + 1)
              + (layer0.EndDataSector.bigEndian
                  - (u32not layer0.EndLayerZeroSector.bigEndian &&& 0xFFFFFF) + 1)
            < 2 ^ 32 →
          (ReadDVDInfo d s).2.m_layer_break < (ReadDVDInfo d s).2.m_sectors
            ∧ (ReadDVDInfo d s).2.m_sectors - ((ReadDVDInfo d s).2.m_layer_break + 1)
                = layer0.EndDataSector.bigEndian
                    - (u32not layer0.EndLayerZeroSector.bigEndian &&& 0xFFFFFF) + 1) := by
  refine ⟨?_, ?_⟩
  · intro hptp layer1 hread1 ho0 ho1 hno
    have hrun : ReadDVDInfo d s
        = (true, ({ ((s.issue .DVD_START_SESSION).issue
              (.DVD_READ_STRUCTURE session_id 0)).issue (.DVD_READ_STRUCTURE session_id 1) with
            m_media_type := 1
            m_layer_break := u32sub layer0.EndDataSector.bigEndian
              layer0.StartingDataSector.bigEndian
            m_sectors := u32add (u32sub (u32add (u32add (u32sub layer0.EndDataSector.bigEndian
              layer0.StartingDataSector.bigEndian) 1) layer1.EndDataSector.bigEndian)
              layer1.StartingDataSector.bigEndian) 1 } : IOCtlSrc).issue
              (.DVD_END_SESSION session_id)) := by
      simp [ReadDVDInfo, ReadDVDInfo_layer, IOCtlSrc.issue, hstart, hread0, hread1, hdual, hptp,
        byteswap_load]
    rw [hrun]
    show u32sub _ _ < u32add _ _ ∧ u32add _ _ - (u32sub _ _ + 1) = _
    have hlb := u32sub_cast layer0.EndDataSector.bigEndian layer0.StartingDataSector.bigEndian
    have hsec := dual_layer_sum_cast layer0.EndDataSector.bigEndian
      layer0.StartingDataSector.bigEndian layer1.EndDataSector.bigEndian
      layer1.StartingDataSector.bigEndian
    omega
  · intro hotp ho0 h24 hoc hno
    have hrun : ReadDVDInfo d s
        = (true, ({ (s.issue .DVD_START_SESSION).issue (.DVD_READ_STRUCTURE session_id 0) with
            m_media_type := 2
            m_layer_break := u32sub layer0.EndLayerZeroSector.bigEndian
              layer0.StartingDataSector.bigEndian
            m_sectors := u32add (u32sub (u32add (u32add
              (u32sub layer0.EndLayerZeroSector.bigEndian
              layer0.StartingDataSector.bigEndian) 1) layer0.EndDataSector.bigEndian)
              (u32not layer0.EndLayerZeroSector.bigEndian &&& 0xFFFFFF)) 1 } : IOCtlSrc).issue
              (.DVD_END_SESSION session_id)) := by
      simp [ReadDVDInfo, ReadDVDInfo_layer, IOCtlSrc.issue, hstart, hread0, hdual, hotp,
        byteswap_load]
    rw [hrun]
    show u32sub _ _ < u32add _ _ ∧ u32add _ _ - (u32sub _ _ + 1) = _
    have hlb := u32sub_cast layer0.EndLayerZeroSector.bigEndian
      layer0.StartingDataSector.bigEndian
    have hsec := dual_layer_sum_cast layer0.EndLayerZeroSector.bigEndian
      layer0.StartingDataSector.bigEndian layer0.EndDataSector.bigEndian
      (u32not layer0.EndLayerZeroSector.bigEndian &&& 0xFFFFFF)
    omega

/-- C19, at the Parallel Track Path disc of C2 and the Opposite Track Path
disc of C3. -/
theorem ReadDVDInfo_layer_break_lt_witness :
    ((ReadDVDInfo (dvdDrive (mkLayer 0 1 0x30000 0x22FFFF 0)
          (some (mkLayer 0 1 0x30000 0x1FFFFF 0))) openSession).2.m_layer_break
        < (ReadDVDInfo (dvdDrive (mkLayer 0 1 0x30000 0x22FFFF 0)
          (some (mkLayer 0 1 0x30000 0x1FFFFF 0))) openSession).2.m_sectors)
      ∧ ((ReadDVDInfo (dvdDrive (mkLayer 1 1 0x30000 0xFCFFFF 0x20FFFF) none)
          openSession).2.m_layer_break
        < (ReadDVDInfo (dvdDrive (mkLayer 1 1 0x30000 0xFCFFFF 0x20FFFF) none)
          openSession).2.m_sectors) :=
  ⟨((ReadDVDInfo_layer_break_lt (dvdDrive (mkLayer 0 1 0x30000 0x22FFFF 0)
      (some (mkLayer 0 1 0x30000 0x1FFFFF 0))) openSession 7 (mkLayer 0 1 0x30000 0x22FFFF 0)
      rfl rfl (by decide)).1 rfl (mkLayer 0 1 0x30000 0x1FFFFF 0) rfl (by decide) (by decide)
      (by decide)).1,
   ((ReadDVDInfo_layer_break_lt (dvdDrive (mkLayer 1 1 0x30000 0xFCFFFF 0x20FFFF) none)
      openSession 7 (mkLayer 1 1 0x30000 0xFCFFFF 0x20FFFF) rfl rfl (by decide)).2 (by decide)
      (by decide) (by decide) (by decide) (by decide)).1⟩

/-! ## The CD geometry -/

theorem RefreshDiscInfo_after_failed_dvd (d : Drive) (s s1 : IOCtlSrc)
    (hnr : s.m_disc_ready = false) (hopen : s.OpenOK = true)
    (hdvd : ReadDVDInfo d { s with m_media_type := 0, m_layer_break := 0, m_sectors := 0 }
      = (false, s1)) :
    RefreshDiscInfo d s
      = match ReadCDInfo d s1 with
        | (none, s') => (none, s')
        | (some true, s') => (some true, { s' with m_disc_ready := true })
        | (some false, s') => (some false, s') := by
  rw [RefreshDiscInfo_not_ready d s hnr hopen, hdvd]
  simp only [Bool.false_eq_true, if_false]

theorem RefreshDiscInfo_out_of_bounds (d : Drive) (s s1 : IOCtlSrc) (toc : CDROM_TOC)
    (hnr : s.m_disc_ready = false) (hopen : s.OpenOK = true)
    (hdvd : ReadDVDInfo d { s with m_media_type := 0, m_layer_break := 0, m_sectors := 0 }
      = (false, s1))
    (htoc : d.CDROM_READ_TOC_EX (s1.trace ++ [.CDROM_READ_TOC_EX 0 0 1]) = some toc)
    (hcount : MAXIMUM_NUMBER_TRACKS < track_count toc) :
    (RefreshDiscInfo d s).1 = none := by
  have hnone := ReadCDInfo_toc_out_of_bounds d s1 toc htoc hcount
  rw [RefreshDiscInfo_after_failed_dvd d s s1 hnr hopen hdvd]
  cases hr : ReadCDInfo d s1 with
  | mk o s' =>
    rw [hr] at hnone
    simp only at hnone
    subst hnone
    rfl

/-- C13 as amended. Let the DVD probe of a refresh fail, leaving the state
`s1`.  When the TOC query succeeds with a TOC block that declares at most 100
records and the length query succeeds with the byte length `B`, the refresh
succeeds with media type -1, layer break 0 and sector count `B / 2048`, the
C++ quotient reduced modulo `2 ^ 32`, which is the floor of `B / 2048` for
`B ≥ 0`.  When the TOC query fails, or the TOC block declares at most 100
records and the length query fails, the CD probe and the refresh fail.  When
the TOC block declares more than 100 records the refresh does not complete. -/
theorem RefreshDiscInfo_cd_geometry (d : Drive) (s s1 : IOCtlSrc)
    (hnr : s.m_disc_ready = false) (hopen : s.OpenOK = true)
    (hdvd : ReadDVDInfo d { s with m_media_type := 0, m_layer_break := 0, m_sectors := 0 }
      = (false, s1)) :
    (∀ (toc : CDROM_TOC) (B : Int),
        d.CDROM_READ_TOC_EX (s1.trace ++ [.CDROM_READ_TOC_EX 0 0 1]) = some toc →
        track_count toc ≤ MAXIMUM_NUMBER_TRACKS →
        d.DISK_GET_LENGTH_INFO
          (s1.trace ++ [.CDROM_READ_TOC_EX 0 0 1, .DISK_GET_LENGTH_INFO]) = some B →
        (RefreshDiscInfo d s).1 = some true
          ∧ (RefreshDiscInfo d s).2.m_disc_ready = true
          ∧ (RefreshDiscInfo d s).2.m_media_type = -1
          ∧ (RefreshDiscInfo d s).2.m_layer_break = 0
          ∧ (RefreshDiscInfo d s).2.m_sectors = toU32 (Int.tdiv B 2048)
          ∧ (0 ≤ B → (((RefreshDiscInfo d s).2.m_sectors : Nat) : Int) = B / 2048 % 2 ^ 32))
      ∧ (d.CDROM_READ_TOC_EX (s1.trace ++ [.CDROM_READ_TOC_EX 0 0 1]) = none →
          (ReadCDInfo d s1).1 = some false ∧ (RefreshDiscInfo d s).1 = some false)
      ∧ (∀ toc : CDROM_TOC,
          d.CDROM_READ_TOC_EX (s1.trace ++ [.CDROM_READ_TOC_EX 0 0 1]) = some toc →
          track_count toc ≤ MAXIMUM_NUMBER_TRACKS →
          d.DISK_GET_LENGTH_INFO
            (s1.trace ++ [.CDROM_READ_TOC_EX 0 0 1, .DISK_GET_LENGTH_INFO]) = none →
          (ReadCDInfo d s1).1 = some false ∧ (RefreshDiscInfo d s).1 = some false)
      ∧ (∀ toc : CDROM_TOC,
          d.CDROM_READ_TOC_EX (s1.trace ++ [.CDROM_READ_TOC_EX 0 0 1]) = some toc →
          MAXIMUM_NUMBER_TRACKS < track_count toc →
          (RefreshDiscInfo d s).1 = none) := by
  have hd1 : (ReadDVDInfo d
      { s with m_media_type := 0, m_layer_break := 0, m_sectors := 0 }).1 = false := by
    rw [hdvd]
  have hfail := ReadDVDInfo_failure d _ hd1
  rw [hdvd] at hfail
  have hlb : s1.m_layer_break = 0 := hfail.2.1
  have hrun := RefreshDiscInfo_after_failed_dvd d s s1 hnr hopen hdvd
  refine ⟨?_, ?_, ?_, ?_⟩
  · intro toc B htoc hcount hlen
    have heq := ReadCDInfo_in_bounds_eq d s1 toc htoc hcount
    rw [hlen] at heq
    rw [hrun, heq]
    refine ⟨rfl, rfl, rfl, hlb, rfl, ?_⟩
    intro hB
    show ((toU32 (Int.tdiv B 2048) : Nat) : Int) = _
    rw [toU32_cast, Int.tdiv_eq_ediv hB (by norm_num)]
  · intro htoc
    have h : ReadCDInfo d s1
        = (some false, s1.issue (.CDROM_READ_TOC_EX 0 0 1)) := by
      unfold ReadCDInfo
      simp only [IOCtlSrc.issue, htoc]
    rw [hrun, h]
    exact ⟨rfl, rfl⟩
  · intro toc htoc hcount hlen
    have heq := ReadCDInfo_in_bounds_eq d s1 toc htoc hcount
    rw [hlen] at heq
    rw [hrun, heq]
    exact ⟨rfl, rfl⟩
  · intro toc htoc hcount
    exact RefreshDiscInfo_out_of_bounds d s s1 toc hnr hopen hdvd htoc hcount

/-- C13 as amended, at a CD of 0x2000000 bytes: 16384 sectors. -/
theorem RefreshDiscInfo_cd_geometry_witness :
    (RefreshDiscInfo (cdDrive (sampleToc 0 26) (some 0x2000000)) openSession).1 = some true
      ∧ (RefreshDiscInfo (cdDrive (sampleToc 0 26) (some 0x2000000))
          openSession).2.m_media_type = -1
      ∧ (RefreshDiscInfo (cdDrive (sampleToc 0 26) (some 0x2000000))
          openSession).2.m_layer_break = 0
      ∧ (RefreshDiscInfo (cdDrive (sampleToc 0 26) (some 0x2000000))
          openSession).2.m_sectors = 16384 :=
  have h := (RefreshDiscInfo_cd_geometry (cdDrive (sampleToc 0 26) (some 0x2000000))
    openSession (openSession.issue .DVD_START_SESSION) rfl rfl (by decide)).1
    (sampleToc 0 26) 0x2000000 rfl (by decide) rfl
  ⟨h.1, h.2.2.1, h.2.2.2.1, h.2.2.2.2.1.trans (by decide)⟩

/-- C13 as stated fails. On a drive whose DVD probe fails and which answers
the TOC query with a block of declared length 818 and the length query with
0x2000000 bytes, the refresh does not succeed: the TOC loop indexes
`TrackData` at 100 before the length query is reached.  And for the length
-1 the sector count is 0, the quotient rounded toward zero, not the floor
-1 reduced to 32 bits. -/
theorem RefreshDiscInfo_cd_geometry_counterexample :
    (ReadDVDInfo (cdDrive (sampleToc 3 50) (some 0x2000000)) openSession).1 = false
      ∧ ((cdDrive (sampleToc 3 50) (some 0x2000000)).CDROM_READ_TOC_EX
          [.DVD_START_SESSION, .CDROM_READ_TOC_EX 0 0 1]).isSome = true
      ∧ (cdDrive (sampleToc 3 50) (some 0x2000000)).DISK_GET_LENGTH_INFO
          [.DVD_START_SESSION, .CDROM_READ_TOC_EX 0 0 1, .DISK_GET_LENGTH_INFO]
          = some 0x2000000
      ∧ (RefreshDiscInfo (cdDrive (sampleToc 3 50) (some 0x2000000)) openSession).1 = none
      ∧ (RefreshDiscInfo (cdDrive (sampleToc 0 26) (some (-1))) openSession).1 = some true
      ∧ (RefreshDiscInfo (cdDrive (sampleToc 0 26) (some (-1))) openSession).2.m_sectors = 0
      ∧ ((-1 : Int) / 2048) % 2 ^ 32 = 4294967295 := by
  refine ⟨by decide, rfl, rfl, ?_, by decide, by decide, by decide⟩
  exact RefreshDiscInfo_out_of_bounds _ openSession (openSession.issue .DVD_START_SESSION)
    (sampleToc 3 50) rfl rfl (by decide) rfl (by decide)

/-! ## Repeated accessor calls -/

theorem RefreshDiscInfo_OpenOK (d : Drive) (s : IOCtlSrc) :
    (RefreshDiscInfo d s).2.OpenOK = s.OpenOK := by
  rcases Bool.eq_false_or_eq_true s.m_disc_ready with hr | hnr
  · rw [RefreshDiscInfo_ready d s hr]
  · rcases Bool.eq_false_or_eq_true s.OpenOK with hopen | hclosed
    · have hdvd := (ReadDVDInfo_frame d
        { s with m_media_type := 0, m_layer_break := 0, m_sectors := 0 }).2.1
      have hcd := (ReadCDInfo_frame d (ReadDVDInfo d
        { s with m_media_type := 0, m_layer_break := 0, m_sectors := 0 }).2).2.1
      rw [hdvd] at hcd
      rw [RefreshDiscInfo_not_ready d s hnr hopen]
      split
      · exact hdvd
      · split
        all_goals
          rename_i heq
          rw [heq] at hcd
          exact hcd
    · rw [RefreshDiscInfo_closed d s hnr hclosed]

theorem RefreshDiscInfo_failed_not_ready (d : Drive) (s : IOCtlSrc)
    (h : (RefreshDiscInfo d s).1 ≠ some true) :
    (RefreshDiscInfo d s).2.m_disc_ready = false := by
  rcases Bool.eq_false_or_eq_true s.m_disc_ready with hr | hnr
  · rw [RefreshDiscInfo_ready d s hr] at h
    exact absurd rfl h
  · rcases Bool.eq_false_or_eq_true s.OpenOK with hopen | hclosed
    · have hdvd := (ReadDVDInfo_frame d
        { s with m_media_type := 0, m_layer_break := 0, m_sectors := 0 }).1
      have hcd := (ReadCDInfo_frame d (ReadDVDInfo d
        { s with m_media_type := 0, m_layer_break := 0, m_sectors := 0 }).2).1
      rw [hdvd] at hcd
      rw [RefreshDiscInfo_not_ready d s hnr hopen] at h ⊢
      split at h
      · exact absurd rfl h
      · rename_i hfail
        rw [if_neg hfail]
        split at h
        · rename_i heq
          rw [heq] at hcd
          exact hcd.trans hnr
        · exact absurd rfl h
        · rename_i heq
          rw [heq] at hcd
          exact hcd.trans hnr
    · rw [RefreshDiscInfo_closed d s hnr hclosed]
      exact hnr

theorem GetSectorCount_OpenOK (d : Drive) (s : IOCtlSrc) :
    (GetSectorCount d s).2.OpenOK = s.OpenOK := by
  rcases Bool.eq_false_or_eq_true s.m_disc_ready with hr | hnr
  · rw [GetSectorCount_ready d s hr]
  · rw [GetSectorCount_not_ready d s hnr]
    exact RefreshDiscInfo_OpenOK d s

theorem GetMediaType_OpenOK (d : Drive) (s : IOCtlSrc) :
    (GetMediaType d s).2.OpenOK = s.OpenOK := by
  rcases Bool.eq_false_or_eq_true s.m_disc_ready with hr | hnr
  · rw [GetMediaType_ready d s hr]
  · rw [GetMediaType_not_ready d s hnr]
    exact RefreshDiscInfo_OpenOK d s

theorem ReadTOC_OpenOK (d : Drive) (s : IOCtlSrc) :
    (ReadTOC d s).2.OpenOK = s.OpenOK := by
  rcases Bool.eq_false_or_eq_true s.m_disc_ready with hr | hnr
  · rw [ReadTOC_ready d s hr]
  · rw [ReadTOC_not_ready d s hnr]
    exact RefreshDiscInfo_OpenOK d s

theorem GetLayerBreakAddress_OpenOK (d : Drive) (s : IOCtlSrc) :
    (GetLayerBreakAddress d s).2.OpenOK = s.OpenOK := by
  rcases Bool.eq_false_or_eq_true s.m_disc_ready with hr | hnr
  · rw [GetLayerBreakAddress_ready d s hr]
  · rw [GetLayerBreakAddress_not_ready d s hnr]
    split
    · exact RefreshDiscInfo_OpenOK d s
    · show (GetMediaType d (RefreshDiscInfo d s).2).2.OpenOK = _
      rw [GetMediaType_OpenOK, RefreshDiscInfo_OpenOK]

theorem RefreshDiscInfo_probe_sequence (d : Drive) (s : IOCtlSrc)
    (hnr : s.m_disc_ready = false) (hopen : s.OpenOK = true) :
    ∃ rest, (RefreshDiscInfo d s).2.trace = s.trace ++ DeviceOp.DVD_START_SESSION :: rest
      ∧ (DeviceOp.CDROM_READ_TOC_EX 0 0 1 ∈ rest
          ↔ (ReadDVDInfo d
              { s with m_media_type := 0, m_layer_break := 0, m_sectors := 0 }).1 = false) := by
  obtain ⟨rest, hrest, hno⟩ := ReadDVDInfo_issues d
    { s with m_media_type := 0, m_layer_break := 0, m_sectors := 0 }
  obtain ⟨rest2, hrest2⟩ := (ReadCDInfo_frame d (ReadDVDInfo d
    { s with m_media_type := 0, m_layer_break := 0, m_sectors := 0 }).2).2.2.2.2
  rw [hrest] at hrest2
  rw [RefreshDiscInfo_not_ready d s hnr hopen]
  rcases Bool.eq_false_or_eq_true (ReadDVDInfo d
      { s with m_media_type := 0, m_layer_break := 0, m_sectors := 0 }).1 with hdvd | hdvd
  · rw [if_pos hdvd]
    refine ⟨rest, hrest, ?_⟩
    rw [hdvd]
    simp only [hno, Bool.true_eq_false]
  · rw [if_neg (by rw [hdvd]; decide)]
    refine ⟨rest ++ DeviceOp.CDROM_READ_TOC_EX 0 0 1 :: rest2, ?_, ?_⟩
    · split
      all_goals
        rename_i heq
        rw [heq] at hrest2
        simpa [List.append_assoc] using hrest2
    · simp only [List.mem_append, List.mem_cons, true_or, or_true, true_iff]
      exact hdvd

theorem GetSectorCount_probes (d : Drive) (s : IOCtlSrc)
    (hnr : s.m_disc_ready = false) (hopen : s.OpenOK = true) :
    ∃ rest, (GetSectorCount d s).2.trace = s.trace ++ DeviceOp.DVD_START_SESSION :: rest
      ∧ (DeviceOp.CDROM_READ_TOC_EX 0 0 1 ∈ rest
          ↔ (ReadDVDInfo d
              { s with m_media_type := 0, m_layer_break := 0, m_sectors := 0 }).1 = false) := by
  rw [GetSectorCount_not_ready d s hnr]
  exact RefreshDiscInfo_probe_sequence d s hnr hopen

theorem GetMediaType_probes (d : Drive) (s : IOCtlSrc)
    (hnr : s.m_disc_ready = false) (hopen : s.OpenOK = true) :
    ∃ rest, (GetMediaType d s).2.trace = s.trace ++ DeviceOp.DVD_START_SESSION :: rest
      ∧ (DeviceOp.CDROM_READ_TOC_EX 0 0 1 ∈ rest
          ↔ (ReadDVDInfo d
              { s with m_media_type := 0, m_layer_break := 0, m_sectors := 0 }).1 = false) := by
  rw [GetMediaType_not_ready d s hnr]
  exact RefreshDiscInfo_probe_sequence d s hnr hopen

theorem ReadTOC_probes (d : Drive) (s : IOCtlSrc)
    (hnr : s.m_disc_ready = false) (hopen : s.OpenOK = true) :
    ∃ rest, (ReadTOC d s).2.trace = s.trace ++ DeviceOp.DVD_START_SESSION :: rest
      ∧ (DeviceOp.CDROM_READ_TOC_EX 0 0 1 ∈ rest
          ↔ (ReadDVDInfo d
              { s with m_media_type := 0, m_layer_break := 0, m_sectors := 0 }).1 = false) := by
  rw [ReadTOC_not_ready d s hnr]
  exact RefreshDiscInfo_probe_sequence d s hnr hopen

theorem GetLayerBreakAddress_probes (d : Drive) (s : IOCtlSrc)
    (hnr : s.m_disc_ready = false) (hopen : s.OpenOK = true) :
    ∃ rest, (GetLayerBreakAddress d s).2.trace
        = s.trace ++ DeviceOp.DVD_START_SESSION :: rest
      ∧ (DeviceOp.CDROM_READ_TOC_EX 0 0 1 ∈ rest
          ↔ (ReadDVDInfo d
              { s with m_media_type := 0, m_layer_break := 0, m_sectors := 0 }).1 = false) := by
  obtain ⟨rest, hrest, hiff⟩ := RefreshDiscInfo_probe_sequence d s hnr hopen
  rw [GetLayerBreakAddress_not_ready d s hnr]
  split
  · exact ⟨rest, hrest, hiff⟩
  · rcases Bool.eq_false_or_eq_true (ReadDVDInfo d
        { s with m_media_type := 0, m_layer_break := 0, m_sectors := 0 }).1 with hdvd | hdvd
    · have hrun : RefreshDiscInfo d s = (some true, { (ReadDVDInfo d
          { s with m_media_type := 0, m_layer_break := 0, m_sectors := 0 }).2 with
          m_disc_ready := true }) := by
        rw [RefreshDiscInfo_not_ready d s hnr hopen, if_pos hdvd]
      have hready : (RefreshDiscInfo d s).2.m_disc_ready = true := by rw [hrun]
      refine ⟨rest, ?_, hiff⟩
      show (GetMediaType d (RefreshDiscInfo d s).2).2.trace = _
      rw [GetMediaType_ready d _ hready]
      exact hrest
    · obtain ⟨rest2, h2⟩ := GetMediaType_extends d (RefreshDiscInfo d s).2
      refine ⟨rest ++ rest2, ?_, ?_⟩
      · show (GetMediaType d (RefreshDiscInfo d s).2).2.trace = _
        rw [h2, hrest]
        simp only [List.append_assoc, List.cons_append]
      · rw [List.mem_append]
        exact ⟨fun _ => hdvd, fun h => Or.inl (hiff.2 h)⟩

/-- C6 as amended. A ready cache answers every geometry accessor with the
cached value, leaving the state and the list of issued operations unchanged.
So when a call of an accessor leaves the cache ready (it was ready, or the
probe succeeded), calling the accessor again returns the identical result and
issues no device operation; a `DiscChanged` in between that does not return 1
changes none of the answers.  On a session that is not open the accessors
issue no device operation at all and repeat their results.  A refresh that
does not succeed leaves the cache not ready, and so does the accessor that
started it (`GetLayerBreakAddress`, which goes on to call `GetMediaType`,
when the refresh of that call does not succeed either); and whenever a call
of an accessor on an open session leaves the cache not ready, the next call
of that accessor probes again: the operations it issues start with the DVD
session start. -/
theorem accessors_idempotent_when_ready (d : Drive) (s : IOCtlSrc) :
    (s.m_disc_ready = true →
        GetSectorCount d s = (some s.m_sectors, s)
          ∧ GetMediaType d s = (some s.m_media_type, s)
          ∧ GetLayerBreakAddress d s
              = (some (if s.m_media_type < 0 then 0 else s.m_layer_break), s)
          ∧ ReadTOC d s = (some s.m_toc, s))
      ∧ ((GetSectorCount d s).2.m_disc_ready = true →
          GetSectorCount d (GetSectorCount d s).2 = GetSectorCount d s)
      ∧ ((GetMediaType d s).2.m_disc_ready = true →
          GetMediaType d (GetMediaType d s).2 = GetMediaType d s)
      ∧ ((GetLayerBreakAddress d s).2.m_disc_ready = true →
          GetLayerBreakAddress d (GetLayerBreakAddress d s).2 = GetLayerBreakAddress d s)
      ∧ ((ReadTOC d s).2.m_disc_ready = true →
          ReadTOC d (ReadTOC d s).2 = ReadTOC d s)
      ∧ (s.m_disc_ready = true → (DiscChanged d s).1 ≠ 1 →
          GetSectorCount d (DiscChanged d s).2 = (some s.m_sectors, (DiscChanged d s).2)
            ∧ GetMediaType d (DiscChanged d s).2 = (some s.m_media_type, (DiscChanged d s).2)
            ∧ GetLayerBreakAddress d (DiscChanged d s).2
                = (some (if s.m_media_type < 0 then 0 else s.m_layer_break),
                    (DiscChanged d s).2)
            ∧ ReadTOC d (DiscChanged d s).2 = (some s.m_toc, (DiscChanged d s).2))
      ∧ (s.OpenOK = false →
          (GetSectorCount d (GetSectorCount d s).2 = GetSectorCount d s
              ∧ (GetSectorCount d s).2.trace = s.trace)
            ∧ (GetMediaType d (GetMediaType d s).2 = GetMediaType d s
              ∧ (GetMediaType d s).2.trace = s.trace)
            ∧ (GetLayerBreakAddress d (GetLayerBreakAddress d s).2 = GetLayerBreakAddress d s
              ∧ (GetLayerBreakAddress d s).2.trace = s.trace)
            ∧ (ReadTOC d (ReadTOC d s).2 = ReadTOC d s
              ∧ (ReadTOC d s).2.trace = s.trace))
      ∧ (s.m_disc_ready = false → (RefreshDiscInfo d s).1 ≠ some true →
          (RefreshDiscInfo d s).2.m_disc_ready = false
            ∧ (GetSectorCount d s).2.m_disc_ready = false
            ∧ (GetMediaType d s).2.m_disc_ready = false
            ∧ (ReadTOC d s).2.m_disc_ready = false
            ∧ ((RefreshDiscInfo d (RefreshDiscInfo d s).2).1 ≠ some true →
                (GetLayerBreakAddress d s).2.m_disc_ready = false))
      ∧ (s.OpenOK = true →
          ((GetSectorCount d s).2.m_disc_ready = false →
              ∃ rest, (GetSectorCount d (GetSectorCount d s).2).2.trace
                = (GetSectorCount d s).2.trace ++ DeviceOp.DVD_START_SESSION :: rest)
            ∧ ((GetMediaType d s).2.m_disc_ready = false →
              ∃ rest, (GetMediaType d (GetMediaType d s).2).2.trace
                = (GetMediaType d s).2.trace ++ DeviceOp.DVD_START_SESSION :: rest)
            ∧ ((GetLayerBreakAddress d s).2.m_disc_ready = false →
              ∃ rest, (GetLayerBreakAddress d (GetLayerBreakAddress d s).2).2.trace
                = (GetLayerBreakAddress d s).2.trace ++ DeviceOp.DVD_START_SESSION :: rest)
            ∧ ((ReadTOC d s).2.m_disc_ready = false →
              ∃ rest, (ReadTOC d (ReadTOC d s).2).2.trace
                = (ReadTOC d s).2.trace ++ DeviceOp.DVD_START_SESSION :: rest)) := by
  refine ⟨?_, ?_, ?_, ?_, ?_, ?_, ?_, ?_, ?_⟩
  · intro h
    exact ⟨GetSectorCount_ready d s h, GetMediaType_ready d s h,
      GetLayerBreakAddress_ready d s h, ReadTOC_ready d s h⟩
  · intro h
    rw [GetSectorCount_ready d _ h]
    exact (GetSectorCount_stable d s h).symm
  · intro h
    rw [GetMediaType_ready d _ h]
    exact (GetMediaType_stable d s h).symm
  · intro h
    rw [GetLayerBreakAddress_ready d _ h]
    exact (GetLayerBreakAddress_stable d s h).symm
  · intro h
    rw [ReadTOC_ready d _ h]
    exact (ReadTOC_stable d s h).symm
  · intro h hc
    obtain ⟨h1, h2, h3, h4, h5⟩ := DiscChanged_unchanged d s hc
    have hr : (DiscChanged d s).2.m_disc_ready = true := by rw [h1]; exact h
    rw [GetSectorCount_ready d _ hr, GetMediaType_ready d _ hr,
      GetLayerBreakAddress_ready d _ hr, ReadTOC_ready d _ hr, h2, h3, h4, h5]
    exact ⟨rfl, rfl, rfl, rfl⟩
  · intro hclosed
    rcases Bool.eq_false_or_eq_true s.m_disc_ready with hr | hnr
    · rw [GetSectorCount_ready d s hr, GetMediaType_ready d s hr,
        GetLayerBreakAddress_ready d s hr, ReadTOC_ready d s hr]
      simp only [GetSectorCount_ready d s hr, GetMediaType_ready d s hr,
        GetLayerBreakAddress_ready d s hr, ReadTOC_ready d s hr, and_self]
    · rw [GetSectorCount_closed d s hnr hclosed, GetMediaType_closed d s hnr hclosed,
        GetLayerBreakAddress_closed d s hnr hclosed, ReadTOC_closed d s hnr hclosed]
      simp only
      rw [GetSectorCount_closed d
          { s with m_media_type := 0, m_layer_break := 0, m_sectors := 0 } hnr hclosed,
        GetMediaType_closed d
          { s with m_media_type := 0, m_layer_break := 0, m_sectors := 0 } hnr hclosed,
        GetLayerBreakAddress_closed d
          { s with m_media_type := 0, m_layer_break := 0, m_sectors := 0 } hnr hclosed,
        ReadTOC_closed d
          { s with m_media_type := 0, m_layer_break := 0, m_sectors := 0 } hnr hclosed]
      exact ⟨⟨rfl, trivial⟩, ⟨rfl, trivial⟩, ⟨rfl, trivial⟩, ⟨rfl, trivial⟩⟩
  · intro hnr hfail
    have hnr1 := RefreshDiscInfo_failed_not_ready d s hfail
    refine ⟨hnr1, ?_, ?_, ?_, ?_⟩
    · rw [GetSectorCount_not_ready d s hnr]; exact hnr1
    · rw [GetMediaType_not_ready d s hnr]; exact hnr1
    · rw [ReadTOC_not_ready d s hnr]; exact hnr1
    · intro hfail2
      rw [GetLayerBreakAddress_not_ready d s hnr]
      split
      · exact hnr1
      · show (GetMediaType d (RefreshDiscInfo d s).2).2.m_disc_ready = false
        rw [GetMediaType_not_ready d _ hnr1]
        exact RefreshDiscInfo_failed_not_ready d _ hfail2
  · intro hopen
    refine ⟨?_, ?_, ?_, ?_⟩
    · intro hnr
      obtain ⟨rest, h, _⟩ := GetSectorCount_probes d (GetSectorCount d s).2 hnr
        (by rw [GetSectorCount_OpenOK]; exact hopen)
      exact ⟨rest, h⟩
    · intro hnr
      obtain ⟨rest, h, _⟩ := GetMediaType_probes d (GetMediaType d s).2 hnr
        (by rw [GetMediaType_OpenOK]; exact hopen)
      exact ⟨rest, h⟩
    · intro hnr
      obtain ⟨rest, h, _⟩ := GetLayerBreakAddress_probes d (GetLayerBreakAddress d s).2 hnr
        (by rw [GetLayerBreakAddress_OpenOK]; exact hopen)
      exact ⟨rest, h⟩
    · intro hnr
      obtain ⟨rest, h, _⟩ := ReadTOC_probes d (ReadTOC d s).2 hnr
        (by rw [ReadTOC_OpenOK]; exact hopen)
      exact ⟨rest, h⟩

/-- C6 as amended, at the single-layer DVD of C1: the first call probes and
leaves the cache ready, the second call repeats its result without any device
operation.  On `flakyDrive` the first call leaves the cache not ready and the
second call starts with a DVD session start. -/
theorem accessors_idempotent_when_ready_witness :
    (GetSectorCount (dvdDrive (mkLayer 0 0 0x30000 0x180000 0) none) openSession).1
        = some 0x150001
      ∧ GetSectorCount (dvdDrive (mkLayer 0 0 0x30000 0x180000 0) none)
          (GetSectorCount (dvdDrive (mkLayer 0 0 0x30000 0x180000 0) none) openSession).2
        = GetSectorCount (dvdDrive (mkLayer 0 0 0x30000 0x180000 0) none) openSession
      ∧ GetLayerBreakAddress (dvdDrive (mkLayer 0 0 0x30000 0x180000 0) none)
          (GetLayerBreakAddress (dvdDrive (mkLayer 0 0 0x30000 0x180000 0) none) openSession).2
        = GetLayerBreakAddress (dvdDrive (mkLayer 0 0 0x30000 0x180000 0) none) openSession
      ∧ (GetSectorCount flakyDrive openSession).2.m_disc_ready = false
      ∧ (∃ rest, (GetSectorCount flakyDrive (GetSectorCount flakyDrive openSession).2).2.trace
          = (GetSectorCount flakyDrive openSession).2.trace
            ++ DeviceOp.DVD_START_SESSION :: rest) :=
  ⟨by decide,
   (accessors_idempotent_when_ready (dvdDrive (mkLayer 0 0 0x30000 0x180000 0) none)
      openSession).2.1 (by decide),
   (accessors_idempotent_when_ready (dvdDrive (mkLayer 0 0 0x30000 0x180000 0) none)
      openSession).2.2.2.1 (by decide),
   ((accessors_idempotent_when_ready flakyDrive openSession).2.2.2.2.2.2.2.1 rfl
      (by decide)).2.1,
   ((accessors_idempotent_when_ready flakyDrive openSession).2.2.2.2.2.2.2.2 rfl).1
      (by decide)⟩

/-- C6 as stated fails. On `flakyDrive` the first `GetSectorCount` probes,
fails and returns 0 with the cache left not ready; the second call, with no
`DiscChanged` in between, probes again (it issues three more operations) and
returns `0x150001`. -/
theorem accessors_idempotent_counterexample :
    (GetSectorCount flakyDrive openSession).1 = some 0
      ∧ (GetSectorCount flakyDrive (GetSectorCount flakyDrive openSession).2).1
          = some 0x150001
      ∧ (GetSectorCount flakyDrive openSession).2.trace
          = [.DVD_START_SESSION, .CDROM_READ_TOC_EX 0 0 1]
      ∧ (GetSectorCount flakyDrive (GetSectorCount flakyDrive openSession).2).2.trace
          = [.DVD_START_SESSION, .CDROM_READ_TOC_EX 0 0 1, .DVD_START_SESSION,
              .DVD_READ_STRUCTURE 7 0, .DVD_END_SESSION 7] := by
  decide

/-! ## The accessors after a disc change -/

theorem RefreshDiscInfo_dvd_success (d : Drive) (s : IOCtlSrc)
    (hnr : s.m_disc_ready = false) (hopen : s.OpenOK = true)
    (hdvd : (ReadDVDInfo d
      { s with m_media_type := 0, m_layer_break := 0, m_sectors := 0 }).1 = true) :
    RefreshDiscInfo d s
      = (some true, { (ReadDVDInfo d
          { s with m_media_type := 0, m_layer_break := 0, m_sectors := 0 }).2 with
          m_disc_ready := true }) := by
  rw [RefreshDiscInfo_not_ready d s hnr hopen, if_pos hdvd]

theorem RefreshDiscInfo_false_zero (d : Drive) (s : IOCtlSrc)
    (hnr : s.m_disc_ready = false) (h : (RefreshDiscInfo d s).1 = some false) :
    (RefreshDiscInfo d s).2.m_sectors = 0 ∧ (RefreshDiscInfo d s).2.m_media_type = 0
      ∧ (RefreshDiscInfo d s).2.m_layer_break = 0 := by
  rcases Bool.eq_false_or_eq_true s.OpenOK with hopen | hclosed
  · rcases Bool.eq_false_or_eq_true (ReadDVDInfo d
        { s with m_media_type := 0, m_layer_break := 0, m_sectors := 0 }).1 with hdvd | hdvd
    · rw [RefreshDiscInfo_dvd_success d s hnr hopen hdvd] at h
      exact absurd h (by simp)
    · have hfail := ReadDVDInfo_failure d _ hdvd
      have hf := ReadCDInfo_failure d (ReadDVDInfo d
        { s with m_media_type := 0, m_layer_break := 0, m_sectors := 0 }).2
      have hframe := (ReadCDInfo_frame d (ReadDVDInfo d
        { s with m_media_type := 0, m_layer_break := 0, m_sectors := 0 }).2).2.2.2.1
      have hrun := RefreshDiscInfo_after_failed_dvd d s (ReadDVDInfo d
        { s with m_media_type := 0, m_layer_break := 0, m_sectors := 0 }).2 hnr hopen
        (Prod.ext hdvd rfl)
      rw [hrun] at h ⊢
      cases hr : ReadCDInfo d (ReadDVDInfo d
          { s with m_media_type := 0, m_layer_break := 0, m_sectors := 0 }).2 with
      | mk o s' =>
        rw [hr] at h hf hframe
        cases o with
        | none => exact absurd h (by simp)
        | some b =>
          cases b with
          | true => exact absurd h (by simp)
          | false =>
            have hf2 := hf rfl
            refine ⟨?_, ?_, ?_⟩
            · show s'.m_sectors = 0
              rw [hf2.2, hfail.2.2]
            · show s'.m_media_type = 0
              rw [hf2.1, hfail.1]
            · show s'.m_layer_break = 0
              rw [hframe, hfail.2.1]
  · rw [RefreshDiscInfo_closed d s hnr hclosed]
    exact ⟨rfl, rfl, rfl⟩

theorem GetLayerBreakAddress_of_refresh (d : Drive) (s s' : IOCtlSrc)
    (hnr : s.m_disc_ready = false) (h : RefreshDiscInfo d s = (some true, s'))
    (hready : s'.m_disc_ready = true) :
    GetLayerBreakAddress d s
      = (some (if s'.m_media_type < 0 then 0 else s'.m_layer_break), s') := by
  rw [GetLayerBreakAddress_not_ready d s hnr, h]
  simp only [reduceCtorEq, if_false]
  rw [GetMediaType_ready d s' hready]
  rfl

/-- C7 as amended. After `DiscChanged` returns 1 on an open session the cache
is not ready although the old sector count, layer break and media type are
still stored.  The next call of any accessor probes the device again: the
operations it issues start with the DVD session start, and the TOC query of
the CD probe is among them exactly when the DVD probe failed.  When the DVD
probe succeeded, `GetSectorCount`, `GetMediaType` and `GetLayerBreakAddress`
return the numbers that probe computed; when it failed and the TOC query was
answered with a block that declares at most 100 records, `ReadTOC` returns
the tracks of that block, and with the length query answered with `B` the
three numbers are `B / 2048` (reduced modulo `2 ^ 32`), -1 and 0; when the
refresh failed, sector count and media type are 0, and
`GetLayerBreakAddress`, which goes on to call `GetMediaType` and so to
refresh once more, returns 0 when that refresh failed too and the layer break
of that refresh (0 for a CD) when it succeeded.  No accessor's result or
final state depends on the sector count, layer break and media type stored
before the change. -/
theorem accessors_reprobe_after_DiscChanged (d : Drive) (s s1 : IOCtlSrc)
    (hopen : s.OpenOK = true) (hchg : DiscChanged d s = (1, s1)) :
    s1.m_disc_ready = false
      ∧ (s1.m_sectors = s.m_sectors ∧ s1.m_layer_break = s.m_layer_break
          ∧ s1.m_media_type = s.m_media_type)
      ∧ (∃ rest, (GetSectorCount d s1).2.trace
            = s1.trace ++ DeviceOp.DVD_START_SESSION :: rest
          ∧ (DeviceOp.CDROM_READ_TOC_EX 0 0 1 ∈ rest
              ↔ (ReadDVDInfo d
                  { s1 with m_media_type := 0, m_layer_break := 0, m_sectors := 0 }).1
                  = false))
      ∧ (∃ rest, (GetMediaType d s1).2.trace
            = s1.trace ++ DeviceOp.DVD_START_SESSION :: rest
          ∧ (DeviceOp.CDROM_READ_TOC_EX 0 0 1 ∈ rest
              ↔ (ReadDVDInfo d
                  { s1 with m_media_type := 0, m_layer_break := 0, m_sectors := 0 }).1
                  = false))
      ∧ (∃ rest, (GetLayerBreakAddress d s1).2.trace
            = s1.trace ++ DeviceOp.DVD_START_SESSION :: rest
          ∧ (DeviceOp.CDROM_READ_TOC_EX 0 0 1 ∈ rest
              ↔ (ReadDVDInfo d
                  { s1 with m_media_type := 0, m_layer_break := 0, m_sectors := 0 }).1
                  = false))
      ∧ (∃ rest, (ReadTOC d s1).2.trace
            = s1.trace ++ DeviceOp.DVD_START_SESSION :: rest
          ∧ (DeviceOp.CDROM_READ_TOC_EX 0 0 1 ∈ rest
              ↔ (ReadDVDInfo d
                  { s1 with m_media_type := 0, m_layer_break := 0, m_sectors := 0 }).1
                  = false))
      ∧ ((ReadDVDInfo d
            { s1 with m_media_type := 0, m_layer_break := 0, m_sectors := 0 }).1 = true →
          (GetSectorCount d s1).1 = some (ReadDVDInfo d
              { s1 with m_media_type := 0, m_layer_break := 0, m_sectors := 0 }).2.m_sectors
            ∧ (GetMediaType d s1).1 = some (ReadDVDInfo d
              { s1 with m_media_type := 0, m_layer_break := 0, m_sectors := 0 }).2.m_media_type
            ∧ (GetLayerBreakAddress d s1).1 = some (ReadDVDInfo d
              { s1 with m_media_type := 0, m_layer_break := 0, m_sectors := 0 }).2.m_layer_break)
      ∧ ((ReadDVDInfo d
            { s1 with m_media_type := 0, m_layer_break := 0, m_sectors := 0 }).1 = false →
          ∀ toc : CDROM_TOC,
            d.CDROM_READ_TOC_EX ((ReadDVDInfo d
                { s1 with m_media_type := 0, m_layer_break := 0, m_sectors := 0 }).2.trace
                ++ [.CDROM_READ_TOC_EX 0 0 1]) = some toc →
            track_count toc ≤ MAXIMUM_NUMBER_TRACKS →
            (ReadTOC d s1).1 = some (specToc toc)
              ∧ ∀ B : Int,
                  d.DISK_GET_LENGTH_INFO ((ReadDVDInfo d
                    { s1 with m_media_type := 0, m_layer_break := 0, m_sectors := 0 }).2.trace
                      ++ [.CDROM_READ_TOC_EX 0 0 1, .DISK_GET_LENGTH_INFO]) = some B →
                  (GetSectorCount d s1).1 = some (toU32 (Int.tdiv B 2048))
                    ∧ (GetMediaType d s1).1 = some (-1)
                    ∧ (GetLayerBreakAddress d s1).1 = some 0)
      ∧ ((RefreshDiscInfo d s1).1 = some false →
          (GetSectorCount d s1).1 = some 0 ∧ (GetMediaType d s1).1 = some 0
            ∧ ((RefreshDiscInfo d (RefreshDiscInfo d s1).2).1 = some false →
                (GetLayerBreakAddress d s1).1 = some 0)
            ∧ (∀ s2 : IOCtlSrc,
                RefreshDiscInfo d (RefreshDiscInfo d s1).2 = (some true, s2) →
                (GetLayerBreakAddress d s1).1
                  = some (if s2.m_media_type < 0 then 0 else s2.m_layer_break)))
      ∧ (∀ (m : Int) (l n : Nat),
          GetSectorCount d { s1 with m_media_type := m, m_layer_break := l, m_sectors := n }
              = GetSectorCount d s1
            ∧ GetMediaType d { s1 with m_media_type := m, m_layer_break := l, m_sectors := n }
              = GetMediaType d s1
            ∧ ReadTOC d { s1 with m_media_type := m, m_layer_break := l, m_sectors := n }
              = ReadTOC d s1
            ∧ GetLayerBreakAddress d
                { s1 with m_media_type := m, m_layer_break := l, m_sectors := n }
              = GetLayerBreakAddress d s1) := by
  obtain ⟨_, hs1⟩ := DiscChanged_changed d s s1 hchg
  have hnr : s1.m_disc_ready = false := by rw [hs1]
  have ho : s1.OpenOK = true := by rw [hs1]; exact hopen
  refine ⟨hnr, ⟨by rw [hs1]; rfl, by rw [hs1]; rfl, by rw [hs1]; rfl⟩,
    GetSectorCount_probes d s1 hnr ho, GetMediaType_probes d s1 hnr ho,
    GetLayerBreakAddress_probes d s1 hnr ho, ReadTOC_probes d s1 hnr ho, ?_, ?_, ?_, ?_⟩
  · intro hdvd
    have hrun := RefreshDiscInfo_dvd_success d s1 hnr ho hdvd
    refine ⟨?_, ?_, ?_⟩
    · rw [GetSectorCount_not_ready d s1 hnr, hrun]; rfl
    · rw [GetMediaType_not_ready d s1 hnr, hrun]; rfl
    · rw [GetLayerBreakAddress_of_refresh d s1 _ hnr hrun rfl]
      show some (if (ReadDVDInfo d
        { s1 with m_media_type := 0, m_layer_break := 0, m_sectors := 0 }).2.m_media_type < 0
        then 0 else (ReadDVDInfo d
        { s1 with m_media_type := 0, m_layer_break := 0, m_sectors := 0 }).2.m_layer_break)
        = _
      rcases ReadDVDInfo_success d _ hdvd with ⟨h0, _⟩ | h1 | h2
      · rw [h0]; rfl
      · rw [h1]; rfl
      · rw [h2]; rfl
  · intro hdvd toc htoc hcount
    have hrun := RefreshDiscInfo_after_failed_dvd d s1 (ReadDVDInfo d
      { s1 with m_media_type := 0, m_layer_break := 0, m_sectors := 0 }).2 hnr ho
      (Prod.ext hdvd rfl)
    have heq := ReadCDInfo_in_bounds_eq d _ toc htoc hcount
    refine ⟨?_, ?_⟩
    · rw [ReadTOC_not_ready d s1 hnr, hrun, heq]
      cases d.DISK_GET_LENGTH_INFO ((ReadDVDInfo d
        { s1 with m_media_type := 0, m_layer_break := 0, m_sectors := 0 }).2.trace
        ++ [.CDROM_READ_TOC_EX 0 0 1, .DISK_GET_LENGTH_INFO]) <;> rfl
    · intro B hlen
      rw [hlen] at heq
      rw [heq] at hrun
      refine ⟨?_, ?_, ?_⟩
      · rw [GetSectorCount_not_ready d s1 hnr, hrun]; rfl
      · rw [GetMediaType_not_ready d s1 hnr, hrun]; rfl
      · rw [GetLayerBreakAddress_of_refresh d s1 _ hnr hrun rfl]
        rfl
  · intro hfalse
    obtain ⟨h1, h2, _⟩ := RefreshDiscInfo_false_zero d s1 hnr hfalse
    have hnr1 : (RefreshDiscInfo d s1).2.m_disc_ready = false :=
      RefreshDiscInfo_failed_not_ready d s1 (by rw [hfalse]; decide)
    refine ⟨?_, ?_, ?_, ?_⟩
    · rw [GetSectorCount_not_ready d s1 hnr, hfalse, h1]; rfl
    · rw [GetMediaType_not_ready d s1 hnr, hfalse, h2]; rfl
    · intro hfalse2
      obtain ⟨_, h4, h5⟩ := RefreshDiscInfo_false_zero d _ hnr1 hfalse2
      rw [GetLayerBreakAddress_not_ready d s1 hnr, hfalse]
      simp only [reduceCtorEq, if_false]
      rw [GetMediaType_not_ready d _ hnr1, hfalse2, h4, h5]
      rfl
    · intro s2 hs2
      rw [GetLayerBreakAddress_not_ready d s1 hnr, hfalse]
      simp only [reduceCtorEq, if_false]
      rw [GetMediaType_not_ready d _ hnr1, hs2]
      rfl
  · intro m l n
    refine ⟨?_, ?_, ?_, ?_⟩
    · rw [GetSectorCount, GetSectorCount, refreshIfNotReady_independent d s1 hnr]
    · rw [GetMediaType, GetMediaType, refreshIfNotReady_independent d s1 hnr]
    · rw [ReadTOC, ReadTOC, refreshIfNotReady_independent d s1 hnr]
    · rw [GetLayerBreakAddress, GetLayerBreakAddress, refreshIfNotReady_independent d s1 hnr]

/-- C7 as amended, at a session holding the geometry of a CD whose disc is
replaced by the single-layer DVD of C1: the next `GetSectorCount` returns
`0x150001`, whatever numbers the cache held; and replaced by another CD: the
next `ReadTOC` returns the tracks of the new TOC block. -/
theorem accessors_reprobe_after_DiscChanged_witness :
    ({ cachedCdSession.issue .STORAGE_CHECK_VERIFY with m_disc_ready := false } :
        IOCtlSrc).m_sectors = 333000
      ∧ (GetSectorCount swappedDrive
          { cachedCdSession.issue .STORAGE_CHECK_VERIFY with m_disc_ready := false }).1
          = some 0x150001
      ∧ GetSectorCount swappedDrive
          { ({ cachedCdSession.issue .STORAGE_CHECK_VERIFY with m_disc_ready := false } :
              IOCtlSrc) with m_media_type := 2, m_layer_break := 7, m_sectors := 9 }
          = GetSectorCount swappedDrive
              { cachedCdSession.issue .STORAGE_CHECK_VERIFY with m_disc_ready := false }
      ∧ (ReadTOC (swappedCdDrive (sampleToc 0 26) (some 0x2000000))
          { cachedCdSession.issue .STORAGE_CHECK_VERIFY with m_disc_ready := false }).1
          = some (specToc (sampleToc 0 26)) :=
  have h := accessors_reprobe_after_DiscChanged swappedDrive cachedCdSession
    { cachedCdSession.issue .STORAGE_CHECK_VERIFY with m_disc_ready := false } rfl (by decide)
  have h2 := accessors_reprobe_after_DiscChanged
    (swappedCdDrive (sampleToc 0 26) (some 0x2000000)) cachedCdSession
    { cachedCdSession.issue .STORAGE_CHECK_VERIFY with m_disc_ready := false } rfl (by decide)
  ⟨h.2.1.1, (h.2.2.2.2.2.2.1 (by decide)).1.trans (by decide),
    (h.2.2.2.2.2.2.2.2.2 2 7 9).1,
    (h2.2.2.2.2.2.2.2.1 (by decide) (sampleToc 0 26) rfl (by decide)).1⟩

/-- C7 as stated fails. The cache of `cachedCdSession` holds the one track of
a CD; `DiscChanged` returns 1 and the drive now holds the single-layer DVD of
C1.  The next `GetMediaType` returns 0, the DVD, but the next `ReadTOC`
returns the track of the CD: the probe issued no TOC query and `m_toc` is
what it was before the change.  And on a drive that now answers the TOC query
with a block of declared length 818 the next `GetSectorCount` does not
complete. -/
theorem accessors_reprobe_after_DiscChanged_counterexample :
    cachedCdSession.OpenOK = true
      ∧ (DiscChanged swappedDrive cachedCdSession).1 = 1
      ∧ (GetMediaType swappedDrive (DiscChanged swappedDrive cachedCdSession).2).1 = some 0
      ∧ cachedCdSession.m_toc = [{ lba := 0, track := 1, adr := 1, control := 4 }]
      ∧ (ReadTOC swappedDrive (DiscChanged swappedDrive cachedCdSession).2).1
          = some [{ lba := 0, track := 1, adr := 1, control := 4 }]
      ∧ (ReadTOC swappedDrive (DiscChanged swappedDrive cachedCdSession).2).2.trace
          = [.STORAGE_CHECK_VERIFY, .DVD_START_SESSION, .DVD_READ_STRUCTURE 7 0,
              .DVD_END_SESSION 7]
      ∧ (DiscChanged (swappedCdDrive (sampleToc 3 50) (some 0x2000000)) cachedCdSession).1 = 1
      ∧ (GetSectorCount (swappedCdDrive (sampleToc 3 50) (some 0x2000000))
          (DiscChanged (swappedCdDrive (sampleToc 3 50) (some 0x2000000))
            cachedCdSession).2).1 = none := by
  refine ⟨rfl, by decide, by decide, rfl, by decide, by decide, by decide, ?_⟩
  have hs : (DiscChanged (swappedCdDrive (sampleToc 3 50) (some 0x2000000))
      cachedCdSession).2
      = { cachedCdSession.issue .STORAGE_CHECK_VERIFY with m_disc_ready := false } := by
    decide
  rw [hs, GetSectorCount_not_ready _ _ rfl,
    RefreshDiscInfo_out_of_bounds (swappedCdDrive (sampleToc 3 50) (some 0x2000000))
      { cachedCdSession.issue .STORAGE_CHECK_VERIFY with m_disc_ready := false }
      (ReadDVDInfo (swappedCdDrive (sampleToc 3 50) (some 0x2000000))
        { ({ cachedCdSession.issue .STORAGE_CHECK_VERIFY with m_disc_ready := false } :
            IOCtlSrc) with m_media_type := 0, m_layer_break := 0, m_sectors := 0 }).2
      (sampleToc 3 50) rfl rfl (Prod.ext (by decide) rfl) rfl (by decide)]
  rfl

end CDVD
